import Mathlib

/-!
Deferred rendering: LOD tracker, visibility gatherer, LOD store, reflection-probe
cubemap renderer and pass sequence.

A shallow embedding of `update_lod_data`, `should_rebuild_reflections`, the
rotations of `get_face_camera` and the member functions `gather_visible_models`, `build_reflections_pass`,
`deferred_render_full`, `g_buffer_pass`, `lighting_pass` and `receive` of
`deferred_rendering`, from `engine/runtime/ecs/systems/deferred_rendering.cpp`.

Conventions of the embedding:

* C++ `float` is the type `float` below, IEEE 754 binary32: a finite value is
  given by the rational number it denotes, every operation rounds its exact
  result to the nearest binary32 value (ties to even, gradual underflow,
  overflow to an infinity), and the signed zeros, the infinities and NaN
  follow the IEEE rules for the operations and the comparisons.
* the cast `(int)x` is truncation toward zero into the 32-bit `int`.
* `std::size_t` and the LOD indices are natural numbers.
* a function whose code can dereference a null pointer returns an `Option`,
  `none` standing for that dereference.
* GPU work is followed through the trace of the `render_pass` objects that are
  constructed and through the draws that a pass submits.
-/

namespace runtime

/-! ## The type `float` -/

/-- The values of a C++ `float` (IEEE 754 binary32): a finite value, given by
the rational number it denotes, with `finite 0` the positive zero; the negative
zero; the two infinities; and NaN.  The binary32 values among `finite q` are
the `q` that `round_f32` leaves unchanged. -/
inductive float
  | finite (value : ℚ)
  | neg_zero
  | pos_inf
  | neg_inf
  | nan
deriving DecidableEq, Repr

/-- The power `2 ^ k` for an integer `k`. -/
def pow2 (k : Int) : ℚ :=
  if 0 ≤ k then ((2 ^ k.toNat : Nat) : ℚ) else 1 / ((2 ^ (-k).toNat : Nat) : ℚ)

/-- The search for the binary32 exponent of `q >= 0`: the largest `e` in
`[-126, n - 126]` with `2 ^ e <= q`, and `-126` (the exponent of the
subnormal range) when there is none. -/
def f32_exponent_aux (q : ℚ) : Nat → Int
  | 0 => -126
  | n + 1 => if pow2 ((n : Int) + 1 - 126) ≤ q then (n : Int) + 1 - 126 else f32_exponent_aux q n

/-- The binary32 exponent of `q >= 0`, in `[-126, 127]`. -/
def f32_exponent (q : ℚ) : Int := f32_exponent_aux q 253

/-- Rounding to the nearest integer, a tie going to the even one. -/
def round_half_even (x : ℚ) : Int :=
  if x - ⌊x⌋ < 1/2 then ⌊x⌋
  else if 1/2 < x - ⌊x⌋ then ⌊x⌋ + 1
  else if ⌊x⌋ % 2 = 0 then ⌊x⌋ else ⌊x⌋ + 1

/-- The magnitude `q >= 0` rounded to 24 significant bits at its binary32
exponent (round to nearest, ties to even). -/
def round_magnitude (q : ℚ) : ℚ :=
  (round_half_even (q / pow2 (f32_exponent q - 23)) : ℚ) * pow2 (f32_exponent q - 23)

/-- The binary32 value of a real number: round to nearest, ties to even, with
gradual underflow (a negative number that rounds to zero gives the negative
zero) and with overflow to an infinity when the rounded magnitude reaches
`2 ^ 128`. -/
def round_f32 (q : ℚ) : float :=
  if q < 0 then
    if pow2 128 ≤ round_magnitude (-q) then float.neg_inf
    else if round_magnitude (-q) = 0 then float.neg_zero
    else float.finite (-round_magnitude (-q))
  else
    if pow2 128 ≤ round_magnitude q then float.pos_inf else float.finite (round_magnitude q)

namespace float

/-- The number a finite value or a zero denotes (0 for the other values). -/
def to_rat : float → ℚ
  | finite a => a
  | _ => 0

/-- The sign bit of a value that is not NaN: `true` for the negative values,
the negative zero among them. -/
def sign : float → Bool
  | finite a => decide (a < 0)
  | neg_zero => true
  | pos_inf => false
  | neg_inf => true
  | nan => false

/-- The zero of the given sign. -/
def zero (negative : Bool) : float := if negative then neg_zero else finite 0

/-- The infinity of the given sign. -/
def inf (negative : Bool) : float := if negative then neg_inf else pos_inf

/-- The test `x == 0.0f`: the value is one of the two zeros. -/
def is_zero : float → Bool
  | finite a => decide (a = 0)
  | neg_zero => true
  | _ => false

/-- The value is an infinity. -/
def is_inf : float → Bool
  | pos_inf => true
  | neg_inf => true
  | _ => false

/-- Negation: the sign bit is flipped. -/
protected def neg : float → float
  | finite a => if a = 0 then neg_zero else finite (-a)
  | neg_zero => finite 0
  | pos_inf => neg_inf
  | neg_inf => pos_inf
  | nan => nan

/-- Addition: the exact sum rounded; `inf + (-inf)` is NaN, and a zero sum has
the positive sign unless both operands are the negative zero. -/
protected def add : float → float → float
  | nan, _ => nan
  | _, nan => nan
  | pos_inf, neg_inf => nan
  | neg_inf, pos_inf => nan
  | pos_inf, _ => pos_inf
  | _, pos_inf => pos_inf
  | neg_inf, _ => neg_inf
  | _, neg_inf => neg_inf
  | neg_zero, neg_zero => neg_zero
  | a, b => round_f32 (a.to_rat + b.to_rat)

/-- Subtraction, `a + (-b)`. -/
protected def sub (a b : float) : float := float.add a (float.neg b)

/-- Multiplication: the exact product rounded, with the sign of a zero or
infinite product the exclusive or of the operands' signs; `0 * inf` is NaN. -/
protected def mul (a b : float) : float :=
  if a = nan ∨ b = nan then nan
  else if a.is_inf ∨ b.is_inf then
    (if a.is_zero ∨ b.is_zero then nan else inf (xor a.sign b.sign))
  else if a.to_rat * b.to_rat = 0 then zero (xor a.sign b.sign)
  else round_f32 (a.to_rat * b.to_rat)

/-- Division: the exact quotient rounded, with the sign of a zero or infinite
quotient the exclusive or of the operands' signs; `0 / 0` and `inf / inf` are
NaN, and a non-zero value divided by a zero is an infinity. -/
protected def div (a b : float) : float :=
  if a = nan ∨ b = nan then nan
  else if a.is_inf then (if b.is_inf then nan else inf (xor a.sign b.sign))
  else if b.is_inf then zero (xor a.sign b.sign)
  else if b.is_zero then (if a.is_zero then nan else inf (xor a.sign b.sign))
  else if a.to_rat = 0 then zero (xor a.sign b.sign)
  else round_f32 (a.to_rat / b.to_rat)

/-- The comparison `a <= b`; false when an operand is NaN, and the two zeros
are equal. -/
protected def le : float → float → Prop
  | nan, _ => False
  | _, nan => False
  | neg_inf, _ => True
  | _, pos_inf => True
  | pos_inf, _ => False
  | _, neg_inf => False
  | a, b => a.to_rat ≤ b.to_rat

/-- The comparison `a < b`; false when an operand is NaN, and the two zeros
are equal. -/
protected def lt : float → float → Prop
  | nan, _ => False
  | _, nan => False
  | neg_inf, neg_inf => False
  | pos_inf, pos_inf => False
  | neg_inf, _ => True
  | _, pos_inf => True
  | pos_inf, _ => False
  | _, neg_inf => False
  | a, b => a.to_rat < b.to_rat

instance : Neg float := ⟨float.neg⟩
instance : Add float := ⟨float.add⟩
instance : Sub float := ⟨float.sub⟩
instance : Mul float := ⟨float.mul⟩
instance : Div float := ⟨float.div⟩
instance : LE float := ⟨float.le⟩
instance : LT float := ⟨float.lt⟩

instance decidable_le (a b : float) : Decidable (a ≤ b) := by
  cases a <;> cases b <;>
    first
    | exact isTrue trivial
    | exact isFalse not_false
    | exact inferInstanceAs (Decidable (float.to_rat _ ≤ float.to_rat _))

instance decidable_lt (a b : float) : Decidable (a < b) := by
  cases a <;> cases b <;>
    first
    | exact isTrue trivial
    | exact isFalse not_false
    | exact inferInstanceAs (Decidable (float.to_rat _ < float.to_rat _))

/-- A literal: the natural number rounded to the nearest `float`. -/
instance (n : Nat) : OfNat float n := ⟨round_f32 (n : ℚ)⟩

/-- The value is one a `float` variable can hold: a zero, an infinity, NaN, or
a rational that is exactly representable in binary32. -/
def is_binary32 : float → Prop
  | finite q => round_f32 q = finite q
  | _ => True

instance (x : float) : Decidable x.is_binary32 := by
  cases x <;>
    first
    | exact isTrue trivial
    | exact inferInstanceAs (Decidable (round_f32 _ = finite _))

end float

/-! ## The LOD tracker -/

/-- Modelled from the spec: the declaration of `lod_data` lives in
`deferred_rendering.h`, which is not among the sources.  The spec gives the
record as `{current_lod_index, target_lod_index, current_time}`; the indices
select an entry of the model's LOD list and the time is a `float`.  The indices
are taken to be of an unsigned 32-bit type (`int_to_index`); the width shows
only where `lod` is negative, and every `lod` in `[0, 2^31)` is stored as it
is. -/
structure lod_data where
  current_lod_index : Nat
  target_lod_index : Nat
  current_time : float
deriving DecidableEq, Repr

/-- The state of a freshly created `lod_data` (`camera_lods[e]` on first use). -/
def lod_data.zero : lod_data := ⟨0, 0, 0⟩

namespace math

/-- Modelled from the spec: `math::max` belongs to the math library, which is
not among the sources: the larger operand, chosen by one comparison, so that
the first operand is returned when an operand is NaN. -/
def max (x y : float) : float := if x < y then y else x

/-- Modelled from the spec: `math::min` belongs to the math library, which is
not among the sources: the smaller operand, chosen by one comparison, so that
the first operand is returned when an operand is NaN. -/
def min (x y : float) : float := if y < x then y else x

/-- Modelled from the spec: `math::clamp` belongs to the math library, which is
not among the sources ("math primitives ... assumed correct"): the value
limited to the interval `[lo, hi]`. -/
def clamp (x lo hi : float) : float := min (max x lo) hi

/-- Modelled from the spec: `math::lerp` belongs to the math library, which is
not among the sources: the linear map taking `t = 0` to `a` and `t = 1` to `b`,
every operation rounded. -/
def lerp (a b t : float) : float := a * (1 - t) + b * t

end math

/-- The conversion `static_cast<float>(n)` of a `std::size_t`: the nearest
`float`. -/
def size_to_float (n : Nat) : float := round_f32 (n : ℚ)

/-- The C++ conversion `(int)x` of a `float` to the 32-bit `int`: truncation
toward zero when the truncated value is an `int`.  For the other values (out
of range, infinite, NaN) C++ leaves the conversion undefined; the model gives
`-2^31`, the result of the conversion instruction of x86. -/
def float_to_int : float → Int
  | float.finite q =>
    if -2 ^ 31 ≤ (if 0 ≤ q then ⌊q⌋ else ⌈q⌉) ∧ (if 0 ≤ q then ⌊q⌋ else ⌈q⌉) < 2 ^ 31 then
      (if 0 ≤ q then ⌊q⌋ else ⌈q⌉)
    else -2 ^ 31
  | float.neg_zero => 0
  | _ => -2 ^ 31

/-- The conversion of an `int` to the unsigned type of the index fields, taken
to be 32 bits wide (lines 104-105): the value modulo `2^32`. -/
def int_to_index (i : Int) : Nat := (i % 2 ^ 32).toNat

/-- The local `factor` of `update_lod_data` (line 102). -/
def lod_factor (min_dist max_dist distance : float) : float :=
  1 - math.clamp ((max_dist - distance) / (max_dist - min_dist)) 0 1

/-- The local `lod` of `update_lod_data` (line 103); `total_lods` is the
parameter as passed by the caller, the body uses it after `total_lods -= 1`. -/
def lod_target (total_lods : Nat) (min_dist max_dist distance : float) : Int :=
  float_to_int (math.lerp 0 (size_to_float (total_lods - 1)) (lod_factor min_dist max_dist distance))

/-- The latch step of `update_lod_data` (lines 104-105); the comparison and the
assignment convert `lod` to the type of the index. -/
def latch_target (data : lod_data) (lod : Int) : lod_data :=
  if data.target_lod_index ≠ int_to_index lod ∧ data.target_lod_index = data.current_lod_index then
    { data with target_lod_index := int_to_index lod }
  else data

/-- The accumulation step of `update_lod_data` (lines 107-108). -/
def accumulate_time (data : lod_data) (dt : float) : lod_data :=
  if data.current_lod_index ≠ data.target_lod_index then
    { data with current_time := data.current_time + dt }
  else data

/-- The completion step of `update_lod_data` (lines 110-114). -/
def complete_transition (data : lod_data) (transition_time : float) : lod_data :=
  if data.current_time ≥ transition_time then
    { data with current_lod_index := data.target_lod_index, current_time := 0 }
  else data

/-- `update_lod_data` (lines 94-115); the mutated `data` is returned. -/
def update_lod_data (data : lod_data) (total_lods : Nat)
    (min_dist max_dist transition_time distance dt : float) : lod_data :=
  if total_lods ≤ 1 then data
  else
    let lod := lod_target total_lods min_dist max_dist distance
    let data := latch_target data lod
    let data := accumulate_time data dt
    complete_transition data transition_time

/-- The condition of the completion branch of `update_lod_data` (line 110) as
it is evaluated during the call: the call gets past the early return and
`data.current_time >= transition_time` holds after the accumulation step. -/
def transition_completes (data : lod_data) (total_lods : Nat)
    (min_dist max_dist transition_time distance dt : float) : Prop :=
  1 < total_lods ∧
    (accumulate_time (latch_target data (lod_target total_lods min_dist max_dist distance))
      dt).current_time ≥ transition_time

instance (data : lod_data) (total_lods : Nat)
    (min_dist max_dist transition_time distance dt : float) :
    Decidable (transition_completes data total_lods min_dist max_dist transition_time distance dt) := by
  unfold transition_completes
  exact inferInstance

/-- The arguments of one `update_lod_data` call, the state apart. -/
structure lod_call where
  total_lods : Nat
  min_dist : float
  max_dist : float
  transition_time : float
  distance : float
  dt : float

/-- A sequence of `update_lod_data` calls on one `lod_data`, first call first. -/
def run_updates (data : lod_data) (calls : List lod_call) : lod_data :=
  calls.foldl
    (fun d c => update_lod_data d c.total_lods c.min_dist c.max_dist c.transition_time c.distance c.dt)
    data

/-- An entity identifier. -/
abbrev entity := Nat

/-- Modelled from the spec: `camera` (rendering/camera.h) is not among the
sources; `gather_visible_models` reads only `get_frustum()`. -/
structure camera (Frustum : Type) where
  get_frustum : Frustum

/-- Modelled from the spec: `mesh` (rendering/mesh.h) is not among the sources;
the gatherer reads only `get_bounds()`. -/
structure mesh (Bounds : Type) where
  get_bounds : Bounds

/-- Modelled from the spec: `transform_component` is not among the sources: a
world transform and a dirty flag. -/
structure transform_component (Transform : Type) where
  get_transform : Transform
  is_dirty : Bool

/-- Modelled from the spec: `model_component` is not among the sources: the
"static" flag, the "casts reflection" flag, the dirty flag and the multi-LOD
model, of which `get_lod i` is the mesh of LOD `i`, `none` while it is not
loaded.  The remaining fields are what the passes read of `get_model()`:
`is_valid()`, `get_lods().size()`, `get_lod_transition_time()`,
`get_lod_min_distance()` and `get_lod_max_distance()`. -/
structure model_component (Bounds : Type) where
  is_static : Bool
  casts_reflection : Bool
  is_dirty : Bool
  get_lod : Nat → Option (mesh Bounds)
  is_valid : Bool
  lod_count : Nat
  get_lod_transition_time : float
  get_lod_min_distance : float
  get_lod_max_distance : float

/-- One element of `visibility_set_models_t`: the entity with the handles of its
transform and model components.  A handle is represented by the component it
resolves to during the call. -/
abbrev visibility_entry (Bounds Transform : Type) :=
  entity × transform_component Transform × model_component Bounds

/-- The type `visibility_set_models_t`. -/
abbrev visibility_set_models_t (Bounds Transform : Type) :=
  List (visibility_entry Bounds Transform)

/-- Modelled from the spec: `reflect_method` is not among the sources, which
name only the value `environment`; `static_only` stands for the other methods. -/
inductive reflect_method
  | environment
  | static_only
deriving DecidableEq, Repr

/-- Modelled from the spec: the probe descriptor; the cubemap renderer reads
only `method`. -/
structure reflection_probe where
  method : reflect_method
deriving DecidableEq, Repr

/-- Modelled from the spec: `reflection_probe_component` is not among the
sources: the probe descriptor and a dirty flag. -/
structure reflection_probe_component where
  get_probe : reflection_probe
  is_dirty : Bool
deriving DecidableEq, Repr

/-- The values of `light_type` that `lighting_pass` tests (lines 476-494). -/
inductive light_type
  | directional
  | point
  | spot
deriving DecidableEq, Repr

/-- Modelled from the spec: the light descriptor; program selection reads only
`type`. -/
structure light where
  type : light_type
deriving DecidableEq, Repr

/-- Modelled from the spec: `light_component` is not among the sources. -/
structure light_component where
  get_light : light
deriving DecidableEq, Repr

/-- Modelled from the spec: the entity-component store is not among the
sources: an entity owns zero or more components. -/
structure ecs_entity (Bounds Transform : Type) where
  id : entity
  transform : Option (transform_component Transform)
  model : Option (model_component Bounds)
  probe : Option reflection_probe_component := none
  light : Option light_component := none

/-- Modelled from the spec: the store itself, the entities in iteration order. -/
abbrev entity_component_system (Bounds Transform : Type) :=
  List (ecs_entity Bounds Transform)

/-- Modelled from the spec: `ecs.entities_with_components(transform, model)`,
"an iteration primitive yielding entities matching a component-type
signature": the entities that own both components, in iteration order. -/
def entities_with_components {Bounds Transform : Type}
    (ecs : entity_component_system Bounds Transform) : visibility_set_models_t Bounds Transform :=
  ecs.filterMap fun e =>
    match e.transform, e.model with
    | some t, some m => some (e.id, t, m)
    | _, _ => none

/-- The body of the loop of `gather_visible_models` (lines 171-232) for one
entity; `result` is the vector built so far and `push_back` appends.
`test_obb` is `math::frustum::test_obb`, a math primitive outside the sources. -/
def gather_visible_models_step {Frustum Bounds Transform : Type}
    (test_obb : Frustum → Bounds → Transform → Bool)
    (camera : Option (camera Frustum))
    (dirty_only static_only require_reflection_caster : Bool)
    (result : visibility_set_models_t Bounds Transform)
    (element : visibility_entry Bounds Transform) : visibility_set_models_t Bounds Transform :=
  let transform_comp := element.2.1
  let model_comp := element.2.2
  if static_only && !model_comp.is_static then result
  else if require_reflection_caster && !model_comp.casts_reflection then result
  else
    match model_comp.get_lod 0 with
    | none => result
    | some mesh =>
      match camera with
      | some cam =>
        if test_obb cam.get_frustum mesh.get_bounds transform_comp.get_transform then
          if dirty_only then
            if transform_comp.is_dirty || model_comp.is_dirty then result ++ [element]
            else result
          else result ++ [element]
        else result
      | none =>
        if dirty_only then
          if transform_comp.is_dirty || model_comp.is_dirty then result ++ [element]
          else result
        else result ++ [element]

/-- `deferred_rendering::gather_visible_models` (lines 161-234).  A null
`camera` is `none`.  The source's defaults are `dirty_only = false`,
`static_only = true`, `require_reflection_caster = false`. -/
def gather_visible_models {Frustum Bounds Transform : Type}
    (test_obb : Frustum → Bounds → Transform → Bool)
    (ecs : entity_component_system Bounds Transform)
    (camera : Option (camera Frustum))
    (dirty_only static_only require_reflection_caster : Bool) :
    visibility_set_models_t Bounds Transform :=
  (entities_with_components ecs).foldl
    (gather_visible_models_step test_obb camera dirty_only static_only require_reflection_caster) []

/-- The condition under which the loop body appends its element, collected
from the branches of `gather_visible_models_step`. -/
def gather_keeps {Frustum Bounds Transform : Type}
    (test_obb : Frustum → Bounds → Transform → Bool)
    (camera : Option (camera Frustum))
    (dirty_only static_only require_reflection_caster : Bool)
    (element : visibility_entry Bounds Transform) : Bool :=
  (!static_only || element.2.2.is_static) &&
  (!require_reflection_caster || element.2.2.casts_reflection) &&
  (match element.2.2.get_lod 0 with
   | none => false
   | some mesh =>
     (match camera with
      | some cam => test_obb cam.get_frustum mesh.get_bounds element.2.1.get_transform
      | none => true) &&
     (!dirty_only || element.2.1.is_dirty || element.2.2.is_dirty))

/-! ### A one-dimensional instance of the frustum test

`math::frustum::test_obb` is a parameter of the embedding.  The scenarios below
instantiate it on the view axis only: a frustum is its far clip distance (the
near clip is the `0.01` of `get_face_camera`), a bounding volume is its radius
and a world transform is the depth of the centre along the view axis. -/

/-- The depth-range test: the volume `[depth - radius, depth + radius]` meets
the range `[1/100, far_clip]`. -/
def axis_test_obb (far_clip radius depth : ℚ) : Bool :=
  decide (1/100 ≤ depth + radius ∧ depth - radius ≤ far_clip)

/-- A camera at the origin with far clip 256. -/
def scenario_camera : camera ℚ := { get_frustum := 256 }

/-- A model component with four LODs, a loaded mesh of bounds radius 1 at every
LOD, transition time 1 and the LOD distance range `[10, 100]`. -/
def scenario_model (is_static : Bool) (casts_reflection is_dirty : Bool) : model_component ℚ :=
  { is_static := is_static, casts_reflection := casts_reflection, is_dirty := is_dirty,
    get_lod := fun _ => some { get_bounds := 1 },
    is_valid := true, lod_count := 4, get_lod_transition_time := 1,
    get_lod_min_distance := 10, get_lod_max_distance := 100 }

/-- A clean transform component at the given depth. -/
def scenario_transform (depth : ℚ) : transform_component ℚ :=
  { get_transform := depth, is_dirty := false }

/-- A store with one entity, at the given depth. -/
def scenario_ecs (depth : ℚ) (is_static : Bool) : entity_component_system ℚ ℚ :=
  [{ id := 7, transform := some (scenario_transform depth),
     model := some (scenario_model is_static false false) }]

/-! ## The LOD store -/

/-- Modelled from the spec: `std::unordered_map<entity, T>`, the standard
container, as the list of its key-value pairs, a key occurring at most once in
the maps the code builds. -/
abbrev unordered_map (α : Type) := List (entity × α)

/-- The value stored under `key` (`find`), `none` when the map has no such entry. -/
def unordered_map.find {α : Type} : unordered_map α → entity → Option α
  | [], _ => none
  | (k, v) :: rest, key => if k = key then some v else unordered_map.find rest key

/-- The call `m.erase(key)`: the map without the entry of `key`. -/
def unordered_map.erase {α : Type} : unordered_map α → entity → unordered_map α
  | [], _ => []
  | (k, v) :: rest, key =>
    if k = key then unordered_map.erase rest key else (k, v) :: unordered_map.erase rest key

/-- The member `_lod_data`: a LOD table per camera or probe entity (lines 271,
301, 311). -/
abbrev lod_store := unordered_map (unordered_map lod_data)

/-- `deferred_rendering::receive` (lines 721-728): the new value of `_lod_data`. -/
def receive (_lod_data : lod_store) (e : entity) : lod_store :=
  let _lod_data := unordered_map.erase _lod_data e
  _lod_data.map fun pair => (pair.1, unordered_map.erase pair.2 e)

/-- A store with the tables of the cameras 1 and 2, both holding entity 7. -/
def scenario_store : lod_store :=
  [(1, [(7, ⟨0, 1, 1/2⟩), (8, ⟨2, 2, 0⟩)]), (7, [(8, ⟨1, 1, 0⟩)]), (2, [(7, ⟨3, 3, 0⟩)])]

/-- The element access `m[key]` read as a value: the stored value, or the
value-initialised `init` that `operator[]` inserts for a new key. -/
def unordered_map.get_or {α : Type} (m : unordered_map α) (key : entity) (init : α) : α :=
  (unordered_map.find m key).getD init

/-- The element access `m[key]` written through: the entry of `key` holds
`value`, a new entry being appended for a new key. -/
def unordered_map.set {α : Type} : unordered_map α → entity → α → unordered_map α
  | [], key, value => [(key, value)]
  | (k, v) :: rest, key, value =>
    if k = key then (k, value) :: rest else (k, v) :: unordered_map.set rest key value

/-! ## Passes -/

/-- The primitives of the math and camera libraries, outside the sources, that
the passes call: `math::frustum::test_obb`; the frustum of the camera that
`get_face_camera(face, transform)` returns (the rotations are at lines 36-83,
the camera class is outside the sources); and the distance that lines 384-397 of
`g_buffer_pass` compute by a ray cast from the camera position to the bounds. -/
structure render_primitives (Frustum Bounds Transform : Type) where
  test_obb : Frustum → Bounds → Transform → Bool
  get_face_camera : Nat → Transform → camera Frustum
  lod_distance : camera Frustum → Transform → Bounds → float

/-- A visibility set as a pass sees it: each handle with the result of its
`lock()`, `none` for a handle whose component is gone. -/
abbrev locked_visibility_set (Bounds Transform : Type) :=
  List (entity × Option (transform_component Transform) × Option (model_component Bounds))

/-- The handles of a visibility set gathered in the running frame all resolve. -/
def lock_handles {Bounds Transform : Type} (visibility_set : visibility_set_models_t Bounds Transform) :
    locked_visibility_set Bounds Transform :=
  visibility_set.map fun element => (element.1, some element.2.1, some element.2.2)

/-- The inner loop of `should_rebuild_reflections` (lines 146-152): the
disjunction over the six faces of the frustum tests.  The face cameras are
built at `world_transform`, the transform of the element under test. -/
def any_face_intersects {Frustum Bounds Transform : Type}
    (P : render_primitives Frustum Bounds Transform) (bounds : Bounds) (world_transform : Transform) :
    Bool :=
  (List.range 6).foldl
    (fun result i =>
      result || P.test_obb (P.get_face_camera i world_transform).get_frustum bounds world_transform)
    false

/-- The loop of `should_rebuild_reflections` (lines 123-158).  The result is
`none` where the code dereferences a null mesh (`mesh->get_bounds()` at line
144 for a valid model whose LOD 0 is not loaded). -/
def should_rebuild_reflections_loop {Frustum Bounds Transform : Type}
    (P : render_primitives Frustum Bounds Transform) :
    locked_visibility_set Bounds Transform → Option Bool
  | [] => some false
  | element :: rest =>
    match element.2.1, element.2.2 with
    | some transform_comp, some model_comp =>
      if !model_comp.is_valid then should_rebuild_reflections_loop P rest
      else
        match model_comp.get_lod 0 with
        | none => none
        | some mesh =>
          if any_face_intersects P mesh.get_bounds transform_comp.get_transform then some true
          else should_rebuild_reflections_loop P rest
    | _, _ => should_rebuild_reflections_loop P rest

/-- `should_rebuild_reflections` (lines 117-159). -/
def should_rebuild_reflections {Frustum Bounds Transform : Type}
    (P : render_primitives Frustum Bounds Transform)
    (visibility_set : locked_visibility_set Bounds Transform) (probe : reflection_probe) :
    Option Bool :=
  if probe.method = reflect_method.environment then some false
  else should_rebuild_reflections_loop P visibility_set

/-- The frame buffers that the passes return, by the name under which the
render view keeps them. -/
inductive frame_buffer
  | g_buffer
  | r_buffer
  | l_buffer
  | output
deriving DecidableEq, Repr

/-- One entry of the pass trace: the construction of a `render_pass`, named
after the string it is constructed with, together with the arguments of the
pass that the claims refer to.  `cubemap_fill` carries the face and the source
of the blit that is issued in it. -/
inductive render_event (Bounds Transform : Type)
  | g_buffer_fill (visibility_set : visibility_set_models_t Bounds Transform)
  | refl_buffer_fill
  | light_buffer_fill (bind_indirect_specular : Bool)
  | atmospherics_fill
  | output_buffer_fill
  | cubemap_fill (face : Nat) (source : frame_buffer)
  | cubemap_generate_mips

/-- One `model.render` call of `g_buffer_pass`: the LOD index and the value of
`u_lod_params`.  The third component is `none` when its quotient has a zero as
the divisor. -/
structure model_draw where
  lod : Nat
  u_lod_params : float × float × Option float
deriving DecidableEq, Repr

/-- The quotient `a / b` of two floats, `none` marking a division by a zero
(`b == 0.0f`). -/
def float_div (a b : float) : Option float := if b.is_zero then none else some (a / b)

/-- What `g_buffer_pass` leaves behind: the draws in submission order and the
LOD table. -/
structure g_buffer_result where
  draws : List model_draw
  camera_lods : unordered_map lod_data
deriving DecidableEq, Repr

/-- The body of the loop of `g_buffer_pass` (lines 347-422) for one element. -/
def g_buffer_pass_element {Frustum Bounds Transform : Type}
    (P : render_primitives Frustum Bounds Transform) (camera : camera Frustum) (dt : float)
    (state : g_buffer_result)
    (element : entity × Option (transform_component Transform) × Option (model_component Bounds)) :
    g_buffer_result :=
  let e := element.1
  match element.2.1, element.2.2 with
  | some transform_comp, some model =>
    if !model.is_valid then state
    else
      let world_transform := transform_comp.get_transform
      let lod_data := unordered_map.get_or state.camera_lods e lod_data.zero
      let camera_lods := unordered_map.set state.camera_lods e lod_data
      let transition_time := model.get_lod_transition_time
      let min_distance := model.get_lod_min_distance
      let max_distance := model.get_lod_max_distance
      let lod_count := model.lod_count
      let current_time := lod_data.current_time
      let current_lod_index := lod_data.current_lod_index
      let target_lod_index := lod_data.target_lod_index
      match model.get_lod current_lod_index with
      | none => { state with camera_lods := camera_lods }
      | some current_mesh =>
        let camera_lods :=
          if lod_count > 1 then
            let distance := P.lod_distance camera world_transform current_mesh.get_bounds
            unordered_map.set camera_lods e
              (update_lod_data lod_data lod_count min_distance max_distance transition_time
                distance dt)
          else camera_lods
        let params : float × float × Option float :=
          (0, -1, float_div (transition_time - current_time) transition_time)
        let params_inv : float × float × Option float := (1, 1, float_div current_time transition_time)
        let draws := state.draws ++ [{ lod := current_lod_index, u_lod_params := params }]
        let draws :=
          if current_time.is_zero = false then
            draws ++ [{ lod := target_lod_index, u_lod_params := params_inv }]
          else draws
        { draws := draws, camera_lods := camera_lods }
  | _, _ => state

/-- `deferred_rendering::g_buffer_pass` (lines 330-426); the returned frame
buffer is `g_buffer_fbo`. -/
def g_buffer_pass {Frustum Bounds Transform : Type}
    (P : render_primitives Frustum Bounds Transform) (camera : camera Frustum)
    (visibility_set : locked_visibility_set Bounds Transform)
    (camera_lods : unordered_map lod_data) (dt : float) : g_buffer_result :=
  visibility_set.foldl (g_buffer_pass_element P camera dt) { draws := [], camera_lods := camera_lods }

/-- A texture bound by `lighting_pass`. -/
inductive texture
  | g_buffer_attachment (index : Nat)
  | refl_buffer
  | ibl_brdf_lut
deriving DecidableEq, Repr

/-- One `gfx::submit` of `lighting_pass`: the program, the uniforms set and the
textures bound as (sampler slot, sampler name, texture). -/
structure light_draw where
  program : light_type
  uniforms : List String
  textures : List (Nat × String × texture)
deriving DecidableEq, Repr

/-- The members `_directional_light_program`, `_point_light_program` and
`_spot_light_program`: `true` once the program is installed. -/
structure light_programs where
  _directional_light_program : Bool
  _point_light_program : Bool
  _spot_light_program : Bool
deriving DecidableEq, Repr

/-- The body of the `ecs.each` callback of `lighting_pass` (lines 465-528) for
one light.  `rect_result` is the value that `compute_projected_sphere_rect`
returns for the light and the camera.  `bind_indirect_specular` is captured by
the callback (line 462); its body does not read it. -/
def lighting_pass_light (programs : light_programs) (bind_indirect_specular : Bool)
    (rect_result : Int) (light : light) : List light_draw :=
  if rect_result = 0 then []
  else
    let program : Option (light_type × List String) := none
    let program :=
      if light.type = light_type.directional ∧ programs._directional_light_program = true then
        some (light_type.directional, ["u_light_direction"])
      else program
    let program :=
      if light.type = light_type.point ∧ programs._point_light_program = true then
        some (light_type.point, ["u_light_position", "u_light_data"])
      else program
    let program :=
      if light.type = light_type.spot ∧ programs._spot_light_program = true then
        some (light_type.spot, ["u_light_position", "u_light_direction", "u_light_data"])
      else program
    match program with
    | some (p, uniforms) =>
      [{ program := p,
         uniforms := uniforms ++ ["u_light_color_intensity", "u_camera_position"],
         textures :=
           [(0, "s_tex0", texture.g_buffer_attachment 0),
            (1, "s_tex1", texture.g_buffer_attachment 1),
            (2, "s_tex2", texture.g_buffer_attachment 2),
            (3, "s_tex3", texture.g_buffer_attachment 3),
            (4, "s_tex4", texture.g_buffer_attachment 4),
            (5, "s_tex5", texture.refl_buffer),
            (6, "s_tex6", texture.ibl_brdf_lut)] }]
    | none => []

/-- Modelled from the spec: `ecs.each<transform_component, light_component>`,
the entities that own both components, in iteration order. -/
def each_transform_light {Bounds Transform : Type}
    (ecs : entity_component_system Bounds Transform) :
    List (entity × transform_component Transform × light_component) :=
  ecs.filterMap fun e =>
    match e.transform, e.light with
    | some t, some l => some (e.id, t, l)
    | _, _ => none

/-- The draws of `deferred_rendering::lighting_pass` (lines 428-532), in
submission order.  `compute_projected_sphere_rect` is the method of
`light_component`, outside the sources, applied to the camera's view and
projection. -/
def lighting_pass {Frustum Bounds Transform : Type}
    (compute_projected_sphere_rect :
      camera Frustum → transform_component Transform → light_component → Int)
    (programs : light_programs) (camera : camera Frustum)
    (ecs : entity_component_system Bounds Transform) (bind_indirect_specular : Bool) :
    List light_draw :=
  (each_transform_light ecs).flatMap fun element =>
    lighting_pass_light programs bind_indirect_specular
      (compute_projected_sphere_rect camera element.2.1 element.2.2) element.2.2.get_light

/-! ### The pass sequence

Each pass is followed here by the `render_pass` objects it constructs and by
the frame buffer it returns (`none` for a null pointer). -/

/-- What a pass adds to the trace and the frame buffer it returns. -/
abbrev pass_result (Bounds Transform : Type) :=
  List (render_event Bounds Transform) × Option frame_buffer

/-- `g_buffer_pass` in the pass sequence: it returns `g_buffer_fbo`. -/
def g_buffer_pass_run {Bounds Transform : Type} (_input : Option frame_buffer)
    (visibility_set : visibility_set_models_t Bounds Transform) : pass_result Bounds Transform :=
  ([render_event.g_buffer_fill visibility_set], some frame_buffer.g_buffer)

/-- `reflection_probe_pass` in the pass sequence (lines 534-627): it returns
`r_buffer_fbo`. -/
def reflection_probe_pass_run {Bounds Transform : Type} (_input : Option frame_buffer) :
    pass_result Bounds Transform :=
  ([render_event.refl_buffer_fill], some frame_buffer.r_buffer)

/-- `lighting_pass` in the pass sequence: it returns `l_buffer_fbo`. -/
def lighting_pass_run {Bounds Transform : Type} (_input : Option frame_buffer)
    (bind_indirect_specular : Bool) : pass_result Bounds Transform :=
  ([render_event.light_buffer_fill bind_indirect_specular], some frame_buffer.l_buffer)

/-- `atmospherics_pass` in the pass sequence (lines 629-689): `input` is
reassigned to the frame buffer "LBUFFER" and returned. -/
def atmospherics_pass_run {Bounds Transform : Type} (_input : Option frame_buffer) :
    pass_result Bounds Transform :=
  ([render_event.atmospherics_fill], some frame_buffer.l_buffer)

/-- `tonemapping_pass` in the pass sequence (lines 691-719): a null `input`
returns a null pointer before any `render_pass` is constructed. -/
def tonemapping_pass_run {Bounds Transform : Type} (input : Option frame_buffer) :
    pass_result Bounds Transform :=
  match input with
  | none => ([], none)
  | some _ => ([render_event.output_buffer_fill], some frame_buffer.output)

/-- What a pass sequence leaves behind: the trace, the returned frame buffer
and the LOD table of the camera. -/
structure render_result (Bounds Transform : Type) where
  trace : List (render_event Bounds Transform)
  output : Option frame_buffer
  camera_lods : unordered_map lod_data

/-- `deferred_rendering::deferred_render_full` (lines 309-328). -/
def deferred_render_full {Frustum Bounds Transform : Type}
    (P : render_primitives Frustum Bounds Transform) (camera : camera Frustum)
    (ecs : entity_component_system Bounds Transform)
    (camera_lods : unordered_map lod_data) (dt : float) : render_result Bounds Transform :=
  let output : Option frame_buffer := none
  let visibility_set := gather_visible_models P.test_obb ecs (some camera) false false false
  let g := g_buffer_pass P camera (lock_handles visibility_set) camera_lods dt
  let p1 := g_buffer_pass_run output visibility_set
  let p2 := reflection_probe_pass_run p1.2
  let p3 := lighting_pass_run p2.2 true
  let p4 := atmospherics_pass_run p3.2
  let p5 := tonemapping_pass_run p4.2
  { trace := p1.1 ++ p2.1 ++ p3.1 ++ p4.1 ++ p5.1, output := p5.2, camera_lods := g.camera_lods }

/-- The state that `build_reflections_pass` works on: the trace so far and the
member `_lod_data`. -/
abbrev reflections_state (Bounds Transform : Type) :=
  List (render_event Bounds Transform) × lod_store

/-- The visibility set of one face in `build_reflections_pass` (lines 272-275):
empty for a probe of method `environment`, gathered for the face camera
otherwise. -/
def face_visibility_set {Frustum Bounds Transform : Type}
    (P : render_primitives Frustum Bounds Transform)
    (ecs : entity_component_system Bounds Transform) (camera : camera Frustum)
    (probe : reflection_probe) (should_rebuild : Bool) : visibility_set_models_t Bounds Transform :=
  if probe.method ≠ reflect_method.environment then
    gather_visible_models P.test_obb ecs (some camera) (!should_rebuild) true true
  else []

/-- The body of the face loop of `build_reflections_pass` (lines 268-285) for
face `i`; `ce` is the probe entity.  The result is `none` where the code
dereferences a null `output` (line 285). -/
def build_reflections_face {Frustum Bounds Transform : Type}
    (P : render_primitives Frustum Bounds Transform)
    (ecs : entity_component_system Bounds Transform) (dt : float)
    (ce : entity) (world_tranform : Transform) (probe : reflection_probe) (should_rebuild : Bool)
    (state : reflections_state Bounds Transform) (i : Nat) :
    Option (reflections_state Bounds Transform) :=
  let camera := P.get_face_camera i world_tranform
  let camera_lods := unordered_map.get_or state.2 ce []
  let _lod_data := unordered_map.set state.2 ce camera_lods
  let visibility_set := face_visibility_set P ecs camera probe should_rebuild
  let output : Option frame_buffer := none
  let g := g_buffer_pass P camera (lock_handles visibility_set) camera_lods dt
  let p1 := g_buffer_pass_run output visibility_set
  let p2 := lighting_pass_run p1.2 false
  let p3 := atmospherics_pass_run p2.2
  let p4 := tonemapping_pass_run p3.2
  match p4.2 with
  | none => none
  | some source =>
    some (state.1 ++ p1.1 ++ p2.1 ++ p3.1 ++ p4.1 ++ [render_event.cubemap_fill i source],
      unordered_map.set _lod_data ce g.camera_lods)

/-- The part of the callback of `build_reflections_pass` that rebuilds the
cubemap (lines 265-289): the six faces, then the pass `cubemap_generate_mips`. -/
def rebuild_probe {Frustum Bounds Transform : Type}
    (P : render_primitives Frustum Bounds Transform)
    (ecs : entity_component_system Bounds Transform) (dt : float)
    (ce : entity) (world_tranform : Transform) (probe : reflection_probe) (should_rebuild : Bool)
    (state : reflections_state Bounds Transform) :
    Option (reflections_state Bounds Transform) :=
  match (List.range 6).foldlM
      (build_reflections_face P ecs dt ce world_tranform probe should_rebuild) state with
  | none => none
  | some state => some (state.1 ++ [render_event.cubemap_generate_mips], state.2)

/-- The value of `should_rebuild` at line 262 for one probe (lines 254-260);
`dirty_models` is the set gathered at line 247. -/
def probe_should_rebuild {Frustum Bounds Transform : Type}
    (P : render_primitives Frustum Bounds Transform)
    (dirty_models : visibility_set_models_t Bounds Transform)
    (transform_comp : transform_component Transform)
    (reflection_probe_comp : reflection_probe_component) : Option Bool :=
  if !transform_comp.is_dirty && !reflection_probe_comp.is_dirty then
    should_rebuild_reflections P (lock_handles dirty_models) reflection_probe_comp.get_probe
  else some true

/-- The callback of `build_reflections_pass` (lines 249-291) for one probe;
`dirty_models` is the set gathered at line 247. -/
def build_reflections_probe {Frustum Bounds Transform : Type}
    (P : render_primitives Frustum Bounds Transform)
    (ecs : entity_component_system Bounds Transform) (dt : float)
    (dirty_models : visibility_set_models_t Bounds Transform)
    (state : reflections_state Bounds Transform)
    (element : entity × transform_component Transform × reflection_probe_component) :
    Option (reflections_state Bounds Transform) :=
  let ce := element.1
  let transform_comp := element.2.1
  let reflection_probe_comp := element.2.2
  let world_tranform := transform_comp.get_transform
  let probe := reflection_probe_comp.get_probe
  let should_rebuild := probe_should_rebuild P dirty_models transform_comp reflection_probe_comp
  match should_rebuild with
  | none => none
  | some false => some state
  | some true => rebuild_probe P ecs dt ce world_tranform probe true state

/-- Modelled from the spec: `ecs.each<transform_component,
reflection_probe_component>`, the entities that own both components, in
iteration order. -/
def each_transform_probe {Bounds Transform : Type}
    (ecs : entity_component_system Bounds Transform) :
    List (entity × transform_component Transform × reflection_probe_component) :=
  ecs.filterMap fun e =>
    match e.transform, e.probe with
    | some t, some p => some (e.id, t, p)
    | _, _ => none

/-- `deferred_rendering::build_reflections_pass` (lines 245-292), started with
an empty trace. -/
def build_reflections_pass {Frustum Bounds Transform : Type}
    (P : render_primitives Frustum Bounds Transform)
    (ecs : entity_component_system Bounds Transform) (dt : float) (_lod_data : lod_store) :
    Option (reflections_state Bounds Transform) :=
  let dirty_models := gather_visible_models P.test_obb ecs none true true true
  (each_transform_probe ecs).foldlM (build_reflections_probe P ecs dt dirty_models) ([], _lod_data)

/-- The string a `render_pass` of the trace is constructed with. -/
def render_event.name {Bounds Transform : Type} : render_event Bounds Transform → String
  | render_event.g_buffer_fill _ => "g_buffer_fill"
  | render_event.refl_buffer_fill => "refl_buffer_fill"
  | render_event.light_buffer_fill _ => "light_buffer_fill"
  | render_event.atmospherics_fill => "atmospherics_fill"
  | render_event.output_buffer_fill => "output_buffer_fill"
  | render_event.cubemap_fill _ _ => "cubemap_fill"
  | render_event.cubemap_generate_mips => "cubemap_generate_mips"

/-- The trace of a cubemap rebuild as the spec words it: for the faces 0 to 5
in that order the G-buffer pass on the face's visibility set, the lighting pass
with the indirect-specular flag false, the atmospherics pass, the tonemapping
pass and the blit of its output into the face; then the mipmap pass, once. -/
def probe_rebuild_trace {Frustum Bounds Transform : Type}
    (P : render_primitives Frustum Bounds Transform)
    (ecs : entity_component_system Bounds Transform) (world_tranform : Transform)
    (probe : reflection_probe) : List (render_event Bounds Transform) :=
  (List.range 6).flatMap (fun i =>
    [render_event.g_buffer_fill
       (face_visibility_set P ecs (P.get_face_camera i world_tranform) probe true),
     render_event.light_buffer_fill false,
     render_event.atmospherics_fill,
     render_event.output_buffer_fill,
     render_event.cubemap_fill i frame_buffer.output])
  ++ [render_event.cubemap_generate_mips]

/-- The primitives on the view axis: the depth-range test, face cameras that
all have the frustum of `scenario_camera`, and the depth, as a `float`, as the
LOD distance. -/
def scenario_primitives : render_primitives ℚ ℚ ℚ :=
  { test_obb := axis_test_obb,
    get_face_camera := fun _ _ => scenario_camera,
    lod_distance := fun _ depth _ => round_f32 depth }

/-- A store with a static reflection caster (entity 7) at the given depth and a
probe (entity 3) at depth 0. -/
def scenario_probe_ecs (depth : ℚ) (model_dirty probe_dirty : Bool) (method : reflect_method) :
    entity_component_system ℚ ℚ :=
  [{ id := 7, transform := some (scenario_transform depth),
     model := some (scenario_model true true model_dirty) },
   { id := 3, transform := some (scenario_transform 0), model := none,
     probe := some { get_probe := { method := method }, is_dirty := probe_dirty } }]

/-- A store with one directional light (entity 5). -/
def scenario_light_ecs : entity_component_system ℚ ℚ :=
  [{ id := 5, transform := some (scenario_transform 20), model := none,
     light := some { get_light := { type := light_type.directional } } }]

/-- The light programs, all three installed. -/
def scenario_programs : light_programs :=
  { _directional_light_program := true, _point_light_program := true,
    _spot_light_program := true }

/-- The model of `scenario_model` with the LOD transition time 0. -/
def scenario_instant_model : model_component ℚ :=
  { scenario_model true true false with get_lod_transition_time := 0 }

/-- A store with one entity, at depth 55, whose model has the transition time 0. -/
def scenario_instant_ecs : entity_component_system ℚ ℚ :=
  [{ id := 7, transform := some (scenario_transform 55), model := some scenario_instant_model }]

/-! ### An instance of the frustum test with a camera position

In the scenarios below a face camera is placed at the transform it is built
for: a frustum is the pair (camera depth, far clip), a bounding volume is the
pair (centre in model space, radius) and a world transform is the depth of the
model origin along the view axis. -/

/-- The type `math::vec3`, by components. -/
abbrev vec3 := ℚ × ℚ × ℚ

/-- The vector `-v`. -/
def vec3.neg (v : vec3) : vec3 := (-v.1, -v.2.1, -v.2.2)

/-- The dot product of two vectors. -/
def vec3.dot (a b : vec3) : ℚ := a.1 * b.1 + a.2.1 * b.2.1 + a.2.2 * b.2.2

/-- The cross product of two vectors. -/
def vec3.cross (a b : vec3) : vec3 :=
  (a.2.1 * b.2.2 - a.2.2 * b.2.1, a.2.2 * b.1 - a.1 * b.2.2, a.1 * b.2.1 - a.2.1 * b.1)

/-- The local `X` of `get_face_camera` (line 30). -/
def axis_X : vec3 := (1, 0, 0)

/-- The local `Y` of `get_face_camera` (line 31). -/
def axis_Y : vec3 := (0, 1, 0)

/-- The local `Z` of `get_face_camera` (line 32). -/
def axis_Z : vec3 := (0, 0, 1)

/-- The arguments `(x, y, z)` of the `t.set_rotation` call that `get_face_camera`
makes for `face` (lines 36-83), `none` when no case of the `switch` matches.
`is_origin_bottom_left` is the value of `gfx::is_origin_bottom_left()`. -/
def face_rotation (is_origin_bottom_left : Bool) (face : Nat) : Option (vec3 × vec3 × vec3) :=
  if !is_origin_bottom_left then
    match face with
    | 0 => some (vec3.neg axis_Z, axis_Y, axis_X)
    | 1 => some (axis_Z, axis_Y, vec3.neg axis_X)
    | 2 => some (axis_X, vec3.neg axis_Z, axis_Y)
    | 3 => some (axis_X, axis_Z, vec3.neg axis_Y)
    | 4 => some (axis_X, axis_Y, axis_Z)
    | 5 => some (vec3.neg axis_X, axis_Y, vec3.neg axis_Z)
    | _ => none
  else
    match face with
    | 0 => some (vec3.neg axis_Z, axis_Y, axis_X)
    | 1 => some (axis_Z, axis_Y, vec3.neg axis_X)
    | 3 => some (axis_X, vec3.neg axis_Z, axis_Y)
    | 2 => some (axis_X, axis_Z, vec3.neg axis_Y)
    | 4 => some (axis_X, axis_Y, axis_Z)
    | 5 => some (vec3.neg axis_X, axis_Y, vec3.neg axis_Z)
    | _ => none

/-- A signed world axis: one of `+X`, `-X`, `+Y`, `-Y`, `+Z`, `-Z`. -/
def is_signed_axis (v : vec3) : Prop :=
  v = axis_X ∨ v = vec3.neg axis_X ∨ v = axis_Y ∨ v = vec3.neg axis_Y ∨
    v = axis_Z ∨ v = vec3.neg axis_Z

/-- A right-handed orthonormal triple of signed world axes. -/
def is_right_handed_axes (t : vec3 × vec3 × vec3) : Prop :=
  is_signed_axis t.1 ∧ is_signed_axis t.2.1 ∧ is_signed_axis t.2.2 ∧
    vec3.dot t.1 t.1 = 1 ∧ vec3.dot t.2.1 t.2.1 = 1 ∧ vec3.dot t.2.2 t.2.2 = 1 ∧
    vec3.dot t.1 t.2.1 = 0 ∧ vec3.dot t.2.1 t.2.2 = 0 ∧ vec3.dot t.1 t.2.2 = 0 ∧
    vec3.cross t.1 t.2.1 = t.2.2

instance (t : vec3 × vec3 × vec3) : Decidable (is_right_handed_axes t) := by
  unfold is_right_handed_axes is_signed_axis
  exact inferInstance

/-- The member program that `lighting_pass` tests for a light of the given type
(lines 476, 483, 494): `true` once it is installed. -/
def light_programs.installed (programs : light_programs) : light_type → Bool
  | light_type.directional => programs._directional_light_program
  | light_type.point => programs._point_light_program
  | light_type.spot => programs._spot_light_program

/-! ## Lemmas on `float` -/

theorem pow2_eq_zpow (k : Int) : pow2 k = (2 : ℚ) ^ k := by
  unfold pow2
  split_ifs with h
  · obtain ⟨n, rfl⟩ := Int.eq_ofNat_of_zero_le h
    simp
  · push_neg at h
    obtain ⟨n, hn⟩ : ∃ n : Nat, -k = n := ⟨(-k).toNat, (Int.toNat_of_nonneg (by omega)).symm⟩
    have hk : k = -(n : Int) := by omega
    subst hk
    simp

theorem pow2_pos (k : Int) : 0 < pow2 k := by
  rw [pow2_eq_zpow]
  positivity

theorem pow2_add (a b : Int) : pow2 (a + b) = pow2 a * pow2 b := by
  rw [pow2_eq_zpow, pow2_eq_zpow, pow2_eq_zpow, zpow_add₀ (by norm_num)]

theorem pow2_le_pow2 {a b : Int} (h : a ≤ b) : pow2 a ≤ pow2 b := by
  rw [pow2_eq_zpow, pow2_eq_zpow]
  exact zpow_le_zpow_right₀ (by norm_num) h

theorem pow2_succ (a : Int) : pow2 (a + 1) = 2 * pow2 a := by
  rw [pow2_add, mul_comm]
  congr 1

/-! round_half_even -/

theorem round_half_even_intCast (n : Int) : round_half_even (n : ℚ) = n := by
  unfold round_half_even
  simp

theorem floor_le_round_half_even (x : ℚ) : ⌊x⌋ ≤ round_half_even x := by
  unfold round_half_even
  split_ifs <;> omega

theorem round_half_even_le_floor_succ (x : ℚ) : round_half_even x ≤ ⌊x⌋ + 1 := by
  unfold round_half_even
  split_ifs <;> omega

theorem round_half_even_mono {x y : ℚ} (h : x ≤ y) : round_half_even x ≤ round_half_even y := by
  have hf : ⌊x⌋ ≤ ⌊y⌋ := Int.floor_le_floor h
  rcases lt_or_eq_of_le hf with hlt | heq
  · calc round_half_even x ≤ ⌊x⌋ + 1 := round_half_even_le_floor_succ x
      _ ≤ ⌊y⌋ := hlt
      _ ≤ round_half_even y := floor_le_round_half_even y
  · unfold round_half_even
    rw [heq]
    have hxy : x - (⌊y⌋ : ℚ) ≤ y - (⌊y⌋ : ℚ) := by linarith
    split_ifs <;> first | omega | linarith
/-! exponent -/

theorem f32_exponent_aux_spec (q : ℚ) (n : Nat) :
    -126 ≤ f32_exponent_aux q n ∧ f32_exponent_aux q n ≤ (n : Int) - 126 ∧
    (-126 < f32_exponent_aux q n → pow2 (f32_exponent_aux q n) ≤ q) ∧
    (f32_exponent_aux q n < (n : Int) - 126 → q < pow2 (f32_exponent_aux q n + 1)) := by
  induction n with
  | zero => simp [f32_exponent_aux]
  | succ n ih =>
    obtain ⟨h1, h2, h3, h4⟩ := ih
    unfold f32_exponent_aux
    split_ifs with h
    · refine ⟨by omega, by push_cast; omega, fun _ => h, fun hlt => ?_⟩
      push_cast at hlt
      omega
    · push_neg at h
      refine ⟨h1, by push_cast; omega, h3, fun _ => ?_⟩
      by_cases he : f32_exponent_aux q n < (n : Int) - 126
      · exact h4 he
      · have heq : f32_exponent_aux q n = (n : Int) - 126 := by omega
        rw [heq]
        have : (n : Int) - 126 + 1 = (n : Int) + 1 - 126 := by ring
        rw [this]
        exact h

theorem f32_exponent_aux_mono {q1 q2 : ℚ} (h : q1 ≤ q2) (n : Nat) :
    f32_exponent_aux q1 n ≤ f32_exponent_aux q2 n := by
  induction n with
  | zero => simp [f32_exponent_aux]
  | succ n ih =>
    unfold f32_exponent_aux
    split_ifs with h1 h2 h2
    · exact le_refl _
    · exact absurd (le_trans h1 h) h2
    · have := (f32_exponent_aux_spec q1 n).2.1
      omega
    · exact ih

theorem f32_exponent_ge (q : ℚ) : -126 ≤ f32_exponent q := (f32_exponent_aux_spec q 253).1

theorem f32_exponent_le (q : ℚ) : f32_exponent q ≤ 127 := by
  have := (f32_exponent_aux_spec q 253).2.1
  unfold f32_exponent
  push_cast at this
  omega

theorem pow2_exponent_le (q : ℚ) (h : -126 < f32_exponent q) : pow2 (f32_exponent q) ≤ q :=
  (f32_exponent_aux_spec q 253).2.2.1 h

theorem lt_pow2_exponent_succ (q : ℚ) (h : f32_exponent q < 127) :
    q < pow2 (f32_exponent q + 1) :=
  (f32_exponent_aux_spec q 253).2.2.2 (by unfold f32_exponent at h; push_cast; omega)

theorem f32_exponent_mono {q1 q2 : ℚ} (h : q1 ≤ q2) : f32_exponent q1 ≤ f32_exponent q2 :=
  f32_exponent_aux_mono h 253

theorem pow2_lt_pow2 {a b : Int} (h : a < b) : pow2 a < pow2 b := by
  rw [pow2_eq_zpow, pow2_eq_zpow]
  exact zpow_lt_zpow_right₀ (by norm_num) h

theorem le_f32_exponent (q : ℚ) (k : Int) (hk : k ≤ 127) (h : pow2 k ≤ q) : k ≤ f32_exponent q := by
  by_contra hlt
  push_neg at hlt
  have h1 := lt_pow2_exponent_succ q (by omega)
  have h2 : pow2 (f32_exponent q + 1) ≤ pow2 k := pow2_le_pow2 (by omega)
  linarith

theorem f32_exponent_lt (q : ℚ) (k : Int) (hk : -126 < k) (h : q < pow2 k) : f32_exponent q < k := by
  by_contra hge
  push_neg at hge
  have h1 := pow2_exponent_le q (by omega)
  have h2 : pow2 k ≤ pow2 (f32_exponent q) := pow2_le_pow2 hge
  linarith

/-! round_magnitude -/

theorem round_magnitude_nonneg {q : ℚ} (h : 0 ≤ q) : 0 ≤ round_magnitude q := by
  unfold round_magnitude
  have hu := pow2_pos (f32_exponent q - 23)
  have h0 : (0 : Int) ≤ round_half_even (q / pow2 (f32_exponent q - 23)) := by
    have := round_half_even_mono (div_nonneg h hu.le)
    rw [show (0 : ℚ) = ((0 : Int) : ℚ) by simp, round_half_even_intCast] at this
    exact this
  exact mul_nonneg (by exact_mod_cast h0) hu.le

theorem round_magnitude_le_pow2 {q : ℚ} (h : f32_exponent q < 127) :
    round_magnitude q ≤ pow2 (f32_exponent q + 1) := by
  unfold round_magnitude
  have hu := pow2_pos (f32_exponent q - 23)
  have hq := lt_pow2_exponent_succ q h
  have hsplit : pow2 (f32_exponent q + 1) = ((2 ^ 24 : Int) : ℚ) * pow2 (f32_exponent q - 23) := by
    rw [show f32_exponent q + 1 = 24 + (f32_exponent q - 23) by ring, pow2_add]
    congr 1
  have hx : q / pow2 (f32_exponent q - 23) ≤ ((2 ^ 24 : Int) : ℚ) := by
    rw [div_le_iff₀ hu, ← hsplit]
    exact hq.le
  have hr := round_half_even_mono hx
  rw [round_half_even_intCast] at hr
  rw [hsplit]
  exact mul_le_mul_of_nonneg_right (by exact_mod_cast hr) hu.le

theorem pow2_le_round_magnitude {q : ℚ} (h : -126 < f32_exponent q) :
    pow2 (f32_exponent q) ≤ round_magnitude q := by
  unfold round_magnitude
  have hu := pow2_pos (f32_exponent q - 23)
  have hq := pow2_exponent_le q h
  have hsplit : pow2 (f32_exponent q) = ((2 ^ 23 : Int) : ℚ) * pow2 (f32_exponent q - 23) := by
    rw [show f32_exponent q = 23 + (f32_exponent q - 23) by ring, pow2_add]
    congr 1
    · ring_nf
  have hx : ((2 ^ 23 : Int) : ℚ) ≤ q / pow2 (f32_exponent q - 23) := by
    rw [le_div_iff₀ hu, ← hsplit]
    exact hq
  have hr := round_half_even_mono hx
  rw [round_half_even_intCast] at hr
  calc pow2 (f32_exponent q) = ((2 ^ 23 : Int) : ℚ) * pow2 (f32_exponent q - 23) := hsplit
    _ ≤ _ := mul_le_mul_of_nonneg_right (by exact_mod_cast hr) hu.le

theorem round_magnitude_mono {q1 q2 : ℚ} (h : q1 ≤ q2) :
    round_magnitude q1 ≤ round_magnitude q2 := by
  have he := f32_exponent_mono h
  rcases lt_or_eq_of_le he with hlt | heq
  · have h1 := round_magnitude_le_pow2 (q := q1) (by have := f32_exponent_le q2; omega)
    have h2 := pow2_le_round_magnitude (q := q2) (by have := f32_exponent_ge q1; omega)
    have h3 : pow2 (f32_exponent q1 + 1) ≤ pow2 (f32_exponent q2) := pow2_le_pow2 (by omega)
    linarith
  · unfold round_magnitude
    rw [heq]
    have hu := pow2_pos (f32_exponent q2 - 23)
    have hx : q1 / pow2 (f32_exponent q2 - 23) ≤ q2 / pow2 (f32_exponent q2 - 23) :=
      div_le_div_of_nonneg_right h hu.le
    have hr := round_half_even_mono hx
    exact mul_le_mul_of_nonneg_right (by exact_mod_cast hr) hu.le

theorem round_magnitude_exact (m : Nat) (k : Int)
    (h : f32_exponent ((m : ℚ) * pow2 k) - 23 ≤ k) :
    round_magnitude ((m : ℚ) * pow2 k) = (m : ℚ) * pow2 k := by
  unfold round_magnitude
  set e := f32_exponent ((m : ℚ) * pow2 k) with he
  have hu := pow2_pos (e - 23)
  obtain ⟨j, hj⟩ : ∃ j : Nat, k - (e - 23) = j := ⟨(k - (e - 23)).toNat, by omega⟩
  have hk : pow2 k = ((2 ^ j : Nat) : ℚ) * pow2 (e - 23) := by
    rw [show k = (j : Int) + (e - 23) by omega, pow2_add]
    rw [pow2_eq_zpow j]
    simp
  have hx : (m : ℚ) * pow2 k / pow2 (e - 23) = (((m * 2 ^ j : Nat) : Int) : ℚ) := by
    rw [hk]
    field_simp
    ring
  rw [hx, round_half_even_intCast, hk]
  push_cast
  ring

theorem round_magnitude_nat (n : Nat) (h : n ≤ 2 ^ 24) : round_magnitude (n : ℚ) = n := by
  rcases Nat.lt_or_ge n (2 ^ 24) with hlt | hge
  · have := round_magnitude_exact n 0 (by
      have : f32_exponent ((n : ℚ) * pow2 0) < 24 := by
        apply f32_exponent_lt _ _ (by norm_num)
        have : pow2 0 = 1 := by simp [pow2]
        rw [this, mul_one]
        have h24 : pow2 24 = ((2 ^ 24 : Nat) : ℚ) := by simp [pow2]
        rw [h24]
        exact_mod_cast hlt
      omega)
    have hp : pow2 0 = 1 := by simp [pow2]
    rw [hp, mul_one] at this
    exact this
  · have hn : n = 2 ^ 24 := by omega
    subst hn
    have h24 : pow2 24 = ((2 ^ 24 : Nat) : ℚ) := by simp [pow2]
    have := round_magnitude_exact 1 24 (by
      have : f32_exponent (((1 : Nat) : ℚ) * pow2 24) < 25 := by
        apply f32_exponent_lt _ _ (by norm_num)
        rw [Nat.cast_one, one_mul]
        exact pow2_lt_pow2 (by norm_num)
      omega)
    rw [Nat.cast_one, one_mul, h24] at this
    exact this

/-! ### Rounding -/

theorem round_magnitude_zero : round_magnitude 0 = 0 := by
  unfold round_magnitude
  rw [zero_div, show (0 : ℚ) = ((0 : Int) : ℚ) by simp, round_half_even_intCast]
  simp

theorem round_f32_zero : round_f32 0 = float.finite 0 := by
  unfold round_f32
  rw [if_neg (lt_irrefl 0), round_magnitude_zero, if_neg (not_le.mpr (pow2_pos 128))]

theorem round_f32_ne_nan (q : ℚ) : round_f32 q ≠ float.nan := by
  unfold round_f32
  split_ifs <;> simp

/-- A non-negative number rounds to a non-negative finite value or to the
positive infinity. -/
theorem round_f32_of_nonneg {q : ℚ} (h : 0 ≤ q) :
    round_f32 q = (if pow2 128 ≤ round_magnitude q then float.pos_inf
      else float.finite (round_magnitude q)) := by
  unfold round_f32
  rw [if_neg (not_lt.mpr h)]

theorem float_finite_le_finite {a b : ℚ} : float.finite a ≤ float.finite b ↔ a ≤ b := Iff.rfl

theorem float_finite_lt_finite {a b : ℚ} : float.finite a < float.finite b ↔ a < b := Iff.rfl

theorem float_finite_le_neg_zero {a : ℚ} : float.finite a ≤ float.neg_zero ↔ a ≤ 0 := Iff.rfl

theorem float_neg_zero_le_finite {b : ℚ} : float.neg_zero ≤ float.finite b ↔ 0 ≤ b := Iff.rfl

theorem float_finite_lt_neg_zero {a : ℚ} : float.finite a < float.neg_zero ↔ a < 0 := Iff.rfl

theorem float_neg_zero_lt_finite {b : ℚ} : float.neg_zero < float.finite b ↔ 0 < b := Iff.rfl

theorem float_neg_zero_le_neg_zero : float.neg_zero ≤ float.neg_zero := le_refl (0 : ℚ)

theorem round_f32_mono {q1 q2 : ℚ} (h : q1 ≤ q2) : round_f32 q1 ≤ round_f32 q2 := by
  unfold round_f32
  by_cases h1 : q1 < 0
  · by_cases h2 : q2 < 0
    · have hm : round_magnitude (-q2) ≤ round_magnitude (-q1) := round_magnitude_mono (by linarith)
      have hn1 : 0 ≤ round_magnitude (-q1) := round_magnitude_nonneg (by linarith)
      have hn2 : 0 ≤ round_magnitude (-q2) := round_magnitude_nonneg (by linarith)
      rw [if_pos h1, if_pos h2]
      by_cases ha : pow2 128 ≤ round_magnitude (-q1)
      · rw [if_pos ha]
        split_ifs <;> trivial
      · rw [if_neg ha]
        have hb : ¬ pow2 128 ≤ round_magnitude (-q2) := fun hb => ha (le_trans hb hm)
        rw [if_neg hb]
        by_cases hz1 : round_magnitude (-q1) = 0
        · have hz2 : round_magnitude (-q2) = 0 := le_antisymm (by linarith) hn2
          rw [if_pos hz1, if_pos hz2]
          exact float_neg_zero_le_neg_zero
        · rw [if_neg hz1]
          by_cases hz2 : round_magnitude (-q2) = 0
          · rw [if_pos hz2]
            exact float_finite_le_neg_zero.mpr (by linarith)
          · rw [if_neg hz2]
            exact float_finite_le_finite.mpr (by linarith)
    · have hn1 : 0 ≤ round_magnitude (-q1) := round_magnitude_nonneg (by linarith)
      have hn2 : 0 ≤ round_magnitude q2 := round_magnitude_nonneg (by linarith)
      rw [if_pos h1, if_neg h2]
      by_cases hb : pow2 128 ≤ round_magnitude q2
      · rw [if_pos hb]
        split_ifs <;> trivial
      · rw [if_neg hb]
        split_ifs
        · trivial
        · exact float_neg_zero_le_finite.mpr hn2
        · exact float_finite_le_finite.mpr (by linarith)
  · have h2 : ¬ q2 < 0 := by linarith
    have hm : round_magnitude q1 ≤ round_magnitude q2 := round_magnitude_mono h
    rw [if_neg h1, if_neg h2]
    split_ifs with ha hb hb
    · trivial
    · exact absurd (le_trans ha hm) hb
    · trivial
    · exact float_finite_le_finite.mpr hm

theorem round_f32_nat (n : Nat) (h : n ≤ 2 ^ 24) : round_f32 (n : ℚ) = float.finite n := by
  rw [round_f32_of_nonneg (Nat.cast_nonneg n), round_magnitude_nat n h, if_neg]
  rw [not_le]
  have h128 : pow2 128 = ((2 ^ 128 : Nat) : ℚ) := by simp [pow2]
  rw [h128]
  exact_mod_cast lt_of_le_of_lt h (by norm_num)

/-- A value between 0 and a binary32 value rounds to a finite value between
them. -/
theorem round_f32_between {hi q : ℚ} (hhi : round_f32 hi = float.finite hi)
    (h1 : 0 ≤ q) (h2 : q ≤ hi) :
    ∃ p, round_f32 q = float.finite p ∧ 0 ≤ p ∧ p ≤ hi := by
  have m2 := round_f32_mono h2
  rw [hhi, round_f32_of_nonneg h1] at m2
  rw [round_f32_of_nonneg h1]
  split_ifs at m2 ⊢ with hc
  · exact absurd m2 not_false
  · exact ⟨_, rfl, round_magnitude_nonneg h1, float_finite_le_finite.mp m2⟩

theorem float_zero_eq : (0 : float) = float.finite 0 := by
  show round_f32 ((0 : Nat) : ℚ) = float.finite 0
  rw [Nat.cast_zero, round_f32_zero]

theorem float_one_eq : (1 : float) = float.finite 1 := by
  show round_f32 ((1 : Nat) : ℚ) = float.finite 1
  rw [round_f32_nat 1 (by norm_num), Nat.cast_one]

theorem float_ofNat_eq (n : Nat) (h : n ≤ 2 ^ 24) :
    (OfNat.ofNat n : float) = float.finite n := round_f32_nat n h

theorem round_f32_one : round_f32 1 = float.finite 1 := by
  have := round_f32_nat 1 (by norm_num)
  rwa [Nat.cast_one] at this

/-! ### Binary32 values -/

/-- The least positive binary32 value is `2 ^ (-149)`. -/
theorem round_magnitude_pow2_min : round_magnitude (pow2 (-149)) = pow2 (-149) := by
  have h := round_magnitude_exact 1 (-149) (by
    have h1 : f32_exponent (((1 : Nat) : ℚ) * pow2 (-149)) < -125 := by
      apply f32_exponent_lt _ _ (by norm_num)
      rw [Nat.cast_one, one_mul]
      exact pow2_lt_pow2 (by norm_num)
    omega)
  rwa [Nat.cast_one, one_mul] at h

theorem round_magnitude_multiple (q : ℚ) (hq : 0 ≤ q) :
    ∃ z : Nat, round_magnitude q = (z : ℚ) * pow2 (-149) := by
  unfold round_magnitude
  have hu := pow2_pos (f32_exponent q - 23)
  have h0 : (0 : Int) ≤ round_half_even (q / pow2 (f32_exponent q - 23)) := by
    have := round_half_even_mono (div_nonneg hq hu.le)
    rw [show (0 : ℚ) = ((0 : Int) : ℚ) by simp, round_half_even_intCast] at this
    exact this
  obtain ⟨m, hm⟩ := Int.eq_ofNat_of_zero_le h0
  have he := f32_exponent_ge q
  obtain ⟨j, hj⟩ : ∃ j : Nat, f32_exponent q - 23 - (-149) = j :=
    ⟨(f32_exponent q - 23 - (-149)).toNat, by omega⟩
  have hk : pow2 (f32_exponent q - 23) = ((2 ^ j : Nat) : ℚ) * pow2 (-149) := by
    rw [show f32_exponent q - 23 = (j : Int) + (-149) by omega, pow2_add]
    rw [pow2_eq_zpow j]
    simp
  refine ⟨m * 2 ^ j, ?_⟩
  rw [hm, hk]
  push_cast
  ring

/-- A finite binary32 value is an integer multiple of `2 ^ (-149)`. -/
theorem float_is_binary32_multiple {q : ℚ} (h : (float.finite q).is_binary32) :
    ∃ z : Int, q = (z : ℚ) * pow2 (-149) := by
  have h' : round_f32 q = float.finite q := h
  unfold round_f32 at h'
  split_ifs at h' with h1 h2 h3 h2
  · obtain ⟨z, hz⟩ := round_magnitude_multiple (-q) (by linarith)
    have hq : -round_magnitude (-q) = q := by injection h'
    refine ⟨-(z : Int), ?_⟩
    rw [← hq, hz]
    push_cast
    ring
  · obtain ⟨z, hz⟩ := round_magnitude_multiple q (by linarith)
    have hq : round_magnitude q = q := by injection h'
    refine ⟨(z : Int), ?_⟩
    rw [← hq, hz]
    push_cast
    ring

/-- A value that is at least `2 ^ (-149)` rounds to a positive value. -/
theorem round_f32_pos_of_ge {q : ℚ} (hge : pow2 (-149) ≤ q) : float.finite 0 < round_f32 q := by
  have hp := pow2_pos (-149)
  have hm := round_magnitude_mono hge
  rw [round_magnitude_pow2_min] at hm
  rw [round_f32_of_nonneg (by linarith)]
  split_ifs
  · trivial
  · exact float_finite_lt_finite.mpr (by linarith)


/-! ### Comparisons and operations -/

theorem float_neg_inf_le {y : float} (h : y ≠ float.nan) : float.neg_inf ≤ y := by
  cases y <;> trivial

theorem float_le_pos_inf {y : float} (h : y ≠ float.nan) : y ≤ float.pos_inf := by
  cases y <;> trivial

theorem float_ne_nan_of_le_left {a b : float} (h : a ≤ b) : a ≠ float.nan := by
  cases a <;> cases b <;> first | exact absurd h not_false | simp

theorem float_ne_nan_of_le_right {a b : float} (h : a ≤ b) : b ≠ float.nan := by
  cases a <;> cases b <;> first | exact absurd h not_false | simp

/-- In a comparison the negative zero stands for the positive zero. -/
theorem float_neg_zero_le_iff (x : float) : float.neg_zero ≤ x ↔ float.finite 0 ≤ x := by
  cases x <;> exact Iff.rfl

theorem float_le_neg_zero_iff (x : float) : x ≤ float.neg_zero ↔ x ≤ float.finite 0 := by
  cases x <;> exact Iff.rfl

theorem float_le_trans {a b c : float} (h1 : a ≤ b) (h2 : b ≤ c) : a ≤ c := by
  cases a <;> cases b <;> cases c <;>
    first
    | trivial
    | exact absurd h1 not_false
    | exact absurd h2 not_false
    | exact le_trans (α := ℚ) h1 h2

theorem float_le_of_lt {a b : float} (h : a < b) : a ≤ b := by
  cases a <;> cases b <;>
    first
    | exact absurd h not_false
    | trivial
    | exact le_of_lt (α := ℚ) h

theorem float_lt_ne {a b : float} (h : a < b) : b ≠ a := by
  intro heq
  subst heq
  cases b <;> first | exact absurd h not_false | exact absurd h (lt_irrefl (α := ℚ) _)

theorem float_finite_sub_finite (b x : ℚ) :
    float.finite b - float.finite x = round_f32 (b - x) := by
  show float.add (float.finite b) (float.neg (float.finite x)) = _
  by_cases hx : x = 0
  · subst hx
    simp only [float.neg, if_true]
    show round_f32 (b + 0) = _
    rw [add_zero, sub_zero]
  · simp only [float.neg, hx, if_false]
    show round_f32 (b + -x) = _
    rw [sub_eq_add_neg]

theorem float_finite_sub_neg_zero (b : ℚ) :
    float.finite b - float.neg_zero = round_f32 b := by
  show round_f32 (b + 0) = _
  rw [add_zero]

/-- Subtraction from a finite value reverses the order. -/
theorem float_sub_le_sub_left (b : ℚ) {d1 d2 : float} (h : d1 ≤ d2) :
    float.finite b - d2 ≤ float.finite b - d1 := by
  cases d1 <;> cases d2 <;>
    first
    | exact absurd h not_false
    | (rw [float_finite_sub_finite, float_finite_sub_finite]
       exact round_f32_mono (by have := float_finite_le_finite.mp h; linarith))
    | (rw [float_finite_sub_finite, float_finite_sub_neg_zero]
       exact round_f32_mono (by have := float_finite_le_neg_zero.mp h; linarith))
    | (rw [float_finite_sub_finite, float_finite_sub_neg_zero]
       exact round_f32_mono (by have := float_neg_zero_le_finite.mp h; linarith))
    | (rw [float_finite_sub_neg_zero]
       exact round_f32_mono le_rfl)
    | (rw [float_finite_sub_finite]
       first
       | exact float_neg_inf_le (round_f32_ne_nan _)
       | exact float_le_pos_inf (round_f32_ne_nan _))
    | (rw [float_finite_sub_neg_zero]
       first
       | exact float_neg_inf_le (round_f32_ne_nan _)
       | exact float_le_pos_inf (round_f32_ne_nan _))
    | trivial

theorem float_sub_ne_nan (b : ℚ) {d : float} (h : d ≠ float.nan) :
    float.finite b - d ≠ float.nan := by
  cases d with
  | finite x =>
    rw [float_finite_sub_finite]
    exact round_f32_ne_nan _
  | neg_zero =>
    rw [float_finite_sub_neg_zero]
    exact round_f32_ne_nan _
  | pos_inf => exact fun h => float.noConfusion h
  | neg_inf => exact fun h => float.noConfusion h
  | nan => exact absurd rfl h

theorem float_finite_div_finite {m : ℚ} (hm : 0 < m) (y : ℚ) :
    float.finite y / float.finite m = round_f32 (y / m) := by
  have hne : m ≠ 0 := ne_of_gt hm
  show float.div (float.finite y) (float.finite m) = _
  by_cases hy : y = 0
  · subst hy
    simp [float.div, float.is_inf, float.is_zero, float.to_rat, float.sign, float.zero, hne,
      not_lt.mpr hm.le, round_f32_zero]
  · simp [float.div, float.is_inf, float.is_zero, float.to_rat, hne, hy]

theorem float_neg_zero_div_finite {m : ℚ} (hm : 0 < m) :
    float.neg_zero / float.finite m = float.neg_zero := by
  have hne : m ≠ 0 := ne_of_gt hm
  show float.div float.neg_zero (float.finite m) = _
  simp [float.div, float.is_inf, float.is_zero, float.to_rat, float.sign, float.zero, hne,
    not_lt.mpr hm.le]

theorem float_pos_inf_div_finite {m : ℚ} (hm : 0 < m) :
    float.pos_inf / float.finite m = float.pos_inf := by
  show float.div float.pos_inf (float.finite m) = _
  simp [float.div, float.is_inf, float.sign, float.inf, not_lt.mpr hm.le]

theorem float_neg_inf_div_finite {m : ℚ} (hm : 0 < m) :
    float.neg_inf / float.finite m = float.neg_inf := by
  show float.div float.neg_inf (float.finite m) = _
  simp [float.div, float.is_inf, float.sign, float.inf, not_lt.mpr hm.le]

/-- Division by a positive finite value keeps the order. -/
theorem float_hdiv_le_hdiv_right {m : ℚ} (hm : 0 < m) {n1 n2 : float} (h : n1 ≤ n2) :
    n1 / float.finite m ≤ n2 / float.finite m := by
  have h0 : round_f32 (0 / m) = float.finite 0 := by rw [zero_div, round_f32_zero]
  cases n1 <;> cases n2 <;>
    (try simp only [float_finite_div_finite hm, float_neg_zero_div_finite hm,
      float_pos_inf_div_finite hm, float_neg_inf_div_finite hm]) <;>
    first
    | exact absurd h not_false
    | exact round_f32_mono (div_le_div_of_nonneg_right (float_finite_le_finite.mp h) hm.le)
    | (rw [float_le_neg_zero_iff, ← h0]
       exact round_f32_mono (div_le_div_of_nonneg_right (float_finite_le_neg_zero.mp h) hm.le))
    | (rw [float_neg_zero_le_iff, ← h0]
       exact round_f32_mono (div_le_div_of_nonneg_right (float_neg_zero_le_finite.mp h) hm.le))
    | exact float_neg_zero_le_neg_zero
    | exact float_neg_inf_le (round_f32_ne_nan _)
    | exact float_le_pos_inf (round_f32_ne_nan _)
    | trivial

theorem float_hdiv_ne_nan {m : ℚ} (hm : 0 < m) {n : float} (h : n ≠ float.nan) :
    n / float.finite m ≠ float.nan := by
  cases n with
  | finite y =>
    rw [float_finite_div_finite hm]
    exact round_f32_ne_nan _
  | neg_zero =>
    rw [float_neg_zero_div_finite hm]
    exact fun h => float.noConfusion h
  | pos_inf =>
    rw [float_pos_inf_div_finite hm]
    exact fun h => float.noConfusion h
  | neg_inf =>
    rw [float_neg_inf_div_finite hm]
    exact fun h => float.noConfusion h
  | nan => exact absurd rfl h

theorem float_finite_add_finite (a b : ℚ) :
    float.finite a + float.finite b = round_f32 (a + b) := rfl

theorem float_neg_zero_add_finite (b : ℚ) :
    float.neg_zero + float.finite b = round_f32 b := by
  show round_f32 (0 + b) = _
  rw [zero_add]

theorem float_finite_add_neg_zero (a : ℚ) :
    float.finite a + float.neg_zero = round_f32 a := by
  show round_f32 (a + 0) = _
  rw [add_zero]

/-- The sum of a non-negative value and a positive binary32 value is positive:
the sum is at least `2 ^ (-149)` and does not round to zero. -/
theorem float_add_pos {t dt : float} (ht : 0 ≤ t) (hdt : 0 < dt) (hb : dt.is_binary32) :
    0 < t + dt := by
  rw [float_zero_eq] at ht hdt ⊢
  cases dt with
  | finite b =>
    have hb0 : 0 < b := float_finite_lt_finite.mp hdt
    obtain ⟨z, hz⟩ := float_is_binary32_multiple hb
    have hp := pow2_pos (-149)
    have hz1 : (1 : Int) ≤ z := by
      by_contra hlt
      push_neg at hlt
      have h1 : (z : ℚ) ≤ 0 := by exact_mod_cast (by omega : z ≤ 0)
      have h2 : (z : ℚ) * pow2 (-149) ≤ 0 := mul_nonpos_of_nonpos_of_nonneg h1 hp.le
      linarith
    have hge : pow2 (-149) ≤ b := by
      have h1 : (1 : ℚ) ≤ (z : ℚ) := by exact_mod_cast hz1
      rw [hz]
      nlinarith
    cases t with
    | finite a =>
      have ha : 0 ≤ a := float_finite_le_finite.mp ht
      rw [float_finite_add_finite]
      exact round_f32_pos_of_ge (by linarith)
    | neg_zero =>
      rw [float_neg_zero_add_finite]
      exact round_f32_pos_of_ge hge
    | pos_inf => trivial
    | neg_inf => exact absurd ht not_false
    | nan => exact absurd ht not_false
  | neg_zero => exact absurd hdt (lt_irrefl (α := ℚ) 0)
  | pos_inf =>
    cases t <;> trivial
  | neg_inf => exact absurd hdt not_false
  | nan => exact absurd hdt not_false

theorem float_add_le_add_left (a : ℚ) {x1 x2 : float} (h : x1 ≤ x2) :
    float.finite a + x1 ≤ float.finite a + x2 := by
  cases x1 <;> cases x2 <;>
    first
    | exact absurd h not_false
    | (rw [float_finite_add_finite, float_finite_add_finite]
       exact round_f32_mono (by have := float_finite_le_finite.mp h; linarith))
    | (rw [float_finite_add_finite, float_finite_add_neg_zero]
       exact round_f32_mono (by have := float_finite_le_neg_zero.mp h; linarith))
    | (rw [float_finite_add_neg_zero, float_finite_add_finite]
       exact round_f32_mono (by have := float_neg_zero_le_finite.mp h; linarith))
    | (rw [float_finite_add_neg_zero]
       exact round_f32_mono le_rfl)
    | (rw [float_finite_add_finite]
       first
       | exact float_neg_inf_le (round_f32_ne_nan _)
       | exact float_le_pos_inf (round_f32_ne_nan _))
    | (rw [float_finite_add_neg_zero]
       first
       | exact float_neg_inf_le (round_f32_ne_nan _)
       | exact float_le_pos_inf (round_f32_ne_nan _))
    | trivial

theorem float_neg_zero_sub_finite (x : ℚ) (hx : x ≠ 0) :
    float.neg_zero - float.finite x = round_f32 (-x) := by
  show float.add float.neg_zero (float.neg (float.finite x)) = _
  simp only [float.neg, hx, if_false]
  show round_f32 (0 + -x) = _
  rw [zero_add]

theorem float_neg_zero_sub_zero : float.neg_zero - float.finite 0 = float.neg_zero := rfl

theorem float_neg_zero_sub_neg_zero : float.neg_zero - float.neg_zero = float.finite 0 := by
  show round_f32 (0 + 0) = _
  rw [add_zero, round_f32_zero]

/-- Subtraction from the negative zero: the difference compares as the rounded
negation. -/
theorem float_neg_zero_sub_le_iff (x : ℚ) (y : float) :
    (float.neg_zero - float.finite x ≤ y ↔ round_f32 (-x) ≤ y) ∧
    (y ≤ float.neg_zero - float.finite x ↔ y ≤ round_f32 (-x)) := by
  by_cases hx : x = 0
  · subst hx
    rw [float_neg_zero_sub_zero, neg_zero, round_f32_zero]
    exact ⟨float_neg_zero_le_iff y, float_le_neg_zero_iff y⟩
  · rw [float_neg_zero_sub_finite x hx]
    exact ⟨Iff.rfl, Iff.rfl⟩

/-- Subtraction from the negative zero reverses the order. -/
theorem float_neg_zero_sub_le_sub_left {d1 d2 : float} (h : d1 ≤ d2) :
    float.neg_zero - d2 ≤ float.neg_zero - d1 := by
  have h0 : round_f32 (-0) = float.finite 0 := by rw [neg_zero, round_f32_zero]
  cases d1 <;> cases d2 <;>
    first
    | exact absurd h not_false
    | (rw [(float_neg_zero_sub_le_iff _ _).1, (float_neg_zero_sub_le_iff _ _).2]
       exact round_f32_mono (by have := float_finite_le_finite.mp h; linarith))
    | (rw [float_neg_zero_sub_neg_zero, (float_neg_zero_sub_le_iff _ _).2, ← h0]
       exact round_f32_mono (by have := float_finite_le_neg_zero.mp h; linarith))
    | (rw [float_neg_zero_sub_neg_zero, (float_neg_zero_sub_le_iff _ _).1, ← h0]
       exact round_f32_mono (by have := float_neg_zero_le_finite.mp h; linarith))
    | (rw [float_neg_zero_sub_neg_zero]
       exact float_finite_le_finite.mpr le_rfl)
    | (rw [float_neg_zero_sub_neg_zero]
       trivial)
    | (rw [(float_neg_zero_sub_le_iff _ _).2]
       exact float_neg_inf_le (round_f32_ne_nan _))
    | (rw [(float_neg_zero_sub_le_iff _ _).1]
       exact float_le_pos_inf (round_f32_ne_nan _))
    | trivial

theorem float_neg_zero_sub_ne_nan {d : float} (h : d ≠ float.nan) :
    float.neg_zero - d ≠ float.nan := by
  cases d with
  | finite x =>
    by_cases hx : x = 0
    · subst hx
      exact fun h => float.noConfusion h
    · rw [float_neg_zero_sub_finite x hx]
      exact round_f32_ne_nan _
  | neg_zero =>
    rw [float_neg_zero_sub_neg_zero]
    exact fun h => float.noConfusion h
  | pos_inf => exact fun h => float.noConfusion h
  | neg_inf => exact fun h => float.noConfusion h
  | nan => exact absurd rfl h

/-- The product of two non-negative finite values is the rounded product. -/
theorem float_finite_mul_finite {a b : ℚ} (ha : 0 ≤ a) (hb : 0 ≤ b) :
    float.finite a * float.finite b = round_f32 (a * b) := by
  show float.mul (float.finite a) (float.finite b) = _
  by_cases h : a * b = 0
  · simp [float.mul, float.is_inf, float.to_rat, float.sign, float.zero, h, not_lt.mpr ha,
      not_lt.mpr hb, round_f32_zero]
  · simp [float.mul, float.is_inf, float.to_rat, h]

theorem float_pos_inf_sub_finite (a : ℚ) : float.pos_inf - float.finite a = float.pos_inf := by
  show float.add float.pos_inf (float.neg (float.finite a)) = _
  by_cases ha : a = 0
  · simp [float.neg, ha, float.add]
  · simp [float.neg, ha, float.add]

theorem float_is_zero_of_pos {x : float} (h : 0 < x) : x.is_zero = false := by
  rw [float_zero_eq] at h
  cases x with
  | finite a =>
    have ha : 0 < a := float_finite_lt_finite.mp h
    simp [float.is_zero, ne_of_gt ha]
  | neg_zero => exact absurd h (lt_irrefl (α := ℚ) 0)
  | pos_inf => rfl
  | neg_inf => exact absurd h not_false
  | nan => exact absurd h not_false

/-! ## Lemmas on the LOD tracker -/

theorem math_max_finite (x y : ℚ) :
    math.max (float.finite x) (float.finite y) = float.finite (max x y) := by
  unfold math.max
  by_cases h : x < y
  · rw [if_pos (float_finite_lt_finite.mpr h), max_eq_right h.le]
  · rw [if_neg (fun hlt => h (float_finite_lt_finite.mp hlt)), max_eq_left (not_lt.mp h)]

theorem math_min_finite (x y : ℚ) :
    math.min (float.finite x) (float.finite y) = float.finite (min x y) := by
  unfold math.min
  by_cases h : y < x
  · rw [if_pos (float_finite_lt_finite.mpr h), min_eq_right h.le]
  · rw [if_neg (fun hlt => h (float_finite_lt_finite.mp hlt)), min_eq_left (not_lt.mp h)]

theorem clamp_finite (x : ℚ) :
    math.clamp (float.finite x) 0 1 = float.finite (min (max x 0) 1) := by
  rw [float_zero_eq, float_one_eq]
  unfold math.clamp
  rw [math_max_finite, math_min_finite]

theorem clamp_neg_zero : math.clamp float.neg_zero 0 1 = float.neg_zero := by
  rw [float_zero_eq, float_one_eq]
  unfold math.clamp math.max
  have h0 : ¬ float.neg_zero < float.finite 0 := lt_irrefl (α := ℚ) 0
  rw [if_neg h0]
  unfold math.min
  have h1 : ¬ float.finite 1 < float.neg_zero := fun h =>
    absurd (float_finite_lt_neg_zero.mp h) (by norm_num)
  rw [if_neg h1]

theorem clamp_pos_inf : math.clamp float.pos_inf 0 1 = float.finite 1 := by
  rw [float_zero_eq, float_one_eq]
  unfold math.clamp math.max
  rw [if_neg (fun hlt : float.pos_inf < float.finite 0 => absurd hlt not_false)]
  unfold math.min
  have h1 : float.finite 1 < float.pos_inf := trivial
  rw [if_pos h1]

theorem clamp_neg_inf : math.clamp float.neg_inf 0 1 = float.finite 0 := by
  rw [float_zero_eq, float_one_eq]
  unfold math.clamp math.max
  have h0 : float.neg_inf < float.finite 0 := trivial
  rw [if_pos h0, math_min_finite, min_eq_left zero_le_one]

theorem clamp_of_one_le {q : float} (h : 1 ≤ q) : math.clamp q 0 1 = 1 := by
  rw [float_one_eq] at h
  cases q with
  | finite x =>
    have hx : (1 : ℚ) ≤ x := float_finite_le_finite.mp h
    rw [clamp_finite, float_one_eq, max_eq_left (by linarith), min_eq_right hx]
  | neg_zero => exact absurd (float_finite_le_neg_zero.mp h) (by norm_num)
  | pos_inf => rw [clamp_pos_inf, float_one_eq]
  | neg_inf => exact absurd h not_false
  | nan => exact absurd h not_false

/-- The factor at a quotient of at least 1 is 0. -/
theorem one_sub_clamp_of_one_le {q : float} (h : 1 ≤ q) :
    (1 : float) - math.clamp q 0 1 = float.finite 0 := by
  rw [clamp_of_one_le h, float_one_eq, float_finite_sub_finite, sub_self, round_f32_zero]

/-- The factor at a quotient of at most 0 is 1. -/
theorem one_sub_clamp_of_le_zero {q : float} (h : q ≤ 0) :
    (1 : float) - math.clamp q 0 1 = float.finite 1 := by
  rw [float_zero_eq] at h
  cases q with
  | finite x =>
    have hx : x ≤ 0 := float_finite_le_finite.mp h
    rw [clamp_finite, max_eq_right hx, min_eq_left zero_le_one, float_one_eq,
      float_finite_sub_finite, sub_zero, round_f32_one]
  | neg_zero => rw [clamp_neg_zero, float_one_eq, float_finite_sub_neg_zero, round_f32_one]
  | pos_inf => exact absurd h not_false
  | neg_inf =>
    rw [clamp_neg_inf, float_one_eq, float_finite_sub_finite, sub_zero, round_f32_one]
  | nan => exact absurd h not_false

/-- The clamp of a value that is not NaN is a zero or a finite value, in `[0, 1]`. -/
theorem clamp_range {q : float} (h : q ≠ float.nan) :
    ∃ c : ℚ, (math.clamp q 0 1 = float.finite c ∨ (math.clamp q 0 1 = float.neg_zero ∧ c = 0)) ∧
      0 ≤ c ∧ c ≤ 1 := by
  cases q with
  | finite x =>
    exact ⟨_, Or.inl (clamp_finite x), le_min (le_max_right _ _) zero_le_one, min_le_right _ _⟩
  | neg_zero => exact ⟨0, Or.inr ⟨clamp_neg_zero, rfl⟩, le_refl _, zero_le_one⟩
  | pos_inf => exact ⟨1, Or.inl clamp_pos_inf, zero_le_one, le_refl _⟩
  | neg_inf => exact ⟨0, Or.inl clamp_neg_inf, le_refl _, zero_le_one⟩
  | nan => exact absurd rfl h

theorem clamp_mono {q1 q2 : float} (h : q1 ≤ q2) : math.clamp q1 0 1 ≤ math.clamp q2 0 1 := by
  cases q1 <;> cases q2 <;>
    first
    | exact absurd h not_false
    | (rw [clamp_finite, clamp_finite]
       exact float_finite_le_finite.mpr
        (min_le_min (max_le_max (float_finite_le_finite.mp h) le_rfl) le_rfl))
    | (rw [clamp_finite, clamp_neg_zero]
       have hx := float_finite_le_neg_zero.mp h
       exact float_finite_le_neg_zero.mpr (by rw [max_eq_right hx, min_eq_left zero_le_one]))
    | (rw [clamp_neg_zero, clamp_finite]
       exact float_neg_zero_le_finite.mpr (le_min (le_max_right _ _) zero_le_one))
    | (rw [clamp_finite, clamp_pos_inf]
       exact float_finite_le_finite.mpr (min_le_right _ _))
    | (rw [clamp_neg_inf, clamp_finite]
       exact float_finite_le_finite.mpr (le_min (le_max_right _ _) zero_le_one))
    | (rw [clamp_neg_zero]
       exact float_neg_zero_le_neg_zero)
    | (rw [clamp_neg_zero, clamp_pos_inf]
       exact float_neg_zero_le_finite.mpr zero_le_one)
    | (rw [clamp_neg_inf, clamp_neg_zero]
       exact float_finite_le_neg_zero.mpr le_rfl)
    | (rw [clamp_pos_inf]
       exact float_finite_le_finite.mpr le_rfl)
    | (rw [clamp_neg_inf, clamp_pos_inf]
       exact float_finite_le_finite.mpr zero_le_one)
    | (rw [clamp_neg_inf]
       exact float_finite_le_finite.mpr le_rfl)

/-- The value `1 - c` for a finite `c` in `[0, 1]` is a finite value of `[0, 1]`. -/
theorem one_sub_range {c : ℚ} (h0 : 0 ≤ c) (h1 : c ≤ 1) :
    ∃ r, (1 : float) - float.finite c = float.finite r ∧ 0 ≤ r ∧ r ≤ 1 := by
  rw [float_one_eq, float_finite_sub_finite]
  exact round_f32_between round_f32_one (by linarith) (by linarith)

/-- The factor is a finite value of `[0, 1]` when the quotient is not NaN. -/
theorem lod_factor_range (min_dist max_dist distance : float)
    (h : (max_dist - distance) / (max_dist - min_dist) ≠ float.nan) :
    ∃ r, lod_factor min_dist max_dist distance = float.finite r ∧ 0 ≤ r ∧ r ≤ 1 := by
  unfold lod_factor
  obtain ⟨c, hc, h0, h1⟩ := clamp_range h
  rcases hc with hc | ⟨hc, hc0⟩
  · rw [hc]
    exact one_sub_range h0 h1
  · rw [hc, float_one_eq, float_finite_sub_neg_zero, round_f32_one]
    exact ⟨1, rfl, zero_le_one, le_refl _⟩

theorem lod_factor_mono_of_quotient (min_dist max_dist d1 d2 : float)
    (h : (max_dist - d2) / (max_dist - min_dist) ≤ (max_dist - d1) / (max_dist - min_dist)) :
    lod_factor min_dist max_dist d1 ≤ lod_factor min_dist max_dist d2 := by
  unfold lod_factor
  have hs := float_sub_le_sub_left 1 (clamp_mono h)
  rw [← float_one_eq] at hs
  exact hs

/-- The interpolation from 0: the product `k * r` rounded, added to zero. -/
theorem lerp_zero_eq {k r : ℚ} (hk : 0 ≤ k) (h0 : 0 ≤ r) (h1 : r ≤ 1) :
    math.lerp 0 (float.finite k) (float.finite r) = float.finite 0 + round_f32 (k * r) := by
  obtain ⟨s, hs, hs0, _⟩ := one_sub_range h0 h1
  unfold math.lerp
  rw [hs, float_zero_eq, float_finite_mul_finite le_rfl hs0, float_finite_mul_finite hk h0,
    zero_mul, round_f32_zero]

/-- The interpolation from 0 to `k` at a factor of `[0, 1]` is a finite value
between 0 and any binary32 bound of `k`. -/
theorem lerp_range {k r hi : ℚ} (hk : 0 ≤ k) (hkhi : k ≤ hi)
    (hhi : round_f32 hi = float.finite hi) (h0 : 0 ≤ r) (h1 : r ≤ 1) :
    ∃ p, math.lerp 0 (float.finite k) (float.finite r) = float.finite p ∧ 0 ≤ p ∧ p ≤ hi := by
  rw [lerp_zero_eq hk h0 h1]
  have hkr : k * r ≤ k := by nlinarith
  obtain ⟨p1, hp1, h10, h11⟩ := round_f32_between hhi (mul_nonneg hk h0) (le_trans hkr hkhi)
  rw [hp1, float_finite_add_finite, zero_add]
  exact round_f32_between hhi h10 h11

theorem lerp_mono {k r1 r2 : ℚ} (hk : 0 ≤ k) (h0 : 0 ≤ r1) (h : r1 ≤ r2) (h1 : r2 ≤ 1) :
    math.lerp 0 (float.finite k) (float.finite r1) ≤ math.lerp 0 (float.finite k) (float.finite r2) := by
  rw [lerp_zero_eq hk h0 (le_trans h h1), lerp_zero_eq hk (le_trans h0 h) h1]
  exact float_add_le_add_left 0 (round_f32_mono (mul_le_mul_of_nonneg_left h hk))

theorem float_to_int_finite {p : ℚ} (h0 : 0 ≤ p) (h1 : p < 2 ^ 31) :
    float_to_int (float.finite p) = ⌊p⌋ := by
  have hf0 : (0 : Int) ≤ ⌊p⌋ := Int.floor_nonneg.mpr h0
  have hf1 : ⌊p⌋ < 2 ^ 31 := by
    rw [Int.floor_lt]
    exact_mod_cast h1
  unfold float_to_int
  simp only [h0, if_true]
  rw [if_pos ⟨by omega, hf1⟩]

theorem float_to_int_range (x : float) : -2 ^ 31 ≤ float_to_int x ∧ float_to_int x < 2 ^ 31 := by
  cases x with
  | finite q =>
    simp only [float_to_int]
    by_cases h : (-2 ^ 31 ≤ if 0 ≤ q then ⌊q⌋ else ⌈q⌉) ∧ (if 0 ≤ q then ⌊q⌋ else ⌈q⌉) < 2 ^ 31
    · rw [if_pos h]
      exact h
    · rw [if_neg h]
      norm_num
  | neg_zero => norm_num [float_to_int]
  | pos_inf => exact ⟨le_refl _, by norm_num [float_to_int]⟩
  | neg_inf => exact ⟨le_refl _, by norm_num [float_to_int]⟩
  | nan => exact ⟨le_refl _, by norm_num [float_to_int]⟩

theorem int_to_index_of_nonneg {i : Int} (h0 : 0 ≤ i) (h1 : i < 2 ^ 32) :
    ((int_to_index i : Nat) : Int) = i := by
  unfold int_to_index
  rw [Int.emod_eq_of_lt h0 h1, Int.toNat_of_nonneg h0]

theorem int_to_index_natCast {X : Nat} {i : Int} (h : (X : Int) = i) (h1 : i < 2 ^ 32) :
    int_to_index i = X := by
  have := int_to_index_of_nonneg (by omega : 0 ≤ i) h1
  omega

/-- The target for a finite count `k` and a finite factor `r` of `[0, 1]`. -/
theorem lod_target_of_finite (total_lods : Nat) (min_dist max_dist distance : float)
    {k r hi : ℚ} (hK : size_to_float (total_lods - 1) = float.finite k)
    (hr : lod_factor min_dist max_dist distance = float.finite r)
    (hk : 0 ≤ k) (hkhi : k ≤ hi) (hhi : round_f32 hi = float.finite hi) (hhi31 : hi < 2 ^ 31)
    (h0 : 0 ≤ r) (h1 : r ≤ 1) :
    ∃ p, math.lerp 0 (float.finite k) (float.finite r) = float.finite p ∧ 0 ≤ p ∧ p ≤ hi ∧
      lod_target total_lods min_dist max_dist distance = ⌊p⌋ := by
  obtain ⟨p, hp, hp0, hp1⟩ := lerp_range hk hkhi hhi h0 h1
  refine ⟨p, hp, hp0, hp1, ?_⟩
  unfold lod_target
  rw [hK, hr, hp]
  exact float_to_int_finite hp0 (lt_of_le_of_lt hp1 hhi31)

theorem size_to_float_small (n : Nat) (h : n ≤ 2 ^ 24) : size_to_float n = float.finite n :=
  round_f32_nat n h

/-- Up to `2^24 + 2` the count converts to a binary32 value that is not above it. -/
theorem size_to_float_le (n : Nat) (h : n ≤ 16777218) :
    ∃ k : ℚ, size_to_float n = float.finite k ∧ 0 ≤ k ∧ k ≤ n ∧
      round_f32 k = float.finite k := by
  by_cases h24 : n ≤ 2 ^ 24
  · exact ⟨n, size_to_float_small n h24, Nat.cast_nonneg n, le_refl _, round_f32_nat n h24⟩
  · have hcases : n = 16777217 ∨ n = 16777218 := by omega
    rcases hcases with hn | hn
    · subst hn
      exact ⟨16777216, by decide!, by norm_num, by norm_num, by decide!⟩
    · subst hn
      exact ⟨16777218, by decide!, by norm_num, by norm_num, by decide!⟩

/-- Up to `2^31 - 65` the count converts to a value of at most `2^31 - 128`. -/
theorem size_to_float_bound (n : Nat) (h : n ≤ 2147483583) :
    ∃ k : ℚ, size_to_float n = float.finite k ∧ 0 ≤ k ∧ k ≤ 2147483520 := by
  have h3 : round_f32 2147483583 = float.finite 2147483520 := by decide!
  have h2 : round_f32 (n : ℚ) ≤ round_f32 2147483583 := round_f32_mono (by exact_mod_cast h)
  unfold size_to_float
  rw [h3, round_f32_of_nonneg (Nat.cast_nonneg n)] at h2
  rw [round_f32_of_nonneg (Nat.cast_nonneg n)]
  split_ifs at h2 ⊢
  · exact absurd h2 not_false
  · exact ⟨_, rfl, round_magnitude_nonneg (Nat.cast_nonneg n), float_finite_le_finite.mp h2⟩

/-- For binary32 `min_dist < max_dist` whose difference does not overflow,
`max_dist` is finite or a zero and the difference is finite and positive. -/
theorem distance_range_finite {min_dist max_dist : float}
    (hmin : min_dist.is_binary32) (hmax : max_dist.is_binary32)
    (hlt : min_dist < max_dist) (hfin : max_dist - min_dist ≠ float.pos_inf) :
    ((∃ b : ℚ, max_dist = float.finite b) ∨ max_dist = float.neg_zero) ∧
    ∃ m : ℚ, max_dist - min_dist = float.finite m ∧ 0 < m := by
  have hp := pow2_pos (-149)
  have key : ∀ q : ℚ, pow2 (-149) ≤ q → round_f32 q ≠ float.pos_inf →
      ∃ m : ℚ, round_f32 q = float.finite m ∧ 0 < m := by
    intro q hq hne
    have hpos := round_f32_pos_of_ge hq
    cases hr : round_f32 q with
    | finite m =>
      rw [hr] at hpos
      exact ⟨m, rfl, float_finite_lt_finite.mp hpos⟩
    | neg_zero => rw [hr] at hpos; exact absurd hpos (lt_irrefl (α := ℚ) 0)
    | pos_inf => exact absurd hr hne
    | neg_inf => rw [hr] at hpos; exact absurd hpos not_false
    | nan => rw [hr] at hpos; exact absurd hpos not_false
  have pos_ge : ∀ q : ℚ, (float.finite q).is_binary32 → 0 < q → pow2 (-149) ≤ q := by
    intro q hq h0
    obtain ⟨z, hz⟩ := float_is_binary32_multiple hq
    have hz1 : (1 : Int) ≤ z := by
      by_contra hc
      push_neg at hc
      have h1 : (z : ℚ) ≤ 0 := by exact_mod_cast (by omega : z ≤ 0)
      have h2 : (z : ℚ) * pow2 (-149) ≤ 0 := mul_nonpos_of_nonpos_of_nonneg h1 hp.le
      linarith
    have h1 : (1 : ℚ) ≤ (z : ℚ) := by exact_mod_cast hz1
    rw [hz]
    nlinarith
  cases min_dist with
  | finite a =>
    cases max_dist with
    | finite b =>
      have hab : a < b := float_finite_lt_finite.mp hlt
      obtain ⟨za, hza⟩ := float_is_binary32_multiple hmin
      obtain ⟨zb, hzb⟩ := float_is_binary32_multiple hmax
      have hz : za + 1 ≤ zb := by
        by_contra hc
        push_neg at hc
        have h1 : (zb : ℚ) ≤ (za : ℚ) := by exact_mod_cast (by omega : zb ≤ za)
        have h2 : (zb : ℚ) * pow2 (-149) ≤ (za : ℚ) * pow2 (-149) :=
          mul_le_mul_of_nonneg_right h1 hp.le
        linarith
      have hge : pow2 (-149) ≤ b - a := by
        have h1 : (za : ℚ) + 1 ≤ (zb : ℚ) := by exact_mod_cast hz
        rw [hza, hzb]
        nlinarith
      rw [float_finite_sub_finite] at hfin ⊢
      exact ⟨Or.inl ⟨b, rfl⟩, key _ hge hfin⟩
    | neg_zero =>
      have ha : a < 0 := float_finite_lt_neg_zero.mp hlt
      have hge : pow2 (-149) ≤ -a := by
        obtain ⟨z, hz⟩ := float_is_binary32_multiple hmin
        have hz1 : z ≤ -1 := by
          by_contra hc
          push_neg at hc
          have h1 : (0 : ℚ) ≤ (z : ℚ) := by exact_mod_cast (by omega : 0 ≤ z)
          have h2 : 0 ≤ (z : ℚ) * pow2 (-149) := mul_nonneg h1 hp.le
          linarith
        have h1 : (z : ℚ) ≤ -1 := by exact_mod_cast hz1
        rw [hz]
        nlinarith
      rw [float_neg_zero_sub_finite a (ne_of_lt ha)] at hfin ⊢
      exact ⟨Or.inr rfl, key _ hge hfin⟩
    | pos_inf => exact absurd (float_pos_inf_sub_finite a) hfin
    | neg_inf => exact absurd hlt not_false
    | nan => exact absurd hlt not_false
  | neg_zero =>
    cases max_dist with
    | finite b =>
      have hb : 0 < b := float_neg_zero_lt_finite.mp hlt
      rw [float_finite_sub_neg_zero] at hfin ⊢
      exact ⟨Or.inl ⟨b, rfl⟩, key _ (pos_ge b hmax hb) hfin⟩
    | neg_zero => exact absurd hlt (lt_irrefl (α := ℚ) 0)
    | pos_inf => exact absurd rfl hfin
    | neg_inf => exact absurd hlt not_false
    | nan => exact absurd hlt not_false
  | pos_inf => cases max_dist <;> exact absurd hlt not_false
  | neg_inf =>
    cases max_dist with
    | finite b => exact absurd rfl hfin
    | neg_zero => exact absurd rfl hfin
    | pos_inf => exact absurd rfl hfin
    | neg_inf => exact absurd hlt not_false
    | nan => exact absurd hlt not_false
  | nan => cases max_dist <;> exact absurd hlt not_false

/-- Under the conditions of `distance_range_finite` the quotient of line 102 is
not NaN for a distance that is not NaN. -/
theorem quotient_ne_nan {min_dist max_dist distance : float}
    (hmin : min_dist.is_binary32) (hmax : max_dist.is_binary32)
    (hlt : min_dist < max_dist) (hfin : max_dist - min_dist ≠ float.pos_inf)
    (hd : distance ≠ float.nan) :
    (max_dist - distance) / (max_dist - min_dist) ≠ float.nan := by
  obtain ⟨hb, m, hm, hpos⟩ := distance_range_finite hmin hmax hlt hfin
  rw [hm]
  rcases hb with ⟨b, hb⟩ | hb
  · rw [hb]
    exact float_hdiv_ne_nan hpos (float_sub_ne_nan b hd)
  · rw [hb]
    exact float_hdiv_ne_nan hpos (float_neg_zero_sub_ne_nan hd)

/-- Under the conditions of `distance_range_finite` the quotient of line 102
does not increase with the distance. -/
theorem quotient_antitone {min_dist max_dist d1 d2 : float}
    (hmin : min_dist.is_binary32) (hmax : max_dist.is_binary32)
    (hlt : min_dist < max_dist) (hfin : max_dist - min_dist ≠ float.pos_inf)
    (hd : d1 ≤ d2) :
    (max_dist - d2) / (max_dist - min_dist) ≤ (max_dist - d1) / (max_dist - min_dist) := by
  obtain ⟨hb, m, hm, hpos⟩ := distance_range_finite hmin hmax hlt hfin
  rw [hm]
  rcases hb with ⟨b, hb⟩ | hb
  · rw [hb]
    exact float_hdiv_le_hdiv_right hpos (float_sub_le_sub_left b hd)
  · rw [hb]
    exact float_hdiv_le_hdiv_right hpos (float_neg_zero_sub_le_sub_left hd)

theorem lod_target_in_range (total_lods : Nat) (min_dist max_dist distance : float)
    (hN : total_lods ≤ 16777219)
    (hq : (max_dist - distance) / (max_dist - min_dist) ≠ float.nan) :
    0 ≤ lod_target total_lods min_dist max_dist distance ∧
    lod_target total_lods min_dist max_dist distance ≤ ((total_lods - 1 : Nat) : Int) := by
  obtain ⟨k, hK, hk0, hkn, hkr⟩ := size_to_float_le (total_lods - 1) (by omega)
  obtain ⟨r, hr, hr0, hr1⟩ := lod_factor_range min_dist max_dist distance hq
  have hk31 : k < 2 ^ 31 := by
    have : ((total_lods - 1 : Nat) : ℚ) ≤ 16777218 := by exact_mod_cast (by omega)
    linarith
  obtain ⟨p, _, hp0, hp1, ht⟩ := lod_target_of_finite total_lods min_dist max_dist distance
    hK hr hk0 (le_refl k) hkr hk31 hr0 hr1
  rw [ht]
  refine ⟨Int.floor_nonneg.mpr hp0, ?_⟩
  have h1 : ⌊p⌋ ≤ ⌊((total_lods - 1 : Nat) : ℚ)⌋ := Int.floor_le_floor (le_trans hp1 hkn)
  simpa using h1

theorem lod_target_mono (total_lods : Nat) (min_dist max_dist d1 d2 : float)
    (hN : total_lods ≤ 2147483584)
    (hq : (max_dist - d2) / (max_dist - min_dist) ≤ (max_dist - d1) / (max_dist - min_dist)) :
    lod_target total_lods min_dist max_dist d1 ≤ lod_target total_lods min_dist max_dist d2 := by
  obtain ⟨k, hK, hk0, hkhi⟩ := size_to_float_bound (total_lods - 1) (by omega)
  have hhi : round_f32 2147483520 = float.finite 2147483520 := by decide!
  obtain ⟨r1, hr1, h10, h11⟩ := lod_factor_range min_dist max_dist d1 (float_ne_nan_of_le_right hq)
  obtain ⟨r2, hr2, h20, h21⟩ := lod_factor_range min_dist max_dist d2 (float_ne_nan_of_le_left hq)
  have hmono := lod_factor_mono_of_quotient min_dist max_dist d1 d2 hq
  rw [hr1, hr2] at hmono
  have hr : r1 ≤ r2 := float_finite_le_finite.mp hmono
  obtain ⟨p1, hp1, _, _, ht1⟩ := lod_target_of_finite total_lods min_dist max_dist d1
    hK hr1 hk0 hkhi hhi (by norm_num) h10 h11
  obtain ⟨p2, hp2, _, _, ht2⟩ := lod_target_of_finite total_lods min_dist max_dist d2
    hK hr2 hk0 hkhi hhi (by norm_num) h20 h21
  have hl := lerp_mono hk0 h10 hr h21
  rw [hp1, hp2] at hl
  rw [ht1, ht2]
  exact Int.floor_le_floor (float_finite_le_finite.mp hl)

theorem float_zero_le_zero : (0 : float) ≤ 0 := by
  rw [float_zero_eq]
  exact float_finite_le_finite.mpr le_rfl

theorem latch_target_current (data : lod_data) (lod : Int) :
    (latch_target data lod).current_lod_index = data.current_lod_index := by
  unfold latch_target
  split_ifs <;> rfl

theorem latch_target_time (data : lod_data) (lod : Int) :
    (latch_target data lod).current_time = data.current_time := by
  unfold latch_target
  split_ifs <;> rfl

theorem latch_target_locked (data : lod_data) (lod : Int)
    (h : data.target_lod_index ≠ data.current_lod_index) :
    latch_target data lod = data := by
  unfold latch_target
  rw [if_neg]
  exact fun hc => h hc.2

theorem latch_target_stable (data : lod_data) (lod : Int) (h0 : 0 ≤ lod) (h1 : lod < 2 ^ 32)
    (h : data.target_lod_index = data.current_lod_index) :
    ((latch_target data lod).target_lod_index : Int) = lod := by
  unfold latch_target
  split_ifs with hc
  · exact int_to_index_of_nonneg h0 h1
  · by_contra hne
    refine hc ⟨fun heq => hne ?_, h⟩
    rw [heq]
    exact int_to_index_of_nonneg h0 h1

theorem accumulate_time_target (data : lod_data) (dt : float) :
    (accumulate_time data dt).target_lod_index = data.target_lod_index := by
  unfold accumulate_time
  split_ifs <;> rfl

theorem accumulate_time_current (data : lod_data) (dt : float) :
    (accumulate_time data dt).current_lod_index = data.current_lod_index := by
  unfold accumulate_time
  split_ifs <;> rfl

theorem complete_transition_target (data : lod_data) (transition_time : float) :
    (complete_transition data transition_time).target_lod_index = data.target_lod_index := by
  unfold complete_transition
  split_ifs <;> rfl

theorem update_lod_data_of_gt (data : lod_data) (total_lods : Nat)
    (min_dist max_dist transition_time distance dt : float) (h : 1 < total_lods) :
    update_lod_data data total_lods min_dist max_dist transition_time distance dt
      = complete_transition
          (accumulate_time (latch_target data (lod_target total_lods min_dist max_dist distance)) dt)
          transition_time := by
  unfold update_lod_data
  rw [if_neg (by omega)]

theorem update_lod_data_target (data : lod_data) (total_lods : Nat)
    (min_dist max_dist transition_time distance dt : float) (h : 1 < total_lods) :
    (update_lod_data data total_lods min_dist max_dist transition_time distance dt).target_lod_index
      = (latch_target data (lod_target total_lods min_dist max_dist distance)).target_lod_index := by
  rw [update_lod_data_of_gt _ _ _ _ _ _ _ h, complete_transition_target, accumulate_time_target]

/-- At a distance up to `min_dist = 10` the quotient of line 102 is at least 1. -/
theorem quotient_near {distance : float} (h : distance ≤ 10) :
    1 ≤ ((100 : float) - distance) / ((100 : float) - 10) := by
  have h10 : (10 : float) = float.finite 10 := float_ofNat_eq 10 (by norm_num)
  have h100 : (100 : float) = float.finite 100 := float_ofNat_eq 100 (by norm_num)
  have h90 : (100 : float) - 10 = float.finite 90 := by decide!
  have hn : float.finite 90 ≤ (100 : float) - distance := by
    rw [← h90, h100]
    exact float_sub_le_sub_left 100 h
  have hq := float_hdiv_le_hdiv_right (by norm_num : (0 : ℚ) < 90) hn
  have h1 : float.finite 90 / float.finite 90 = 1 := by decide!
  rw [h1] at hq
  rw [h90]
  exact hq

/-- At a distance from `max_dist = 100` on the quotient of line 102 is at most 0. -/
theorem quotient_far {distance : float} (h : 100 ≤ distance) :
    ((100 : float) - distance) / ((100 : float) - 10) ≤ 0 := by
  have h100 : (100 : float) = float.finite 100 := float_ofNat_eq 100 (by norm_num)
  have h90 : (100 : float) - 10 = float.finite 90 := by decide!
  have hn : (100 : float) - distance ≤ float.finite 0 := by
    have h0 : float.finite 100 - (100 : float) = float.finite 0 := by decide!
    have hs := float_sub_le_sub_left 100 h
    rw [h0] at hs
    rw [h100]
    exact hs
  have hq := float_hdiv_le_hdiv_right (by norm_num : (0 : ℚ) < 90) hn
  have h1 : float.finite 0 / float.finite 90 = 0 := by decide!
  rw [h1] at hq
  rw [h90]
  exact hq

theorem lod_target_near (distance : float) (h : distance ≤ 10) :
    lod_target 4 10 100 distance = 0 := by
  unfold lod_target lod_factor
  rw [one_sub_clamp_of_one_le (quotient_near h)]
  decide!

theorem lod_target_far (distance : float) (h : 100 ≤ distance) :
    lod_target 4 10 100 distance = 3 := by
  unfold lod_target lod_factor
  rw [one_sub_clamp_of_le_zero (quotient_far h)]
  decide!

theorem update_lod_data_closed_form (data : lod_data) (total_lods : Nat)
    (min_dist max_dist transition_time distance dt : float) (h : 1 < total_lods) :
    let T := (latch_target data (lod_target total_lods min_dist max_dist distance)).target_lod_index
    let time := if data.current_lod_index ≠ T then data.current_time + dt else data.current_time
    update_lod_data data total_lods min_dist max_dist transition_time distance dt
      = if time ≥ transition_time then ⟨T, T, 0⟩ else ⟨data.current_lod_index, T, time⟩ := by
  intro T time
  rw [update_lod_data_of_gt _ _ _ _ _ _ _ h]
  have hcur := latch_target_current data (lod_target total_lods min_dist max_dist distance)
  have htime := latch_target_time data (lod_target total_lods min_dist max_dist distance)
  generalize hL : latch_target data (lod_target total_lods min_dist max_dist distance) = L at *
  obtain ⟨c, t, tm⟩ := L
  simp only at hcur htime
  subst hcur htime
  simp only [T, time, hL, complete_transition, accumulate_time]
  by_cases hct : data.current_lod_index = t
  · simp [hct]
  · simp [hct]

theorem latch_target_eq_current (data : lod_data) (lod : Int)
    (h : (latch_target data lod).target_lod_index = data.current_lod_index) :
    data.target_lod_index = data.current_lod_index := by
  unfold latch_target at h
  split_ifs at h with hc
  · exact hc.2
  · exact h

theorem latch_target_lt (data : lod_data) (total_lods : Nat)
    (min_dist max_dist distance : float) (hN : total_lods ≤ 16777219)
    (hq : (max_dist - distance) / (max_dist - min_dist) ≠ float.nan)
    (h : 1 < total_lods) (ht : data.target_lod_index < total_lods) :
    (latch_target data (lod_target total_lods min_dist max_dist distance)).target_lod_index
      < total_lods := by
  unfold latch_target
  split_ifs
  · obtain ⟨h0, h1⟩ := lod_target_in_range total_lods min_dist max_dist distance hN hq
    have hi := int_to_index_of_nonneg h0 (by omega)
    show int_to_index (lod_target total_lods min_dist max_dist distance) < total_lods
    omega
  · exact ht

theorem update_lod_data_completes (data : lod_data) (total_lods : Nat)
    (min_dist max_dist transition_time distance dt : float)
    (hc : transition_completes data total_lods min_dist max_dist transition_time distance dt) :
    update_lod_data data total_lods min_dist max_dist transition_time distance dt
      = ⟨(latch_target data (lod_target total_lods min_dist max_dist distance)).target_lod_index,
         (latch_target data (lod_target total_lods min_dist max_dist distance)).target_lod_index,
         0⟩ := by
  obtain ⟨h1, hge⟩ := hc
  rw [update_lod_data_of_gt _ _ _ _ _ _ _ h1]
  unfold complete_transition
  rw [if_pos hge, accumulate_time_target]

theorem update_lod_data_fixed (X total_lods : Nat)
    (min_dist max_dist transition_time distance dt : float)
    (hX : (X : Int) = lod_target total_lods min_dist max_dist distance) :
    update_lod_data ⟨X, X, 0⟩ total_lods min_dist max_dist transition_time distance dt
      = ⟨X, X, 0⟩ := by
  by_cases h : 1 < total_lods
  · rw [update_lod_data_closed_form _ _ _ _ _ _ _ h]
    have hr := (float_to_int_range (math.lerp 0 (size_to_float (total_lods - 1))
      (lod_factor min_dist max_dist distance))).2
    have hi : int_to_index (lod_target total_lods min_dist max_dist distance) = X :=
      int_to_index_natCast hX (by unfold lod_target; omega)
    have hl : latch_target ⟨X, X, 0⟩ (lod_target total_lods min_dist max_dist distance)
        = ⟨X, X, 0⟩ := by
      unfold latch_target
      rw [if_neg]
      exact fun hc => hc.1 hi.symm
    simp [hl]
  · unfold update_lod_data
    rw [if_pos (by omega)]

theorem iterate_update_fixed (s : lod_data) (total_lods : Nat)
    (min_dist max_dist transition_time distance dt : float)
    (h : update_lod_data s total_lods min_dist max_dist transition_time distance dt = s)
    (n : Nat) :
    (fun d => update_lod_data d total_lods min_dist max_dist transition_time distance dt)^[n] s
      = s := by
  induction n with
  | zero => rfl
  | succ k ih =>
    rw [Function.iterate_succ_apply]
    show (fun d => update_lod_data d total_lods min_dist max_dist transition_time distance dt)^[k]
      (update_lod_data s total_lods min_dist max_dist transition_time distance dt) = s
    rw [h]
    exact ih

/-! ## Lemmas on the visibility gatherer -/

theorem gather_visible_models_step_eq {Frustum Bounds Transform : Type}
    (test_obb : Frustum → Bounds → Transform → Bool) (camera : Option (camera Frustum))
    (dirty_only static_only require_reflection_caster : Bool)
    (result : visibility_set_models_t Bounds Transform)
    (element : visibility_entry Bounds Transform) :
    gather_visible_models_step test_obb camera dirty_only static_only require_reflection_caster
        result element
      = if gather_keeps test_obb camera dirty_only static_only require_reflection_caster element
        then result ++ [element] else result := by
  obtain ⟨e, transform_comp, ⟨st, cr, dr, lods, vl, lc, tt, mind, maxd⟩⟩ := element
  unfold gather_visible_models_step gather_keeps
  cases hl : lods 0 <;> cases camera <;> cases static_only <;>
    cases require_reflection_caster <;> cases dirty_only <;> cases st <;> cases cr <;>
    simp [hl] <;> split_ifs <;> simp_all

theorem foldl_gather_visible_models_step {Frustum Bounds Transform : Type}
    (test_obb : Frustum → Bounds → Transform → Bool) (camera : Option (camera Frustum))
    (dirty_only static_only require_reflection_caster : Bool)
    (l result : visibility_set_models_t Bounds Transform) :
    l.foldl
        (gather_visible_models_step test_obb camera dirty_only static_only
          require_reflection_caster) result
      = result ++ l.filter
          (gather_keeps test_obb camera dirty_only static_only require_reflection_caster) := by
  induction l generalizing result with
  | nil => simp
  | cons x xs ih =>
    rw [List.foldl_cons, ih, gather_visible_models_step_eq, List.filter_cons]
    split_ifs <;> simp

theorem gather_visible_models_eq_filter {Frustum Bounds Transform : Type}
    (test_obb : Frustum → Bounds → Transform → Bool)
    (ecs : entity_component_system Bounds Transform) (camera : Option (camera Frustum))
    (dirty_only static_only require_reflection_caster : Bool) :
    gather_visible_models test_obb ecs camera dirty_only static_only require_reflection_caster
      = (entities_with_components ecs).filter
          (gather_keeps test_obb camera dirty_only static_only require_reflection_caster) := by
  unfold gather_visible_models
  rw [foldl_gather_visible_models_step, List.nil_append]

theorem filter_sublist_filter {α : Type} (p q : α → Bool) (h : ∀ a, p a = true → q a = true)
    (l : List α) : List.Sublist (l.filter p) (l.filter q) := by
  induction l with
  | nil => exact List.Sublist.slnil
  | cons x xs ih =>
    rw [List.filter_cons, List.filter_cons]
    by_cases hp : p x = true
    · rw [if_pos hp, if_pos (h x hp)]
      exact List.Sublist.cons₂ x ih
    · rw [if_neg hp]
      split_ifs
      · exact List.Sublist.cons x ih
      · exact ih

theorem gather_keeps_dirty_only {Frustum Bounds Transform : Type}
    (test_obb : Frustum → Bounds → Transform → Bool) (camera : Option (camera Frustum))
    (static_only require_reflection_caster : Bool)
    (element : visibility_entry Bounds Transform)
    (h : gather_keeps test_obb camera true static_only require_reflection_caster element = true) :
    gather_keeps test_obb camera false static_only require_reflection_caster element = true := by
  unfold gather_keeps at h ⊢
  cases hl : element.2.2.get_lod 0 with
  | none => simp [hl] at h
  | some mesh =>
    simp only [hl, Bool.and_eq_true] at h ⊢
    exact ⟨h.1, h.2.1, by simp⟩

/-! ## Claims on the LOD tracker -/

/-- C1 (as the claim states it, refuted): with `total_lods = 4`, `min_dist = 10`,
`max_dist = 100` the target computed for distance 10 is 0, not 3, the target
computed for distance 100 is 3, not 0, and a stable tracker latches exactly
these values. -/
theorem C1_counterexample :
    lod_target 4 10 100 10 = 0 ∧ lod_target 4 10 100 10 ≠ 3 ∧
    lod_target 4 10 100 100 = 3 ∧ lod_target 4 10 100 100 ≠ 0 ∧
    (update_lod_data lod_data.zero 4 10 100 1 10 (1/2)).target_lod_index = 0 ∧
    (update_lod_data lod_data.zero 4 10 100 1 100 (1/2)).target_lod_index = 3 := by
  decide!

/-- C1 (amended): for `total_lods = 4`, `min_dist = 10`, `max_dist = 100` the
target LOD index computed from the distance, which a stable tracker latches
into `target_lod_index`, is 0 for every distance `<= 10` and 3 for every
distance `>= 100`. -/
theorem C1_lod_target_near_far (data : lod_data) (transition_time distance dt : float)
    (hstable : data.target_lod_index = data.current_lod_index) :
    (distance ≤ 10 →
      lod_target 4 10 100 distance = 0 ∧
      (update_lod_data data 4 10 100 transition_time distance dt).target_lod_index = 0) ∧
    (100 ≤ distance →
      lod_target 4 10 100 distance = 3 ∧
      (update_lod_data data 4 10 100 transition_time distance dt).target_lod_index = 3) := by
  constructor
  · intro h
    have h0 := lod_target_near distance h
    have key := latch_target_stable data (lod_target 4 10 100 distance)
      (by rw [h0]) (by rw [h0]; norm_num) hstable
    rw [update_lod_data_target _ _ _ _ _ _ _ (by norm_num)]
    rw [h0] at key ⊢
    exact ⟨rfl, by exact_mod_cast key⟩
  · intro h
    have h3 := lod_target_far distance h
    have key := latch_target_stable data (lod_target 4 10 100 distance)
      (by rw [h3]; norm_num) (by rw [h3]; norm_num) hstable
    rw [update_lod_data_target _ _ _ _ _ _ _ (by norm_num)]
    rw [h3] at key ⊢
    exact ⟨rfl, by exact_mod_cast key⟩

/-- Witness of C1 (amended) at the zero state and the distances 5 and 150. -/
theorem C1_lod_target_near_far_witness :
    (lod_target 4 10 100 5 = 0 ∧
      (update_lod_data lod_data.zero 4 10 100 1 5 (1/2)).target_lod_index = 0) ∧
    (lod_target 4 10 100 150 = 3 ∧
      (update_lod_data lod_data.zero 4 10 100 1 150 (1/2)).target_lod_index = 3) :=
  ⟨(C1_lod_target_near_far lod_data.zero 1 5 (1/2) rfl).1 (by decide!),
   (C1_lod_target_near_far lod_data.zero 1 150 (1/2) rfl).2 (by decide!)⟩

/-- C2: transition lock.  For `total_lods >= 2`, a call of `update_lod_data` on
a state with `target_lod_index != current_lod_index` leaves `target_lod_index`
unchanged whatever the distance; so a call that changes `target_lod_index`
started from a state with `target_lod_index == current_lod_index`. -/
theorem C2_transition_lock (data : lod_data) (total_lods : Nat)
    (min_dist max_dist transition_time distance dt : float) (h2 : 2 ≤ total_lods) :
    (data.target_lod_index ≠ data.current_lod_index →
      (update_lod_data data total_lods min_dist max_dist transition_time distance dt).target_lod_index
        = data.target_lod_index) ∧
    ((update_lod_data data total_lods min_dist max_dist transition_time distance dt).target_lod_index
        ≠ data.target_lod_index →
      data.target_lod_index = data.current_lod_index) := by
  have locked : data.target_lod_index ≠ data.current_lod_index →
      (update_lod_data data total_lods min_dist max_dist transition_time distance dt).target_lod_index
        = data.target_lod_index := by
    intro h
    rw [update_lod_data_target _ _ _ _ _ _ _ (by omega), latch_target_locked _ _ h]
  refine ⟨locked, fun hne => ?_⟩
  by_contra h
  exact hne (locked h)

/-- Witness of C2: in the transition 0 -> 1 a sample at distance 100, which
implies target 3, leaves the target at 1. -/
theorem C2_transition_lock_witness :
    (update_lod_data ⟨0, 1, 1/4⟩ 4 10 100 1 100 (1/4)).target_lod_index = 1 :=
  (C2_transition_lock ⟨0, 1, 1/4⟩ 4 10 100 1 100 (1/4) (by norm_num)).1 (by decide)

/-- C3: for `total_lods >= 2`, with `T` the value of `target_lod_index` after the
latch step, `update_lod_data` adds `dt` to `current_time` exactly when
`current_lod_index != T`; if the resulting time is `>= transition_time` the
final state is `(T, T, 0)`, otherwise it is `(current_lod_index, T, time)`.
The sum and the comparison are those of `float`. -/
theorem C3_accumulate_and_snap (data : lod_data) (total_lods : Nat)
    (min_dist max_dist transition_time distance dt : float) (h2 : 2 ≤ total_lods) :
    let T := (latch_target data (lod_target total_lods min_dist max_dist distance)).target_lod_index
    let time := if data.current_lod_index ≠ T then data.current_time + dt else data.current_time
    update_lod_data data total_lods min_dist max_dist transition_time distance dt
      = if time ≥ transition_time then ⟨T, T, 0⟩ else ⟨data.current_lod_index, T, time⟩ :=
  update_lod_data_closed_form data total_lods min_dist max_dist transition_time distance dt
    (by omega)

/-- Witness of C3: one step inside a transition, the step that completes it,
and the step from time `0.2f` by `0.1f` against the transition time `0.3f`,
where the rounded sum reaches the transition time. -/
theorem C3_accumulate_and_snap_witness :
    update_lod_data ⟨0, 1, 1/4⟩ 4 10 100 1 100 (1/4) = ⟨0, 1, 1/2⟩ ∧
    update_lod_data ⟨0, 1, 3/4⟩ 4 10 100 1 100 (1/4) = ⟨1, 1, 0⟩ ∧
    update_lod_data ⟨0, 1, 1/5⟩ 4 10 100 (3/10) 100 (1/10) = ⟨1, 1, 0⟩ :=
  ⟨(C3_accumulate_and_snap ⟨0, 1, 1/4⟩ 4 10 100 1 100 (1/4) (by norm_num)).trans (by decide!),
   (C3_accumulate_and_snap ⟨0, 1, 3/4⟩ 4 10 100 1 100 (1/4) (by norm_num)).trans (by decide!),
   (C3_accumulate_and_snap ⟨0, 1, 1/5⟩ 4 10 100 (3/10) 100 (1/10) (by norm_num)).trans
     (by decide!)⟩

/-- C5: with `total_lods <= 1` (0 or 1) `update_lod_data` returns the state
unchanged, for every state and every other argument. -/
theorem C5_single_lod_noop (data : lod_data) (total_lods : Nat)
    (min_dist max_dist transition_time distance dt : float) (h : total_lods ≤ 1) :
    update_lod_data data total_lods min_dist max_dist transition_time distance dt = data := by
  unfold update_lod_data
  rw [if_pos h]

/-- Witness of C5 at `total_lods = 1`, on a state in the middle of a transition
whose time is past the transition time. -/
theorem C5_single_lod_noop_witness :
    update_lod_data ⟨0, 2, 5⟩ 1 10 100 1 100 (1/2) = ⟨0, 2, 5⟩ :=
  C5_single_lod_noop ⟨0, 2, 5⟩ 1 10 100 1 100 (1/2) (by norm_num)

/-- C4 (as the claim states it, refuted): from the zero state a sample at
distance 55 starts the transition 0 -> 1; a call at distance 100 (target 3,
ignored by the lock) completes it and leaves `(1, 1, 0)`; the next call with
the same arguments does not leave `(1, 1, 0)`: it latches target 3. -/
theorem C4_counterexample :
    run_updates lod_data.zero [⟨4, 10, 100, 1, 55, 1/2⟩] = ⟨0, 1, 1/2⟩ ∧
    transition_completes ⟨0, 1, 1/2⟩ 4 10 100 1 100 (1/2) ∧
    update_lod_data ⟨0, 1, 1/2⟩ 4 10 100 1 100 (1/2) = ⟨1, 1, 0⟩ ∧
    update_lod_data ⟨1, 1, 0⟩ 4 10 100 1 100 (1/2) = ⟨1, 3, 1/2⟩ ∧
    update_lod_data ⟨1, 1, 0⟩ 4 10 100 1 100 (1/2) ≠ ⟨1, 1, 0⟩ := by
  decide!

/-- C4 (amended): if an `update_lod_data` call completes a transition, leaving
the state `(X, X, 0)`, and `X` is the target index that the distance implies,
then any number `n` of further calls with the same distance and the same other
arguments leave the state equal to `(X, X, 0)`. -/
theorem C4_idempotent_at_implied_target (data : lod_data) (total_lods : Nat)
    (min_dist max_dist transition_time distance dt : float) (n : Nat)
    (hc : transition_completes data total_lods min_dist max_dist transition_time distance dt)
    (hX : ((update_lod_data data total_lods min_dist max_dist transition_time distance
        dt).target_lod_index : Int) = lod_target total_lods min_dist max_dist distance) :
    ∃ X : Nat,
      update_lod_data data total_lods min_dist max_dist transition_time distance dt = ⟨X, X, 0⟩ ∧
      (fun d => update_lod_data d total_lods min_dist max_dist transition_time distance dt)^[n]
        (update_lod_data data total_lods min_dist max_dist transition_time distance dt)
        = ⟨X, X, 0⟩ := by
  have hs := update_lod_data_completes _ _ _ _ _ _ _ hc
  rw [hs] at hX ⊢
  refine ⟨_, rfl, ?_⟩
  exact iterate_update_fixed _ _ _ _ _ _ _ (update_lod_data_fixed _ _ _ _ _ _ _ hX) n

/-- Witness of C4 (amended): the transition 0 -> 3 latched at distance 100 and
completed at distance 100, followed by seven more calls. -/
theorem C4_idempotent_at_implied_target_witness :
    ∃ X : Nat,
      update_lod_data ⟨0, 3, 1/2⟩ 4 10 100 1 100 (1/2) = ⟨X, X, 0⟩ ∧
      (fun d => update_lod_data d 4 10 100 1 100 (1/2))^[7]
        (update_lod_data ⟨0, 3, 1/2⟩ 4 10 100 1 100 (1/2)) = ⟨X, X, 0⟩ :=
  C4_idempotent_at_implied_target ⟨0, 3, 1/2⟩ 4 10 100 1 100 (1/2) 7 (by decide!) (by decide!)

/-- C7 (as the claim states it, refuted): with `total_lods = 16777220` the count
`total_lods - 1 = 16777219` is not a `float`; it converts to 16777220, and at a
distance `>= max_dist` the target index is 16777220, which is not in
`[0, total_lods - 1]`; a stable tracker latches it, so that a valid
`target_lod_index` becomes invalid.  Further, with `total_lods = 4`: a NaN
distance makes the quotient NaN; and for the `float` values `min_dist = -2^127
< max_dist = 2^127`, whose difference overflows to infinity, the distance
`-2^127` makes the quotient `inf / inf`, NaN as well.  NaN passes the clamp and
the interpolation and reaches the `(int)` cast, for which C++ defines no value;
the value of `float_to_int` is not in `[0, 3]`. -/
theorem C7_counterexample :
    2 ≤ 16777220 ∧ (10 : float) < 100 ∧
    lod_target 16777220 10 100 100 = 16777220 ∧
    ¬ lod_target 16777220 10 100 100 ≤ (16777220 : Int) - 1 ∧
    lod_data.zero.target_lod_index < 16777220 ∧
    ¬ (update_lod_data lod_data.zero 16777220 10 100 1 100 (1/2)).target_lod_index
        < 16777220 ∧
    ¬ 0 ≤ lod_target 4 10 100 float.nan ∧
    (float.finite (-(2 ^ 127))).is_binary32 ∧ (float.finite (2 ^ 127)).is_binary32 ∧
    float.finite (-(2 ^ 127)) < float.finite (2 ^ 127) ∧
    float.finite (2 ^ 127) - float.finite (-(2 ^ 127)) = float.pos_inf ∧
    ¬ 0 ≤ lod_target 4 (float.finite (-(2 ^ 127))) (float.finite (2 ^ 127))
        (float.finite (-(2 ^ 127))) := by
  decide!

/-- C7 (amended): for `2 <= total_lods <= 16777219`, for `float` values
`min_dist < max_dist` whose difference `max_dist - min_dist` does not overflow
and for every distance that is not NaN, the target index, the truncation of
`lerp(0, total_lods - 1, 1 - clamp((max_dist - distance) / (max_dist -
min_dist), 0, 1))`, lies in `[0, total_lods - 1]`; hence valid LOD indices in
`current_lod_index` and `target_lod_index` before the call are valid LOD
indices after it. -/
theorem C7_target_in_range (data : lod_data) (total_lods : Nat)
    (min_dist max_dist transition_time distance dt : float)
    (h2 : 2 ≤ total_lods) (hN : total_lods ≤ 16777219)
    (hmin : min_dist.is_binary32) (hmax : max_dist.is_binary32)
    (hlt : min_dist < max_dist) (hfin : max_dist - min_dist ≠ float.pos_inf)
    (hd : distance ≠ float.nan) :
    lod_target total_lods min_dist max_dist distance
      = float_to_int (math.lerp 0 (size_to_float (total_lods - 1))
          (1 - math.clamp ((max_dist - distance) / (max_dist - min_dist)) 0 1)) ∧
    0 ≤ lod_target total_lods min_dist max_dist distance ∧
    lod_target total_lods min_dist max_dist distance ≤ (total_lods : Int) - 1 ∧
    (data.current_lod_index < total_lods → data.target_lod_index < total_lods →
      (update_lod_data data total_lods min_dist max_dist transition_time distance
        dt).current_lod_index < total_lods ∧
      (update_lod_data data total_lods min_dist max_dist transition_time distance
        dt).target_lod_index < total_lods) := by
  have hq := quotient_ne_nan hmin hmax hlt hfin hd
  obtain ⟨h0, h1⟩ := lod_target_in_range total_lods min_dist max_dist distance hN hq
  refine ⟨rfl, h0, ?_, fun hcur htgt => ?_⟩
  · omega
  · have hT := latch_target_lt data total_lods min_dist max_dist distance hN hq (by omega) htgt
    rw [update_lod_data_closed_form _ _ _ _ _ _ _ (by omega)]
    split_ifs
    all_goals first
      | exact ⟨hT, hT⟩
      | exact ⟨hcur, hT⟩

/-- Witness of C7 (amended) at `total_lods = 4`, `min_dist = 10 < max_dist =
100`, distance 70. -/
theorem C7_target_in_range_witness :
    0 ≤ lod_target 4 10 100 70 ∧ lod_target 4 10 100 70 ≤ (4 : Int) - 1 :=
  ⟨(C7_target_in_range lod_data.zero 4 10 100 1 70 (1/2) (by norm_num) (by norm_num)
      (by decide!) (by decide!) (by decide!) (by decide!) (by decide!)).2.1,
   (C7_target_in_range lod_data.zero 4 10 100 1 70 (1/2) (by norm_num) (by norm_num)
      (by decide!) (by decide!) (by decide!) (by decide!) (by decide!)).2.2.1⟩

/-- C24 (as the claim states it, refuted), at two inputs.  First, with
`total_lods = 2147483585` the count `total_lods - 1` converts to the `float`
`2^31`; at distance 100 the interpolated value is `2^31`, which is no `int`,
and the conversion gives `-2^31`, below the index 0 computed at distance 10.
Second, with `total_lods = 4` and the `float` values `min_dist = -2^127 <
max_dist = 2^127`, whose difference overflows to infinity: at distance 0 the
quotient is `2^127 / inf = 0` and the index is 3; at the distance `+inf` the
quotient is `-inf / inf`, NaN, and the conversion of NaN gives an index below
3. -/
theorem C24_counterexample :
    2 ≤ 2147483585 ∧ (10 : float) < 100 ∧ (10 : float) ≤ 100 ∧
    lod_target 2147483585 10 100 10 = 0 ∧
    lod_target 2147483585 10 100 100 = -2147483648 ∧
    ¬ lod_target 2147483585 10 100 10 ≤ lod_target 2147483585 10 100 100 ∧
    (float.finite (-(2 ^ 127))).is_binary32 ∧ (float.finite (2 ^ 127)).is_binary32 ∧
    float.finite (-(2 ^ 127)) < float.finite (2 ^ 127) ∧
    float.finite (2 ^ 127) - float.finite (-(2 ^ 127)) = float.pos_inf ∧
    (0 : float) ≤ float.pos_inf ∧
    lod_target 4 (float.finite (-(2 ^ 127))) (float.finite (2 ^ 127)) 0 = 3 ∧
    ¬ lod_target 4 (float.finite (-(2 ^ 127))) (float.finite (2 ^ 127)) 0
        ≤ lod_target 4 (float.finite (-(2 ^ 127))) (float.finite (2 ^ 127)) float.pos_inf := by
  decide!

/-- C24 (amended): for `2 <= total_lods <= 2147483584` and for `float` values
`min_dist < max_dist` whose difference `max_dist - min_dist` does not overflow,
the target LOD index that `update_lod_data` computes is monotonically
non-decreasing in the distance: for `d1 <= d2` the index computed for `d1` is
at most the index computed for `d2`. -/
theorem C24_target_monotone (total_lods : Nat) (min_dist max_dist d1 d2 : float)
    (_h2 : 2 ≤ total_lods) (hN : total_lods ≤ 2147483584)
    (hmin : min_dist.is_binary32) (hmax : max_dist.is_binary32)
    (hlt : min_dist < max_dist) (hfin : max_dist - min_dist ≠ float.pos_inf)
    (hd : d1 ≤ d2) :
    lod_target total_lods min_dist max_dist d1 ≤ lod_target total_lods min_dist max_dist d2 :=
  lod_target_mono total_lods min_dist max_dist d1 d2 hN
    (quotient_antitone hmin hmax hlt hfin hd)

/-- Witness of C24 (amended) at `total_lods = 4`, `min_dist = 10`, `max_dist =
100` and the distances 40 and 70, whose indices are 0 and 1: the quotients
`60/90` and `30/90` round so that the interpolated values fall just below 1
and 2. -/
theorem C24_target_monotone_witness :
    lod_target 4 10 100 40 = 0 ∧ lod_target 4 10 100 70 = 1 ∧
    lod_target 4 10 100 40 ≤ lod_target 4 10 100 70 :=
  ⟨by decide!, by decide!,
   C24_target_monotone 4 10 100 40 70 (by norm_num) (by norm_num) (by decide!) (by decide!)
     (by decide!) (by decide!) (by decide!)⟩

theorem run_updates_append_one (data : lod_data) (calls : List lod_call) (c : lod_call) :
    run_updates data (calls ++ [c])
      = update_lod_data (run_updates data calls) c.total_lods c.min_dist c.max_dist
          c.transition_time c.distance c.dt := by
  unfold run_updates
  rw [List.foldl_append]
  rfl

theorem update_lod_data_in_transition (data : lod_data) (total_lods : Nat)
    (min_dist max_dist transition_time distance dt : float) (hdt : 0 < dt)
    (hb : dt.is_binary32)
    (hstable : data.current_lod_index = data.target_lod_index → data.current_time = 0)
    (hmoving : data.current_lod_index ≠ data.target_lod_index → 0 < data.current_time) :
    ((update_lod_data data total_lods min_dist max_dist transition_time distance
        dt).current_lod_index
      = (update_lod_data data total_lods min_dist max_dist transition_time distance
        dt).target_lod_index →
      (update_lod_data data total_lods min_dist max_dist transition_time distance
        dt).current_time = 0) ∧
    ((update_lod_data data total_lods min_dist max_dist transition_time distance
        dt).current_lod_index
      ≠ (update_lod_data data total_lods min_dist max_dist transition_time distance
        dt).target_lod_index →
      0 < (update_lod_data data total_lods min_dist max_dist transition_time distance
        dt).current_time) := by
  by_cases h : 1 < total_lods
  · rw [update_lod_data_closed_form _ _ _ _ _ _ _ h]
    have h0 : 0 ≤ data.current_time := by
      by_cases hc : data.current_lod_index = data.target_lod_index
      · rw [hstable hc]
        exact float_zero_le_zero
      · exact float_le_of_lt (hmoving hc)
    by_cases hct : data.current_lod_index
        = (latch_target data (lod_target total_lods min_dist max_dist distance)).target_lod_index
    · have ht0 := hstable (latch_target_eq_current _ _ hct.symm).symm
      simp only [hct, ne_eq, not_true_eq_false, if_false]
      split_ifs
      · exact ⟨fun _ => rfl, fun hne => absurd rfl hne⟩
      · exact ⟨fun _ => ht0, fun hne => absurd rfl hne⟩
    · simp only [ne_eq, hct, not_false_eq_true, if_true]
      split_ifs
      · exact ⟨fun _ => rfl, fun hne => absurd rfl hne⟩
      · exact ⟨fun hc => absurd hc hct, fun _ => float_add_pos h0 hdt hb⟩
  · unfold update_lod_data
    rw [if_pos (by omega)]
    exact ⟨hstable, hmoving⟩

theorem run_updates_in_transition (calls : List lod_call)
    (hdt : ∀ c ∈ calls, 0 < c.dt ∧ c.dt.is_binary32) :
    ((run_updates lod_data.zero calls).current_lod_index
        = (run_updates lod_data.zero calls).target_lod_index →
      (run_updates lod_data.zero calls).current_time = 0) ∧
    ((run_updates lod_data.zero calls).current_lod_index
        ≠ (run_updates lod_data.zero calls).target_lod_index →
      0 < (run_updates lod_data.zero calls).current_time) := by
  induction calls using List.reverseRecOn with
  | nil => exact ⟨fun _ => rfl, fun hne => absurd rfl hne⟩
  | append_singleton cs c ih =>
    rw [run_updates_append_one]
    obtain ⟨h1, h2⟩ := ih fun c' hc' => hdt c' (List.mem_append_left _ hc')
    have hc := hdt c (List.mem_append_right _ (List.mem_singleton_self c))
    exact update_lod_data_in_transition _ _ _ _ _ _ _ hc.1 hc.2 h1 h2

/-! ## Claims on the visibility gatherer -/

/-- C8: for every scene, every camera (present or null) and every value of
`static_only` and `require_reflection_caster`, the result of
`gather_visible_models` with `dirty_only = true` is a sublist of the result with
`dirty_only = false`: every entry of the former is an entry of the latter and
the entries keep their relative order. -/
theorem C8_dirty_only_sublist {Frustum Bounds Transform : Type}
    (test_obb : Frustum → Bounds → Transform → Bool)
    (ecs : entity_component_system Bounds Transform) (camera : Option (camera Frustum))
    (static_only require_reflection_caster : Bool) :
    List.Sublist
      (gather_visible_models test_obb ecs camera true static_only require_reflection_caster)
      (gather_visible_models test_obb ecs camera false static_only require_reflection_caster) := by
  rw [gather_visible_models_eq_filter, gather_visible_models_eq_filter]
  exact filter_sublist_filter _ _
    (gather_keeps_dirty_only test_obb camera static_only require_reflection_caster) _

/-- C9: for every scene, every non-null camera and every value of the three
filter flags, an entity whose LOD-0 mesh bounds under its world transform fail
the oriented-bounding-box test against the camera's frustum does not appear in
the result of `gather_visible_models`. -/
theorem C9_outside_frustum_excluded {Frustum Bounds Transform : Type}
    (test_obb : Frustum → Bounds → Transform → Bool)
    (ecs : entity_component_system Bounds Transform) (cam : camera Frustum)
    (dirty_only static_only require_reflection_caster : Bool)
    (element : visibility_entry Bounds Transform) (m : mesh Bounds)
    (hm : element.2.2.get_lod 0 = some m)
    (hout : test_obb cam.get_frustum m.get_bounds element.2.1.get_transform = false) :
    element ∉ gather_visible_models test_obb ecs (some cam) dirty_only static_only
      require_reflection_caster := by
  rw [gather_visible_models_eq_filter]
  intro hmem
  have hk := (List.mem_filter.mp hmem).2
  unfold gather_keeps at hk
  simp [hm, hout] at hk

/-- Witness of C9: a radius-1 entity at depth 300 and a camera with far clip
256, every filter flag off. -/
theorem C9_outside_frustum_excluded_witness :
    ((7 : entity), scenario_transform 300, scenario_model false false false)
      ∉ gather_visible_models axis_test_obb (scenario_ecs 300 false) (some scenario_camera)
          false false false :=
  C9_outside_frustum_excluded axis_test_obb (scenario_ecs 300 false) scenario_camera
    false false false ((7 : entity), scenario_transform 300, scenario_model false false false)
    { get_bounds := 1 } rfl (by decide!)

/-- C10 (as the claim states it, refuted): a non-static entity with a transform
and a loaded mesh of radius 1 at depth 50 passes the frustum test of a camera
with far clip 256, and the call with the source's default flags
(`dirty_only = false`, `static_only = true`, `require_reflection_caster = false`)
returns the empty set. -/
theorem C10_counterexample :
    (entities_with_components (scenario_ecs 50 false)).length = 1 ∧
    axis_test_obb scenario_camera.get_frustum 1 (scenario_transform 50).get_transform = true ∧
    gather_visible_models axis_test_obb (scenario_ecs 50 false) (some scenario_camera)
      false true false = [] := by
  refine ⟨rfl, by decide!, rfl⟩

/-- C10 (amended): for every scene and every non-null camera, every entity with
a transform and a mesh whose bounds pass the frustum test appears in the result
of `gather_visible_models` called with that camera, provided it passes the
filters of the call: it is static when `static_only`, it casts reflections when
`require_reflection_caster`, and its transform or its model component is dirty
when `dirty_only`. -/
theorem C10_inside_frustum_included {Frustum Bounds Transform : Type}
    (test_obb : Frustum → Bounds → Transform → Bool)
    (ecs : entity_component_system Bounds Transform) (cam : camera Frustum)
    (dirty_only static_only require_reflection_caster : Bool)
    (element : visibility_entry Bounds Transform) (m : mesh Bounds)
    (hin : element ∈ entities_with_components ecs)
    (hm : element.2.2.get_lod 0 = some m)
    (hvis : test_obb cam.get_frustum m.get_bounds element.2.1.get_transform = true)
    (hstatic : static_only = true → element.2.2.is_static = true)
    (hcaster : require_reflection_caster = true → element.2.2.casts_reflection = true)
    (hdirty : dirty_only = true →
      element.2.1.is_dirty = true ∨ element.2.2.is_dirty = true) :
    element ∈ gather_visible_models test_obb ecs (some cam) dirty_only static_only
      require_reflection_caster := by
  rw [gather_visible_models_eq_filter]
  refine List.mem_filter.mpr ⟨hin, ?_⟩
  unfold gather_keeps
  simp only [hm, hvis, Bool.and_eq_true, Bool.or_eq_true, Bool.not_eq_true']
  refine ⟨⟨?_, ?_⟩, trivial, ?_⟩
  · cases static_only
    · exact Or.inl rfl
    · exact Or.inr (hstatic rfl)
  · cases require_reflection_caster
    · exact Or.inl rfl
    · exact Or.inr (hcaster rfl)
  · cases dirty_only
    · exact Or.inl (Or.inl rfl)
    · rcases hdirty rfl with h | h
      · exact Or.inl (Or.inr h)
      · exact Or.inr h

/-- Witness of C10 (amended): the static radius-1 entity at depth 50 is in the
result of the call with the source's default flags. -/
theorem C10_inside_frustum_included_witness :
    ((7 : entity), scenario_transform 50, scenario_model true false false)
      ∈ gather_visible_models axis_test_obb (scenario_ecs 50 true) (some scenario_camera)
          false true false :=
  C10_inside_frustum_included axis_test_obb (scenario_ecs 50 true) scenario_camera
    false true false ((7 : entity), scenario_transform 50, scenario_model true false false)
    { get_bounds := 1 } (by simp [scenario_ecs, entities_with_components]) rfl (by decide!)
    (fun _ => rfl) (fun h => absurd h (by decide)) (fun h => absurd h (by decide))

/-! ## Lemmas on the LOD store -/

theorem find_erase_self {α : Type} (m : unordered_map α) (key : entity) :
    unordered_map.find (unordered_map.erase m key) key = none := by
  induction m with
  | nil => rfl
  | cons p rest ih =>
    obtain ⟨k, v⟩ := p
    by_cases hk : k = key
    · simp [unordered_map.erase, hk, ih]
    · simp [unordered_map.erase, unordered_map.find, hk, ih]

theorem find_erase_of_ne {α : Type} (m : unordered_map α) (key x : entity) (hx : x ≠ key) :
    unordered_map.find (unordered_map.erase m key) x = unordered_map.find m x := by
  induction m with
  | nil => rfl
  | cons p rest ih =>
    obtain ⟨k, v⟩ := p
    by_cases hk : k = key
    · subst hk
      have hkx : ¬ k = x := fun h => hx h.symm
      simp [unordered_map.erase, unordered_map.find, hkx, ih]
    · by_cases hkx : k = x
      · subst hkx
        simp [unordered_map.erase, unordered_map.find, hk]
      · simp [unordered_map.erase, unordered_map.find, hk, hkx, ih]

theorem find_map_values {α β : Type} (f : α → β) (m : unordered_map α) (key : entity) :
    unordered_map.find (m.map fun pair => (pair.1, f pair.2)) key
      = (unordered_map.find m key).map f := by
  induction m with
  | nil => rfl
  | cons p rest ih =>
    obtain ⟨k, v⟩ := p
    by_cases hk : k = key
    · simp [unordered_map.find, hk]
    · simp [unordered_map.find, hk, ih]

theorem find_receive (_lod_data : lod_store) (e c : entity) :
    unordered_map.find (receive _lod_data e) c
      = if c = e then none
        else (unordered_map.find _lod_data c).map fun table => unordered_map.erase table e := by
  show unordered_map.find
      (List.map (fun pair => (pair.1, (fun table => unordered_map.erase table e) pair.2))
        (unordered_map.erase _lod_data e)) c = _
  rw [find_map_values fun table => unordered_map.erase table e]
  split_ifs with h
  · subst h
    rw [find_erase_self]
    rfl
  · rw [find_erase_of_ne _ _ _ h]

/-! ## Claims on the null-camera gather and on the LOD store -/

/-- C11: with a null camera `gather_visible_models` performs no frustum test:
the result is the transform+mesh iteration, in iteration order, restricted to
the entities with (not `static_only` or the mesh is static) and (not
`require_reflection_caster` or the mesh casts reflection) and the LOD-0 mesh is
loaded and (not `dirty_only` or the transform is dirty or the mesh is dirty). -/
theorem C11_null_camera_filters_only {Frustum Bounds Transform : Type}
    (test_obb : Frustum → Bounds → Transform → Bool)
    (ecs : entity_component_system Bounds Transform)
    (dirty_only static_only require_reflection_caster : Bool) :
    gather_visible_models test_obb ecs none dirty_only static_only require_reflection_caster
      = (entities_with_components ecs).filter fun element =>
          (!static_only || element.2.2.is_static) &&
          (!require_reflection_caster || element.2.2.casts_reflection) &&
          (element.2.2.get_lod 0).isSome &&
          (!dirty_only || element.2.1.is_dirty || element.2.2.is_dirty) := by
  rw [gather_visible_models_eq_filter]
  congr 1
  funext element
  unfold gather_keeps
  cases hl : element.2.2.get_lod 0 <;> simp [Bool.and_assoc]

/-- C12: after `receive(e)` the store has no table keyed by `e` and no
remaining table has an entry for `e`; every other table is still there and
keeps, for every other entity, the entry it had, with the same LOD state; and
no table is added. -/
theorem C12_receive_purges_entity (_lod_data : lod_store) (e : entity) :
    unordered_map.find (receive _lod_data e) e = none ∧
    (∀ (c : entity) (table : unordered_map lod_data),
      unordered_map.find (receive _lod_data e) c = some table →
      unordered_map.find table e = none) ∧
    (∀ (c : entity) (table : unordered_map lod_data), c ≠ e →
      unordered_map.find _lod_data c = some table →
      ∃ table', unordered_map.find (receive _lod_data e) c = some table' ∧
        ∀ x : entity, x ≠ e → unordered_map.find table' x = unordered_map.find table x) ∧
    (∀ c : entity, unordered_map.find _lod_data c = none →
      unordered_map.find (receive _lod_data e) c = none) := by
  refine ⟨?_, ?_, ?_, ?_⟩
  · rw [find_receive, if_pos rfl]
  · intro c table h
    rw [find_receive] at h
    split_ifs at h with hc
    cases hf : unordered_map.find _lod_data c with
    | none => simp [hf] at h
    | some t =>
      simp only [hf, Option.map_some', Option.some.injEq] at h
      rw [← h]
      exact find_erase_self t e
  · intro c table hc hf
    refine ⟨unordered_map.erase table e, ?_, fun x hx => find_erase_of_ne table e x hx⟩
    rw [find_receive, if_neg hc, hf]
    rfl
  · intro c hf
    rw [find_receive]
    split_ifs
    · rfl
    · rw [hf]
      rfl

/-- Witness of C12: entity 7 destroyed in a store where it has a table of its
own and entries in the tables of the cameras 1 and 2; the entry of entity 8 in
the table of camera 1 is kept. -/
theorem C12_receive_purges_entity_witness :
    unordered_map.find (receive scenario_store 7) 7 = none ∧
    (∃ table', unordered_map.find (receive scenario_store 7) 1 = some table' ∧
      ∀ x : entity, x ≠ 7 →
        unordered_map.find table' x = unordered_map.find [(7, ⟨0, 1, 1/2⟩), (8, ⟨2, 2, 0⟩)] x) :=
  ⟨(C12_receive_purges_entity scenario_store 7).1,
   (C12_receive_purges_entity scenario_store 7).2.2.1 1 [(7, ⟨0, 1, 1/2⟩), (8, ⟨2, 2, 0⟩)]
     (by decide) rfl⟩

/-! ## Lemmas on the cubemap renderer -/

theorem gather_visible_models_lod0 {Frustum Bounds Transform : Type}
    (test_obb : Frustum → Bounds → Transform → Bool)
    (ecs : entity_component_system Bounds Transform) (camera : Option (camera Frustum))
    (dirty_only static_only require_reflection_caster : Bool)
    (element : visibility_entry Bounds Transform)
    (h : element ∈ gather_visible_models test_obb ecs camera dirty_only static_only
      require_reflection_caster) :
    (element.2.2.get_lod 0).isSome = true := by
  rw [gather_visible_models_eq_filter] at h
  have hk := (List.mem_filter.mp h).2
  unfold gather_keeps at hk
  cases hl : element.2.2.get_lod 0 with
  | none => simp [hl] at hk
  | some mesh => rfl

theorem should_rebuild_reflections_loop_lock {Frustum Bounds Transform : Type}
    (P : render_primitives Frustum Bounds Transform)
    (visibility_set : visibility_set_models_t Bounds Transform)
    (hl : ∀ element ∈ visibility_set, (element.2.2.get_lod 0).isSome = true) :
    should_rebuild_reflections_loop P (lock_handles visibility_set)
      = some (visibility_set.any fun element =>
          element.2.2.is_valid &&
          match element.2.2.get_lod 0 with
          | some mesh => any_face_intersects P mesh.get_bounds element.2.1.get_transform
          | none => false) := by
  induction visibility_set with
  | nil => rfl
  | cons x xs ih =>
    have hx := hl x (List.mem_cons_self _ _)
    have ih' := ih fun element he => hl element (List.mem_cons_of_mem _ he)
    unfold lock_handles at ih' ⊢
    rw [List.map_cons, List.any_cons]
    unfold should_rebuild_reflections_loop
    cases hm : x.2.2.get_lod 0 with
    | none => simp [hm] at hx
    | some mesh =>
      cases hv : x.2.2.is_valid <;>
        cases hi : any_face_intersects P mesh.get_bounds x.2.1.get_transform <;>
        simp [hm, hv, hi, ih']

theorem build_reflections_face_eq {Frustum Bounds Transform : Type}
    (P : render_primitives Frustum Bounds Transform)
    (ecs : entity_component_system Bounds Transform) (dt : float)
    (ce : entity) (world_tranform : Transform) (probe : reflection_probe) (should_rebuild : Bool)
    (state : reflections_state Bounds Transform) (i : Nat) :
    build_reflections_face P ecs dt ce world_tranform probe should_rebuild state i
      = some
          (state.1 ++
            [render_event.g_buffer_fill
               (face_visibility_set P ecs (P.get_face_camera i world_tranform) probe
                 should_rebuild),
             render_event.light_buffer_fill false,
             render_event.atmospherics_fill,
             render_event.output_buffer_fill,
             render_event.cubemap_fill i frame_buffer.output],
           unordered_map.set
             (unordered_map.set state.2 ce (unordered_map.get_or state.2 ce [])) ce
             (g_buffer_pass P (P.get_face_camera i world_tranform)
               (lock_handles
                 (face_visibility_set P ecs (P.get_face_camera i world_tranform) probe
                   should_rebuild))
               (unordered_map.get_or state.2 ce []) dt).camera_lods) := by
  simp [build_reflections_face, g_buffer_pass_run, lighting_pass_run, atmospherics_pass_run,
    tonemapping_pass_run]

theorem foldlM_build_reflections_face {Frustum Bounds Transform : Type}
    (P : render_primitives Frustum Bounds Transform)
    (ecs : entity_component_system Bounds Transform) (dt : float)
    (ce : entity) (world_tranform : Transform) (probe : reflection_probe) (should_rebuild : Bool)
    (faces : List Nat) (state : reflections_state Bounds Transform) :
    faces.foldlM (build_reflections_face P ecs dt ce world_tranform probe should_rebuild) state
      = some
          (state.1 ++ faces.flatMap (fun i =>
            [render_event.g_buffer_fill
               (face_visibility_set P ecs (P.get_face_camera i world_tranform) probe
                 should_rebuild),
             render_event.light_buffer_fill false,
             render_event.atmospherics_fill,
             render_event.output_buffer_fill,
             render_event.cubemap_fill i frame_buffer.output]),
           faces.foldl (fun _lod_data i =>
             unordered_map.set
               (unordered_map.set _lod_data ce (unordered_map.get_or _lod_data ce [])) ce
               (g_buffer_pass P (P.get_face_camera i world_tranform)
                 (lock_handles
                   (face_visibility_set P ecs (P.get_face_camera i world_tranform) probe
                     should_rebuild))
                 (unordered_map.get_or _lod_data ce []) dt).camera_lods) state.2) := by
  induction faces generalizing state with
  | nil => simp
  | cons i rest ih =>
    rw [List.foldlM_cons, build_reflections_face_eq]
    simp only [Option.bind_eq_bind, Option.some_bind]
    rw [ih]
    simp [List.flatMap_cons, List.append_assoc]

theorem rebuild_probe_eq {Frustum Bounds Transform : Type}
    (P : render_primitives Frustum Bounds Transform)
    (ecs : entity_component_system Bounds Transform) (dt : float)
    (ce : entity) (world_tranform : Transform) (probe : reflection_probe)
    (state : reflections_state Bounds Transform) :
    rebuild_probe P ecs dt ce world_tranform probe true state
      = some
          (state.1 ++ probe_rebuild_trace P ecs world_tranform probe,
           (List.range 6).foldl (fun _lod_data i =>
             unordered_map.set
               (unordered_map.set _lod_data ce (unordered_map.get_or _lod_data ce [])) ce
               (g_buffer_pass P (P.get_face_camera i world_tranform)
                 (lock_handles
                   (face_visibility_set P ecs (P.get_face_camera i world_tranform) probe true))
                 (unordered_map.get_or _lod_data ce []) dt).camera_lods) state.2) := by
  unfold rebuild_probe probe_rebuild_trace
  rw [foldlM_build_reflections_face]
  simp [List.append_assoc]

theorem build_reflections_probe_of_true {Frustum Bounds Transform : Type}
    (P : render_primitives Frustum Bounds Transform)
    (ecs : entity_component_system Bounds Transform) (dt : float)
    (dirty_models : visibility_set_models_t Bounds Transform)
    (state : reflections_state Bounds Transform)
    (element : entity × transform_component Transform × reflection_probe_component)
    (h : probe_should_rebuild P dirty_models element.2.1 element.2.2 = some true) :
    build_reflections_probe P ecs dt dirty_models state element
      = rebuild_probe P ecs dt element.1 element.2.1.get_transform element.2.2.get_probe true
          state := by
  unfold build_reflections_probe
  simp only [h]

theorem build_reflections_probe_of_false {Frustum Bounds Transform : Type}
    (P : render_primitives Frustum Bounds Transform)
    (ecs : entity_component_system Bounds Transform) (dt : float)
    (dirty_models : visibility_set_models_t Bounds Transform)
    (state : reflections_state Bounds Transform)
    (element : entity × transform_component Transform × reflection_probe_component)
    (h : probe_should_rebuild P dirty_models element.2.1 element.2.2 = some false) :
    build_reflections_probe P ecs dt dirty_models state element = some state := by
  unfold build_reflections_probe
  simp only [h]

theorem mem_gather_visible_models {Frustum Bounds Transform : Type}
    (test_obb : Frustum → Bounds → Transform → Bool)
    (ecs : entity_component_system Bounds Transform) (camera : Option (camera Frustum))
    (dirty_only static_only require_reflection_caster : Bool)
    (element : visibility_entry Bounds Transform) :
    element ∈ gather_visible_models test_obb ecs camera dirty_only static_only
        require_reflection_caster
      ↔ element ∈ entities_with_components ecs ∧
        gather_keeps test_obb camera dirty_only static_only require_reflection_caster element
          = true := by
  rw [gather_visible_models_eq_filter, List.mem_filter]

theorem probe_should_rebuild_of_dirty {Frustum Bounds Transform : Type}
    (P : render_primitives Frustum Bounds Transform)
    (dirty_models : visibility_set_models_t Bounds Transform)
    (transform_comp : transform_component Transform)
    (reflection_probe_comp : reflection_probe_component)
    (h : transform_comp.is_dirty = true ∨ reflection_probe_comp.is_dirty = true) :
    probe_should_rebuild P dirty_models transform_comp reflection_probe_comp = some true := by
  unfold probe_should_rebuild
  rcases h with h | h <;> simp [h]

theorem probe_should_rebuild_of_clean {Frustum Bounds Transform : Type}
    (P : render_primitives Frustum Bounds Transform)
    (dirty_models : visibility_set_models_t Bounds Transform)
    (transform_comp : transform_component Transform)
    (reflection_probe_comp : reflection_probe_component)
    (ht : transform_comp.is_dirty = false) (hp : reflection_probe_comp.is_dirty = false) :
    probe_should_rebuild P dirty_models transform_comp reflection_probe_comp
      = should_rebuild_reflections P (lock_handles dirty_models)
          reflection_probe_comp.get_probe := by
  unfold probe_should_rebuild
  simp [ht, hp]

theorem cubemap_fill_mem_probe_rebuild_trace {Frustum Bounds Transform : Type}
    (P : render_primitives Frustum Bounds Transform)
    (ecs : entity_component_system Bounds Transform) (world_tranform : Transform)
    (probe : reflection_probe) (i : Nat) (hi : i < 6) :
    render_event.cubemap_fill i frame_buffer.output
      ∈ probe_rebuild_trace P ecs world_tranform probe := by
  unfold probe_rebuild_trace
  refine List.mem_append_left _ (List.mem_flatMap.mpr ⟨i, List.mem_range.mpr hi, ?_⟩)
  simp

theorem probe_should_rebuild_gathered {Frustum Bounds Transform : Type}
    (P : render_primitives Frustum Bounds Transform)
    (ecs : entity_component_system Bounds Transform)
    (transform_comp : transform_component Transform)
    (reflection_probe_comp : reflection_probe_component) :
    ∃ b, probe_should_rebuild P (gather_visible_models P.test_obb ecs none true true true)
      transform_comp reflection_probe_comp = some b := by
  unfold probe_should_rebuild
  split_ifs
  · unfold should_rebuild_reflections
    split_ifs
    · exact ⟨false, rfl⟩
    · rw [should_rebuild_reflections_loop_lock P _
        (fun element he => gather_visible_models_lod0 _ _ _ _ _ _ element he)]
      exact ⟨_, rfl⟩
  · exact ⟨true, rfl⟩

/-- The callbacks of `build_reflections_pass` all return, and each appends the
trace of a rebuild when its `should_rebuild` is true and nothing otherwise. -/
theorem foldlM_build_reflections_probe {Frustum Bounds Transform : Type}
    (P : render_primitives Frustum Bounds Transform)
    (ecs : entity_component_system Bounds Transform) (dt : float)
    (probes : List (entity × transform_component Transform × reflection_probe_component))
    (state : reflections_state Bounds Transform) :
    ∃ _lod_data' : lod_store,
      probes.foldlM
          (build_reflections_probe P ecs dt
            (gather_visible_models P.test_obb ecs none true true true)) state
        = some (state.1 ++ probes.flatMap (fun element =>
            if probe_should_rebuild P (gather_visible_models P.test_obb ecs none true true true)
                element.2.1 element.2.2 = some true then
              probe_rebuild_trace P ecs element.2.1.get_transform element.2.2.get_probe
            else []), _lod_data') := by
  induction probes generalizing state with
  | nil => exact ⟨state.2, by simp⟩
  | cons element rest ih =>
    rw [List.foldlM_cons, List.flatMap_cons]
    obtain ⟨b, hb⟩ := probe_should_rebuild_gathered P ecs element.2.1 element.2.2
    cases b with
    | false =>
      rw [build_reflections_probe_of_false P ecs dt _ state element hb]
      simp only [Option.bind_eq_bind, Option.some_bind]
      obtain ⟨s, hs⟩ := ih state
      rw [hs, hb]
      exact ⟨s, by simp⟩
    | true =>
      rw [build_reflections_probe_of_true P ecs dt _ state element hb, rebuild_probe_eq]
      simp only [Option.bind_eq_bind, Option.some_bind]
      obtain ⟨s, hs⟩ := ih (state.1 ++ probe_rebuild_trace P ecs element.2.1.get_transform
        element.2.2.get_probe,
        (List.range 6).foldl (fun _lod_data i =>
          unordered_map.set
            (unordered_map.set _lod_data element.1 (unordered_map.get_or _lod_data element.1 []))
            element.1
            (g_buffer_pass P (P.get_face_camera i element.2.1.get_transform)
              (lock_handles
                (face_visibility_set P ecs (P.get_face_camera i element.2.1.get_transform)
                  element.2.2.get_probe true))
              (unordered_map.get_or _lod_data element.1 []) dt).camera_lods) state.2)
      rw [hs, hb]
      exact ⟨s, by simp [List.append_assoc]⟩

theorem build_reflections_pass_trace {Frustum Bounds Transform : Type}
    (P : render_primitives Frustum Bounds Transform)
    (ecs : entity_component_system Bounds Transform) (dt : float) (_lod_data : lod_store) :
    ∃ _lod_data' : lod_store,
      build_reflections_pass P ecs dt _lod_data
        = some ((each_transform_probe ecs).flatMap (fun element =>
            if probe_should_rebuild P (gather_visible_models P.test_obb ecs none true true true)
                element.2.1 element.2.2 = some true then
              probe_rebuild_trace P ecs element.2.1.get_transform element.2.2.get_probe
            else []), _lod_data') := by
  obtain ⟨s, hs⟩ := foldlM_build_reflections_probe P ecs dt (each_transform_probe ecs)
    ([], _lod_data)
  exact ⟨s, by unfold build_reflections_pass; simpa using hs⟩

theorem probe_should_rebuild_of_scene_clean {Frustum Bounds Transform : Type}
    (P : render_primitives Frustum Bounds Transform)
    (ecs : entity_component_system Bounds Transform)
    (transform_comp : transform_component Transform)
    (reflection_probe_comp : reflection_probe_component)
    (ht : transform_comp.is_dirty = false) (hp : reflection_probe_comp.is_dirty = false)
    (hclean : ∀ x ∈ entities_with_components ecs,
      x.2.2.is_static = true → x.2.2.casts_reflection = true →
      x.2.1.is_dirty = false ∧ x.2.2.is_dirty = false) :
    probe_should_rebuild P (gather_visible_models P.test_obb ecs none true true true)
      transform_comp reflection_probe_comp = some false := by
  have hnil : gather_visible_models P.test_obb ecs none true true true = [] := by
    rw [List.eq_nil_iff_forall_not_mem]
    intro x hx
    rw [mem_gather_visible_models] at hx
    obtain ⟨hin, hk⟩ := hx
    unfold gather_keeps at hk
    cases hl : x.2.2.get_lod 0 with
    | none => simp [hl] at hk
    | some mesh =>
      simp only [hl, Bool.and_eq_true, Bool.or_eq_true, Bool.not_eq_true', Bool.true_and]
        at hk
      obtain ⟨⟨hs, hc⟩, hdirty⟩ := hk
      have hs' : x.2.2.is_static = true := by simpa using hs
      have hc' : x.2.2.casts_reflection = true := by simpa using hc
      obtain ⟨h1, h2⟩ := hclean x hin hs' hc'
      simp [h1, h2] at hdirty
  rw [probe_should_rebuild_of_clean P _ _ _ ht hp, hnil]
  unfold should_rebuild_reflections
  split_ifs <;> rfl

/-- C13: for a probe whose method is `environment`, `should_rebuild_reflections`
returns false for every visibility set; so the callback of
`build_reflections_pass` renders no cube face for such a probe (it leaves the
trace and the LOD store as they are) when neither the probe nor its transform
is dirty, whatever the set of dirty models. -/
theorem C13_environment_never_rebuilds {Frustum Bounds Transform : Type}
    (P : render_primitives Frustum Bounds Transform)
    (ecs : entity_component_system Bounds Transform) (dt : float)
    (visibility_set : locked_visibility_set Bounds Transform)
    (dirty_models : visibility_set_models_t Bounds Transform)
    (state : reflections_state Bounds Transform)
    (element : entity × transform_component Transform × reflection_probe_component)
    (henv : element.2.2.get_probe.method = reflect_method.environment) :
    should_rebuild_reflections P visibility_set element.2.2.get_probe = some false ∧
    (element.2.1.is_dirty = false → element.2.2.is_dirty = false →
      build_reflections_probe P ecs dt dirty_models state element = some state) := by
  have hfalse : ∀ vs : locked_visibility_set Bounds Transform,
      should_rebuild_reflections P vs element.2.2.get_probe = some false := by
    intro vs
    unfold should_rebuild_reflections
    rw [if_pos henv]
  refine ⟨hfalse visibility_set, fun ht hp => ?_⟩
  apply build_reflections_probe_of_false
  rw [probe_should_rebuild_of_clean P dirty_models _ _ ht hp]
  exact hfalse _

/-- Witness of C13: a clean `environment` probe in a scene whose static
reflection caster is dirty. -/
theorem C13_environment_never_rebuilds_witness :
    should_rebuild_reflections scenario_primitives
        (lock_handles (gather_visible_models axis_test_obb
          (scenario_probe_ecs 50 true false reflect_method.environment) none true true true))
        { method := reflect_method.environment } = some false ∧
    build_reflections_probe scenario_primitives
        (scenario_probe_ecs 50 true false reflect_method.environment) (1/2)
        (gather_visible_models axis_test_obb
          (scenario_probe_ecs 50 true false reflect_method.environment) none true true true)
        ([], [])
        (3, scenario_transform 0,
          { get_probe := { method := reflect_method.environment }, is_dirty := false })
      = some ([], []) :=
  ⟨(C13_environment_never_rebuilds scenario_primitives
      (scenario_probe_ecs 50 true false reflect_method.environment) (1/2)
      (lock_handles (gather_visible_models axis_test_obb
        (scenario_probe_ecs 50 true false reflect_method.environment) none true true true))
      [] ([], [])
      (3, scenario_transform 0,
        { get_probe := { method := reflect_method.environment }, is_dirty := false }) rfl).1,
   (C13_environment_never_rebuilds scenario_primitives
      (scenario_probe_ecs 50 true false reflect_method.environment) (1/2) []
      (gather_visible_models axis_test_obb
        (scenario_probe_ecs 50 true false reflect_method.environment) none true true true)
      ([], [])
      (3, scenario_transform 0,
        { get_probe := { method := reflect_method.environment }, is_dirty := false }) rfl).2
      rfl rfl⟩

/-- C15: the rebuild decision of `build_reflections_pass` respects dirtiness.
The pass returns, and its trace is the concatenation, over the probes of the
scene in iteration order, of one trace per probe.  For every probe whose
transform or probe component is dirty that trace is the trace of a rebuild, in
which all 6 faces are rendered and blitted, whatever the probe's method and the
scene; for every probe with neither dirty, in a scene in which no static
reflection-caster model is dirty (transform or model component), it is empty:
no face is rendered and nothing is blitted. -/
theorem C15_rebuild_respects_dirtiness {Frustum Bounds Transform : Type}
    (P : render_primitives Frustum Bounds Transform)
    (ecs : entity_component_system Bounds Transform) (dt : float) (_lod_data : lod_store) :
    ∃ (probe_trace : entity × transform_component Transform × reflection_probe_component →
        List (render_event Bounds Transform)) (_lod_data' : lod_store),
      build_reflections_pass P ecs dt _lod_data
        = some ((each_transform_probe ecs).flatMap probe_trace, _lod_data') ∧
      ∀ element ∈ each_transform_probe ecs,
        (element.2.1.is_dirty = true ∨ element.2.2.is_dirty = true →
          probe_trace element
            = probe_rebuild_trace P ecs element.2.1.get_transform element.2.2.get_probe ∧
          ∀ i, i < 6 → render_event.cubemap_fill i frame_buffer.output ∈ probe_trace element) ∧
        (element.2.1.is_dirty = false → element.2.2.is_dirty = false →
          (∀ x ∈ entities_with_components ecs,
            x.2.2.is_static = true → x.2.2.casts_reflection = true →
            x.2.1.is_dirty = false ∧ x.2.2.is_dirty = false) →
          probe_trace element = []) := by
  obtain ⟨s, hs⟩ := build_reflections_pass_trace P ecs dt _lod_data
  refine ⟨_, s, hs, fun element _ => ⟨fun hd => ?_, fun ht hp hclean => ?_⟩⟩
  · have h := probe_should_rebuild_of_dirty P
      (gather_visible_models P.test_obb ecs none true true true) element.2.1 element.2.2 hd
    have hpt : (if probe_should_rebuild P
          (gather_visible_models P.test_obb ecs none true true true) element.2.1 element.2.2
          = some true then
        probe_rebuild_trace P ecs element.2.1.get_transform element.2.2.get_probe
        else [])
        = probe_rebuild_trace P ecs element.2.1.get_transform element.2.2.get_probe :=
      if_pos h
    refine ⟨hpt, fun i hi => ?_⟩
    show render_event.cubemap_fill i frame_buffer.output ∈ (if probe_should_rebuild P
          (gather_visible_models P.test_obb ecs none true true true) element.2.1 element.2.2
          = some true then
        probe_rebuild_trace P ecs element.2.1.get_transform element.2.2.get_probe
        else [])
    rw [hpt]
    exact cubemap_fill_mem_probe_rebuild_trace P ecs _ _ i hi
  · have h := probe_should_rebuild_of_scene_clean P ecs element.2.1 element.2.2 ht hp hclean
    show (if probe_should_rebuild P
          (gather_visible_models P.test_obb ecs none true true true) element.2.1 element.2.2
          = some true then
        probe_rebuild_trace P ecs element.2.1.get_transform element.2.2.get_probe
        else []) = []
    rw [h, if_neg (by decide)]

/-- Witness of C15: the pass on a scene with a dirty `environment` probe has the
trace of one rebuild, with its six blits, and the pass on a scene with a clean
`static_only` probe and a clean model has the empty trace. -/
theorem C15_rebuild_respects_dirtiness_witness :
    (∃ _lod_data' : lod_store,
      build_reflections_pass scenario_primitives
          (scenario_probe_ecs 50 false true reflect_method.environment) (1/2) []
        = some (probe_rebuild_trace scenario_primitives
              (scenario_probe_ecs 50 false true reflect_method.environment)
              (scenario_transform 0).get_transform { method := reflect_method.environment } ++ [],
            _lod_data')) ∧
    (∃ _lod_data' : lod_store,
      build_reflections_pass scenario_primitives
          (scenario_probe_ecs 50 false false reflect_method.static_only) (1/2) []
        = some ([] ++ [], _lod_data')) :=
  ⟨match C15_rebuild_respects_dirtiness scenario_primitives
        (scenario_probe_ecs 50 false true reflect_method.environment) (1/2) [] with
    | ⟨probe_trace, s, h, hall⟩ =>
      ⟨s, by
        have hd := ((hall (3, scenario_transform 0,
          { get_probe := { method := reflect_method.environment }, is_dirty := true })
          (by simp [scenario_probe_ecs, each_transform_probe])).1 (Or.inr rfl)).1
        have hlist : (each_transform_probe
            (scenario_probe_ecs 50 false true reflect_method.environment)).flatMap probe_trace
            = probe_trace (3, scenario_transform 0,
                { get_probe := { method := reflect_method.environment }, is_dirty := true })
              ++ [] := rfl
        rw [h, hlist, hd]⟩,
   match C15_rebuild_respects_dirtiness scenario_primitives
        (scenario_probe_ecs 50 false false reflect_method.static_only) (1/2) [] with
    | ⟨probe_trace, s, h, hall⟩ =>
      ⟨s, by
        have hc := (hall (3, scenario_transform 0,
          { get_probe := { method := reflect_method.static_only }, is_dirty := false })
          (by simp [scenario_probe_ecs, each_transform_probe])).2 rfl rfl
          (by
            intro x hx _ _
            simp [scenario_probe_ecs, entities_with_components] at hx
            subst hx
            exact ⟨rfl, rfl⟩)
        have hlist : (each_transform_probe
            (scenario_probe_ecs 50 false false reflect_method.static_only)).flatMap probe_trace
            = probe_trace (3, scenario_transform 0,
                { get_probe := { method := reflect_method.static_only }, is_dirty := false })
              ++ [] := rfl
        rw [h, hlist, hc]⟩⟩

/-- C16: for every camera `deferred_render_full` runs exactly five passes, once
each, in the order G-buffer, reflection-probe accumulation, lighting with the
indirect-specular flag true, atmospherics, tonemapping, on the visibility set
gathered for that camera with `dirty_only = false`, `static_only = false` and
`require_reflection_caster = false`, and returns the output of the tonemapping
pass. -/
theorem C16_deferred_render_full_sequence {Frustum Bounds Transform : Type}
    (P : render_primitives Frustum Bounds Transform) (camera : camera Frustum)
    (ecs : entity_component_system Bounds Transform)
    (camera_lods : unordered_map lod_data) (dt : float) :
    (deferred_render_full P camera ecs camera_lods dt).trace
      = [render_event.g_buffer_fill
           (gather_visible_models P.test_obb ecs (some camera) false false false),
         render_event.refl_buffer_fill,
         render_event.light_buffer_fill true,
         render_event.atmospherics_fill,
         render_event.output_buffer_fill] ∧
    (deferred_render_full P camera ecs camera_lods dt).camera_lods
      = (g_buffer_pass P camera
          (lock_handles (gather_visible_models P.test_obb ecs (some camera) false false false))
          camera_lods dt).camera_lods ∧
    (deferred_render_full P camera ecs camera_lods dt).output
      = (tonemapping_pass_run
          (atmospherics_pass_run (some frame_buffer.l_buffer) : pass_result Bounds Transform).2 :
          pass_result Bounds Transform).2 ∧
    (deferred_render_full P camera ecs camera_lods dt).output = some frame_buffer.output :=
  ⟨rfl, rfl, rfl, rfl⟩

/-- C17: for every probe that `build_reflections_pass` rebuilds, the trace of the
callback is, for the faces 0 to 5 in that order, the G-buffer pass, the lighting
pass with the indirect-specular flag false, the atmospherics pass, the
tonemapping pass and the blit of its output into cubemap face `i`, followed by
the mipmap-generation pass, once; the pass of `reflection_probe_pass` does not
occur in it. -/
theorem C17_rebuild_trace {Frustum Bounds Transform : Type}
    (P : render_primitives Frustum Bounds Transform)
    (ecs : entity_component_system Bounds Transform) (dt : float)
    (dirty_models : visibility_set_models_t Bounds Transform)
    (state : reflections_state Bounds Transform)
    (element : entity × transform_component Transform × reflection_probe_component)
    (hrebuild : probe_should_rebuild P dirty_models element.2.1 element.2.2 = some true) :
    ∃ (appended : List (render_event Bounds Transform)) (_lod_data' : lod_store),
      build_reflections_probe P ecs dt dirty_models state element
        = some (state.1 ++ appended, _lod_data') ∧
      appended
        = (List.range 6).flatMap (fun i =>
            [render_event.g_buffer_fill
               (face_visibility_set P ecs (P.get_face_camera i element.2.1.get_transform)
                 element.2.2.get_probe true),
             render_event.light_buffer_fill false,
             render_event.atmospherics_fill,
             render_event.output_buffer_fill,
             render_event.cubemap_fill i frame_buffer.output])
          ++ [render_event.cubemap_generate_mips] ∧
      appended.map render_event.name
        = ["g_buffer_fill", "light_buffer_fill", "atmospherics_fill", "output_buffer_fill",
           "cubemap_fill",
           "g_buffer_fill", "light_buffer_fill", "atmospherics_fill", "output_buffer_fill",
           "cubemap_fill",
           "g_buffer_fill", "light_buffer_fill", "atmospherics_fill", "output_buffer_fill",
           "cubemap_fill",
           "g_buffer_fill", "light_buffer_fill", "atmospherics_fill", "output_buffer_fill",
           "cubemap_fill",
           "g_buffer_fill", "light_buffer_fill", "atmospherics_fill", "output_buffer_fill",
           "cubemap_fill",
           "g_buffer_fill", "light_buffer_fill", "atmospherics_fill", "output_buffer_fill",
           "cubemap_fill",
           "cubemap_generate_mips"] ∧
      render_event.refl_buffer_fill ∉ appended := by
  have hb := build_reflections_probe_of_true P ecs dt dirty_models state element hrebuild
  rw [rebuild_probe_eq] at hb
  refine ⟨probe_rebuild_trace P ecs element.2.1.get_transform element.2.2.get_probe, _, hb,
    rfl, rfl, ?_⟩
  · intro hmem
    have hname : "refl_buffer_fill" ∈ (probe_rebuild_trace P ecs element.2.1.get_transform
        element.2.2.get_probe).map render_event.name :=
      List.mem_map_of_mem render_event.name hmem
    have hnames : (probe_rebuild_trace P ecs element.2.1.get_transform
        element.2.2.get_probe).map render_event.name
        = (List.range 6).flatMap (fun _ =>
            ["g_buffer_fill", "light_buffer_fill", "atmospherics_fill", "output_buffer_fill",
             "cubemap_fill"]) ++ ["cubemap_generate_mips"] := rfl
    rw [hnames] at hname
    revert hname
    decide

/-- Witness of C17: a dirty `static_only` probe. -/
theorem C17_rebuild_trace_witness :
    ∃ (appended : List (render_event ℚ ℚ)) (_lod_data' : lod_store),
      build_reflections_probe scenario_primitives
          (scenario_probe_ecs 50 false true reflect_method.static_only) (1/2) [] ([], [])
          (3, scenario_transform 0,
            { get_probe := { method := reflect_method.static_only }, is_dirty := true })
        = some ([] ++ appended, _lod_data') ∧
      appended
        = (List.range 6).flatMap (fun i =>
            [render_event.g_buffer_fill
               (face_visibility_set scenario_primitives
                 (scenario_probe_ecs 50 false true reflect_method.static_only)
                 (scenario_primitives.get_face_camera i (scenario_transform 0).get_transform)
                 { method := reflect_method.static_only } true),
             render_event.light_buffer_fill false,
             render_event.atmospherics_fill,
             render_event.output_buffer_fill,
             render_event.cubemap_fill i frame_buffer.output])
          ++ [render_event.cubemap_generate_mips] ∧
      appended.map render_event.name
        = ["g_buffer_fill", "light_buffer_fill", "atmospherics_fill", "output_buffer_fill",
           "cubemap_fill",
           "g_buffer_fill", "light_buffer_fill", "atmospherics_fill", "output_buffer_fill",
           "cubemap_fill",
           "g_buffer_fill", "light_buffer_fill", "atmospherics_fill", "output_buffer_fill",
           "cubemap_fill",
           "g_buffer_fill", "light_buffer_fill", "atmospherics_fill", "output_buffer_fill",
           "cubemap_fill",
           "g_buffer_fill", "light_buffer_fill", "atmospherics_fill", "output_buffer_fill",
           "cubemap_fill",
           "g_buffer_fill", "light_buffer_fill", "atmospherics_fill", "output_buffer_fill",
           "cubemap_fill",
           "cubemap_generate_mips"] ∧
      render_event.refl_buffer_fill ∉ appended :=
  C17_rebuild_trace scenario_primitives
    (scenario_probe_ecs 50 false true reflect_method.static_only) (1/2) [] ([], [])
    (3, scenario_transform 0,
      { get_probe := { method := reflect_method.static_only }, is_dirty := true }) rfl

/-! ## Lemmas on the LOD tables of the passes -/

theorem find_set_self {α : Type} (m : unordered_map α) (key : entity) (value : α) :
    unordered_map.find (unordered_map.set m key value) key = some value := by
  induction m with
  | nil => simp [unordered_map.set, unordered_map.find]
  | cons p rest ih =>
    obtain ⟨k, v⟩ := p
    by_cases hk : k = key
    · simp [unordered_map.set, unordered_map.find, hk]
    · simp [unordered_map.set, unordered_map.find, hk, ih]

theorem find_set_of_ne {α : Type} (m : unordered_map α) (key x : entity) (value : α)
    (hx : x ≠ key) :
    unordered_map.find (unordered_map.set m key value) x = unordered_map.find m x := by
  induction m with
  | nil =>
    have hkx : ¬ key = x := fun h => hx h.symm
    simp [unordered_map.set, unordered_map.find, hkx]
  | cons p rest ih =>
    obtain ⟨k, v⟩ := p
    by_cases hk : k = key
    · subst hk
      have hkx : ¬ k = x := fun h => hx h.symm
      simp [unordered_map.set, unordered_map.find, hkx]
    · by_cases hkx : k = x
      · subst hkx
        simp [unordered_map.set, unordered_map.find, hk]
      · simp [unordered_map.set, unordered_map.find, hk, hkx, ih]

theorem get_or_set_self {α : Type} (m : unordered_map α) (key : entity) (value init : α) :
    unordered_map.get_or (unordered_map.set m key value) key init = value := by
  unfold unordered_map.get_or
  rw [find_set_self]
  rfl

theorem foldl_faces_store (G : Nat → unordered_map lod_data → unordered_map lod_data)
    (ce : entity) (faces : List Nat) (_lod_data : lod_store) :
    unordered_map.get_or
        (faces.foldl (fun store i =>
          unordered_map.set (unordered_map.set store ce (unordered_map.get_or store ce [])) ce
            (G i (unordered_map.get_or store ce []))) _lod_data) ce []
      = faces.foldl (fun camera_lods i => G i camera_lods) (unordered_map.get_or _lod_data ce []) ∧
    ∀ c, c ≠ ce →
      unordered_map.find
          (faces.foldl (fun store i =>
            unordered_map.set (unordered_map.set store ce (unordered_map.get_or store ce [])) ce
              (G i (unordered_map.get_or store ce []))) _lod_data) c
        = unordered_map.find _lod_data c := by
  induction faces generalizing _lod_data with
  | nil => exact ⟨rfl, fun _ _ => rfl⟩
  | cons i rest ih =>
    rw [List.foldl_cons, List.foldl_cons]
    obtain ⟨h1, h2⟩ := ih
      (unordered_map.set
        (unordered_map.set _lod_data ce (unordered_map.get_or _lod_data ce [])) ce
        (G i (unordered_map.get_or _lod_data ce [])))
    refine ⟨?_, fun c hc => ?_⟩
    · rw [h1, get_or_set_self]
    · rw [h2 c hc, find_set_of_ne _ _ _ _ hc, find_set_of_ne _ _ _ _ hc]

theorem foldl_g_buffer_pass_element_params {Frustum Bounds Transform : Type}
    (P : render_primitives Frustum Bounds Transform) (camera : camera Frustum) (dt : float)
    (visibility_set : locked_visibility_set Bounds Transform) (state : g_buffer_result)
    (hstate : ∀ draw ∈ state.draws, draw.u_lod_params.2.2 ≠ none)
    (htt : ∀ element ∈ visibility_set, ∀ model : model_component Bounds,
      element.2.2 = some model → model.get_lod_transition_time.is_zero = false) :
    ∀ draw ∈ (visibility_set.foldl (g_buffer_pass_element P camera dt) state).draws,
      draw.u_lod_params.2.2 ≠ none := by
  induction visibility_set generalizing state with
  | nil => exact hstate
  | cons x xs ih =>
    rw [List.foldl_cons]
    apply ih
    · obtain ⟨e, t, m⟩ := x
      cases t with
      | none => exact hstate
      | some transform_comp =>
        cases m with
        | none => exact hstate
        | some model =>
          have h0 : model.get_lod_transition_time.is_zero = false :=
            htt (e, some transform_comp, some model) (List.mem_cons_self _ _) model rfl
          unfold g_buffer_pass_element
          simp only
          split_ifs
          all_goals
            first
            | exact hstate
            | (cases hm : model.get_lod
                  (unordered_map.get_or state.camera_lods e lod_data.zero).current_lod_index with
               | none => exact hstate
               | some current_mesh =>
                 simp only
                 intro draw hd
                 simp only [List.mem_append, List.mem_singleton, or_assoc] at hd
                 rcases hd with hd | hd
                 · exact hstate draw hd
                 · first
                   | (rcases hd with hd | hd <;> (subst hd; simp [float_div, h0]))
                   | (subst hd; simp [float_div, h0]))
    · exact fun element he => htt element (List.mem_cons_of_mem _ he)

/-! ## Claims on the lighting pass, the per-face LOD state and the blend weights -/

/-- C18 (the code at the failing input): `lighting_pass` does not read
`bind_indirect_specular`: for every light the draws with the flag false are the
draws with the flag true; and called with the flag false for a directional light
that overlaps the viewport, with its program installed, it submits one draw that
has the reflection buffer bound to sampler slot 5, `s_tex5`. -/
theorem C18_reflection_buffer_bound_with_flag_false :
    (∀ (programs : light_programs) (bind_indirect_specular : Bool) (rect_result : Int)
        (light : light),
      lighting_pass_light programs bind_indirect_specular rect_result light
        = lighting_pass_light programs true rect_result light) ∧
    lighting_pass (fun _ _ _ => 1) scenario_programs scenario_camera scenario_light_ecs false
      = [{ program := light_type.directional,
           uniforms := ["u_light_direction", "u_light_color_intensity", "u_camera_position"],
           textures :=
             [(0, "s_tex0", texture.g_buffer_attachment 0),
              (1, "s_tex1", texture.g_buffer_attachment 1),
              (2, "s_tex2", texture.g_buffer_attachment 2),
              (3, "s_tex3", texture.g_buffer_attachment 3),
              (4, "s_tex4", texture.g_buffer_attachment 4),
              (5, "s_tex5", texture.refl_buffer),
              (6, "s_tex6", texture.ibl_brdf_lut)] }] ∧
    lighting_pass (fun _ _ _ => 1) scenario_programs scenario_camera scenario_light_ecs false
      = lighting_pass (fun _ _ _ => 1) scenario_programs scenario_camera scenario_light_ecs
          true := by
  refine ⟨fun programs bind_indirect_specular rect_result light => rfl, ?_, rfl⟩
  decide

/-- C19 (as the claim states it, refuted): a dirty `static_only` probe (entity
3) and a static reflection caster (entity 7) at LOD distance 55, with
`dt = 1/2` and transition time 1, the LOD store empty.  Face 0 reads the zero
state for entity 7 and leaves `(0, 1, 1/2)` in the probe's table; this is the
state face 1 reads, and face 1 leaves `(1, 1, 0)`; rendered on an untouched
store, face 1 would read the zero state and leave `(0, 1, 1/2)`.  After the six
faces the state is `(1, 1, 0)`. -/
theorem C19_counterexample :
    (build_reflections_face scenario_primitives
        (scenario_probe_ecs 55 false true reflect_method.static_only) (1/2) 3 0
        { method := reflect_method.static_only } true ([], []) 0).map
        (fun state => unordered_map.get_or (unordered_map.get_or state.2 3 []) 7 lod_data.zero)
      = some ⟨0, 1, 1/2⟩ ∧
    ((build_reflections_face scenario_primitives
        (scenario_probe_ecs 55 false true reflect_method.static_only) (1/2) 3 0
        { method := reflect_method.static_only } true ([], []) 0).bind
        (fun state => build_reflections_face scenario_primitives
          (scenario_probe_ecs 55 false true reflect_method.static_only) (1/2) 3 0
          { method := reflect_method.static_only } true state 1)).map
        (fun state => unordered_map.get_or (unordered_map.get_or state.2 3 []) 7 lod_data.zero)
      = some ⟨1, 1, 0⟩ ∧
    (build_reflections_face scenario_primitives
        (scenario_probe_ecs 55 false true reflect_method.static_only) (1/2) 3 0
        { method := reflect_method.static_only } true ([], []) 1).map
        (fun state => unordered_map.get_or (unordered_map.get_or state.2 3 []) 7 lod_data.zero)
      = some ⟨0, 1, 1/2⟩ ∧
    (rebuild_probe scenario_primitives
        (scenario_probe_ecs 55 false true reflect_method.static_only) (1/2) 3 0
        { method := reflect_method.static_only } true ([], [])).map
        (fun state => unordered_map.get_or (unordered_map.get_or state.2 3 []) 7 lod_data.zero)
      = some ⟨1, 1, 0⟩ := by
  decide!

/-- C19 (amended): LOD state is kept per observing entity, one table
`_lod_data[ce]` per camera or probe entity, and the six cube faces of a probe
share the probe's table: a rebuild leaves in `_lod_data[ce]` the table obtained
by running `g_buffer_pass` for the faces 0 to 5 in that order, each face on the
table the previous face left; the tables of the other cameras and probes are
unchanged. -/
theorem C19_faces_share_probe_table {Frustum Bounds Transform : Type}
    (P : render_primitives Frustum Bounds Transform)
    (ecs : entity_component_system Bounds Transform) (dt : float)
    (ce : entity) (world_tranform : Transform) (probe : reflection_probe)
    (state : reflections_state Bounds Transform) :
    ∃ (trace' : List (render_event Bounds Transform)) (_lod_data' : lod_store),
      rebuild_probe P ecs dt ce world_tranform probe true state = some (trace', _lod_data') ∧
      unordered_map.get_or _lod_data' ce []
        = (List.range 6).foldl (fun camera_lods i =>
            (g_buffer_pass P (P.get_face_camera i world_tranform)
              (lock_handles
                (face_visibility_set P ecs (P.get_face_camera i world_tranform) probe true))
              camera_lods dt).camera_lods) (unordered_map.get_or state.2 ce []) ∧
      ∀ c, c ≠ ce → unordered_map.find _lod_data' c = unordered_map.find state.2 c := by
  refine ⟨_, _, rebuild_probe_eq P ecs dt ce world_tranform probe state, ?_⟩
  exact foldl_faces_store
    (fun i camera_lods =>
      (g_buffer_pass P (P.get_face_camera i world_tranform)
        (lock_handles (face_visibility_set P ecs (P.get_face_camera i world_tranform) probe true))
        camera_lods dt).camera_lods) ce (List.range 6) state.2

/-- Witness of C19 (amended): the rebuild of probe 3 on a store that holds a
table of camera 1; that table is unchanged. -/
theorem C19_faces_share_probe_table_witness :
    ∃ (trace' : List (render_event ℚ ℚ)) (_lod_data' : lod_store),
      rebuild_probe scenario_primitives
          (scenario_probe_ecs 55 false true reflect_method.static_only) (1/2) 3 0
          { method := reflect_method.static_only } true ([], scenario_store)
        = some (trace', _lod_data') ∧
      unordered_map.find _lod_data' 1 = unordered_map.find scenario_store 1 :=
  match C19_faces_share_probe_table scenario_primitives
      (scenario_probe_ecs 55 false true reflect_method.static_only) (1/2) 3 0
      { method := reflect_method.static_only } ([], scenario_store) with
  | ⟨trace', _lod_data', h, _, hother⟩ => ⟨trace', _lod_data', h, hother 1 (by decide)⟩

/-- C20 (as the claim states it, refuted): a visible model whose LOD transition
time is 0; the third component of `u_lod_params` of its draw is a quotient with
the divisor 0. -/
theorem C20_counterexample :
    (gather_visible_models axis_test_obb scenario_instant_ecs (some scenario_camera)
      false false false).length = 1 ∧
    (g_buffer_pass scenario_primitives scenario_camera
      (lock_handles (gather_visible_models axis_test_obb scenario_instant_ecs
        (some scenario_camera) false false false)) [] (1/2)).draws
      = [{ lod := 0, u_lod_params := (0, -1, none) }] := by
  decide!

/-- C20 (amended): for a visibility set in which every model has a non-zero LOD
transition time (the test `transition_time == 0.0f` is false), every
blend-weight triple that `g_buffer_pass` passes to a draw is computed without
dividing by zero. -/
theorem C20_blend_weights_defined {Frustum Bounds Transform : Type}
    (P : render_primitives Frustum Bounds Transform) (camera : camera Frustum)
    (visibility_set : locked_visibility_set Bounds Transform)
    (camera_lods : unordered_map lod_data) (dt : float)
    (htt : ∀ element ∈ visibility_set, ∀ model : model_component Bounds,
      element.2.2 = some model → model.get_lod_transition_time.is_zero = false) :
    ∀ draw ∈ (g_buffer_pass P camera visibility_set camera_lods dt).draws,
      draw.u_lod_params.2.2 ≠ none :=
  foldl_g_buffer_pass_element_params P camera dt visibility_set
    { draws := [], camera_lods := camera_lods } (fun _ h => absurd h (List.not_mem_nil _)) htt

/-- Witness of C20 (amended): the model of transition time 1 in the middle of a
transition from LOD 0 to LOD 1, at time 1/4: the two draws carry the triples
`(0, -1, 3/4)` and `(1, 1, 1/4)`, both defined. -/
theorem C20_blend_weights_defined_witness :
    (g_buffer_pass scenario_primitives scenario_camera
        (lock_handles [((7 : entity), scenario_transform 55, scenario_model true true false)])
        [(7, ⟨0, 1, 1/4⟩)] (1/2)).draws
      = [{ lod := 0, u_lod_params := (0, -1, some (3/4)) },
         { lod := 1, u_lod_params := (1, 1, some (1/4)) }] ∧
    ({ lod := 1, u_lod_params := (1, 1, some (1/4)) } : model_draw).u_lod_params.2.2 ≠ none :=
  ⟨by decide!,
   C20_blend_weights_defined scenario_primitives scenario_camera
    (lock_handles [((7 : entity), scenario_transform 55, scenario_model true true false)])
    [(7, ⟨0, 1, 1/4⟩)] (1/2)
    (by
      intro element he model hm
      simp [lock_handles] at he
      subst he
      simp at hm
      subst hm
      decide!)
    { lod := 1, u_lod_params := (1, 1, some (1/4)) } (by decide!)⟩

/-! ## Claims on the draws and the face rotations -/

theorem g_buffer_pass_element_draws {Frustum Bounds Transform : Type}
    (P : render_primitives Frustum Bounds Transform) (camera : camera Frustum) (dt : float)
    (state : g_buffer_result) (e : entity) (transform_comp : transform_component Transform)
    (model : model_component Bounds) (current_mesh : mesh Bounds)
    (hvalid : model.is_valid = true)
    (hmesh : model.get_lod
      (unordered_map.get_or state.camera_lods e lod_data.zero).current_lod_index
        = some current_mesh) :
    (g_buffer_pass_element P camera dt state (e, some transform_comp, some model)).draws
      = state.draws
        ++ [{ lod := (unordered_map.get_or state.camera_lods e lod_data.zero).current_lod_index,
              u_lod_params := (0, -1,
                float_div (model.get_lod_transition_time
                  - (unordered_map.get_or state.camera_lods e lod_data.zero).current_time)
                  model.get_lod_transition_time) }]
        ++ (if (unordered_map.get_or state.camera_lods e lod_data.zero).current_time.is_zero
              = false then
              [{ lod := (unordered_map.get_or state.camera_lods e lod_data.zero).target_lod_index,
                 u_lod_params := (1, 1,
                   float_div (unordered_map.get_or state.camera_lods e lod_data.zero).current_time
                     model.get_lod_transition_time) }]
            else []) := by
  unfold g_buffer_pass_element
  simp only [hvalid, hmesh, Bool.not_true, Bool.false_eq_true, if_false]
  split_ifs <;> simp

/-- The loop body appends to the draws and works on the LOD table alone. -/
theorem g_buffer_pass_element_appends {Frustum Bounds Transform : Type}
    (P : render_primitives Frustum Bounds Transform) (camera : camera Frustum) (dt : float)
    (state : g_buffer_result)
    (element : entity × Option (transform_component Transform) × Option (model_component Bounds)) :
    g_buffer_pass_element P camera dt state element
      = { draws := state.draws ++
            (g_buffer_pass_element P camera dt { draws := [], camera_lods := state.camera_lods }
              element).draws,
          camera_lods :=
            (g_buffer_pass_element P camera dt { draws := [], camera_lods := state.camera_lods }
              element).camera_lods } := by
  obtain ⟨e, t, m⟩ := element
  obtain ⟨draws, lods⟩ := state
  cases t with
  | none => simp [g_buffer_pass_element]
  | some transform_comp =>
    cases m with
    | none => simp [g_buffer_pass_element]
    | some model =>
      unfold g_buffer_pass_element
      simp only
      cases hm : model.get_lod (unordered_map.get_or lods e lod_data.zero).current_lod_index <;>
        split_ifs <;> simp

theorem foldl_g_buffer_pass_element_appends {Frustum Bounds Transform : Type}
    (P : render_primitives Frustum Bounds Transform) (camera : camera Frustum) (dt : float)
    (visibility_set : locked_visibility_set Bounds Transform) (state : g_buffer_result) :
    visibility_set.foldl (g_buffer_pass_element P camera dt) state
      = { draws := state.draws ++
            (g_buffer_pass P camera visibility_set state.camera_lods dt).draws,
          camera_lods := (g_buffer_pass P camera visibility_set state.camera_lods dt).camera_lods } := by
  induction visibility_set generalizing state with
  | nil => simp [g_buffer_pass]
  | cons x xs ih =>
    unfold g_buffer_pass
    rw [List.foldl_cons, List.foldl_cons, ih, ih (g_buffer_pass_element P camera dt
      { draws := [], camera_lods := state.camera_lods } x)]
    rw [g_buffer_pass_element_appends P camera dt state x]
    simp [List.append_assoc]

/-- C21: for a visibility-set entry whose handles resolve, whose model is valid
and whose current-LOD mesh is available, and for a LOD state of the entity
reached from the zero state by `update_lod_data` calls with `dt > 0` (a `float`
value) and `transition_time > 0`, the draws of `g_buffer_pass` are: the draws
for the entries before it; for the entry one draw at `current_lod_index`,
followed by a second draw, at `target_lod_index`, exactly when
`target_lod_index != current_lod_index` in the state read for the entry; then
the draws for the entries after it. -/
theorem C21_draws_per_entry {Frustum Bounds Transform : Type}
    (P : render_primitives Frustum Bounds Transform) (camera : camera Frustum) (dt : float)
    (before after : locked_visibility_set Bounds Transform)
    (camera_lods : unordered_map lod_data)
    (e : entity) (transform_comp : transform_component Transform)
    (model : model_component Bounds) (current_mesh : mesh Bounds) (calls : List lod_call)
    (hcalls : ∀ c ∈ calls, 0 < c.dt ∧ 0 < c.transition_time ∧ c.dt.is_binary32)
    (hread : unordered_map.get_or (g_buffer_pass P camera before camera_lods dt).camera_lods e
        lod_data.zero
      = run_updates lod_data.zero calls)
    (hvalid : model.is_valid = true)
    (hmesh : model.get_lod (run_updates lod_data.zero calls).current_lod_index
      = some current_mesh) :
    (g_buffer_pass P camera (before ++ (e, some transform_comp, some model) :: after)
        camera_lods dt).draws
      = (g_buffer_pass P camera before camera_lods dt).draws
        ++ [{ lod := (run_updates lod_data.zero calls).current_lod_index,
              u_lod_params := (0, -1,
                float_div (model.get_lod_transition_time
                  - (run_updates lod_data.zero calls).current_time)
                  model.get_lod_transition_time) }]
        ++ (if (run_updates lod_data.zero calls).target_lod_index
              ≠ (run_updates lod_data.zero calls).current_lod_index then
              [{ lod := (run_updates lod_data.zero calls).target_lod_index,
                 u_lod_params := (1, 1,
                   float_div (run_updates lod_data.zero calls).current_time
                     model.get_lod_transition_time) }]
            else [])
        ++ (g_buffer_pass P camera after
              (g_buffer_pass P camera (before ++ [(e, some transform_comp, some model)])
                camera_lods dt).camera_lods dt).draws := by
  have hsplit : g_buffer_pass P camera (before ++ (e, some transform_comp, some model) :: after)
      camera_lods dt
      = after.foldl (g_buffer_pass_element P camera dt)
          (g_buffer_pass_element P camera dt (g_buffer_pass P camera before camera_lods dt)
            (e, some transform_comp, some model)) := by
    unfold g_buffer_pass
    rw [List.foldl_append, List.foldl_cons]
  have hone : g_buffer_pass P camera (before ++ [(e, some transform_comp, some model)])
      camera_lods dt
      = g_buffer_pass_element P camera dt (g_buffer_pass P camera before camera_lods dt)
          (e, some transform_comp, some model) := by
    unfold g_buffer_pass
    rw [List.foldl_append, List.foldl_cons, List.foldl_nil]
  rw [hsplit, foldl_g_buffer_pass_element_appends, hone]
  show (g_buffer_pass_element P camera dt (g_buffer_pass P camera before camera_lods dt)
      (e, some transform_comp, some model)).draws ++ _ = _
  rw [g_buffer_pass_element_draws P camera dt _ e transform_comp model current_mesh hvalid
    (by rw [hread]; exact hmesh), hread]
  obtain ⟨h1, h2⟩ := run_updates_in_transition calls fun c hc =>
    ⟨(hcalls c hc).1, (hcalls c hc).2.2⟩
  by_cases hts : (run_updates lod_data.zero calls).target_lod_index
      = (run_updates lod_data.zero calls).current_lod_index
  · have ht0 := h1 hts.symm
    have hz : (run_updates lod_data.zero calls).current_time.is_zero = true := by
      rw [ht0]
      decide!
    simp [hts, hz]
  · have hpos := h2 fun h => hts h.symm
    have hz : (run_updates lod_data.zero calls).current_time.is_zero = false :=
      float_is_zero_of_pos hpos
    simp [hts, hz]

/-- Witness of C21: entity 7 in the transition from LOD 0 to LOD 1, in the state
`(0, 1, 1/2)` reached from the zero state by one call at distance 55 with
`dt = 1/2` and transition time 1, followed in the visibility set by entity 8,
whose state is the zero state: two draws for entity 7, at LOD 0 and at LOD 1,
then one draw for entity 8. -/
theorem C21_draws_per_entry_witness :
    (g_buffer_pass scenario_primitives scenario_camera
        ([] ++ (7, some (scenario_transform 55), some (scenario_model true true false)) ::
          [(8, some (scenario_transform 5), some (scenario_model true true false))])
        [(7, ⟨0, 1, 1/2⟩)] (1/2)).draws
      = [{ lod := 0, u_lod_params := (0, -1, some (1/2)) },
         { lod := 1, u_lod_params := (1, 1, some (1/2)) },
         { lod := 0, u_lod_params := (0, -1, some 1) }] :=
  (C21_draws_per_entry scenario_primitives scenario_camera (1/2) []
    [(8, some (scenario_transform 5), some (scenario_model true true false))]
    [(7, ⟨0, 1, 1/2⟩)] 7 (scenario_transform 55)
    (scenario_model true true false) { get_bounds := 1 } [⟨4, 10, 100, 1, 55, 1/2⟩]
    (by
      intro c hc
      rw [List.mem_singleton] at hc
      subst hc
      decide!)
    (by decide!) rfl rfl).trans (by decide!)

/-- C22: the draws of `lighting_pass` are, for the lights of the scene in
iteration order, the draws of the callback for each light; and for every light
the callback submits exactly one draw, using the program of the light's type,
when the projected-sphere rectangle computation returns a non-zero result and
the program of that type is installed; it submits no draw when the result is 0
or the program of that type is not installed. -/
theorem C22_one_draw_per_lit_light {Frustum Bounds Transform : Type}
    (compute_projected_sphere_rect :
      camera Frustum → transform_component Transform → light_component → Int)
    (programs : light_programs) (camera : camera Frustum)
    (ecs : entity_component_system Bounds Transform) (bind_indirect_specular : Bool) :
    ∃ light_draws : entity × transform_component Transform × light_component → List light_draw,
      lighting_pass compute_projected_sphere_rect programs camera ecs bind_indirect_specular
        = (each_transform_light ecs).flatMap light_draws ∧
      ∀ element ∈ each_transform_light ecs,
        (compute_projected_sphere_rect camera element.2.1 element.2.2 ≠ 0 →
          programs.installed element.2.2.get_light.type = true →
          ∃ draw : light_draw,
            light_draws element = [draw] ∧ draw.program = element.2.2.get_light.type) ∧
        (compute_projected_sphere_rect camera element.2.1 element.2.2 = 0 ∨
            programs.installed element.2.2.get_light.type = false →
          light_draws element = []) := by
  refine ⟨fun element => lighting_pass_light programs bind_indirect_specular
    (compute_projected_sphere_rect camera element.2.1 element.2.2) element.2.2.get_light, rfl,
    fun element _ => ?_⟩
  beta_reduce
  generalize compute_projected_sphere_rect camera element.2.1 element.2.2 = rect_result
  generalize element.2.2.get_light = light
  obtain ⟨type⟩ := light
  obtain ⟨d, p, s⟩ := programs
  constructor
  · intro hr hi
    cases type <;> simp only [light_programs.installed] at hi <;> subst hi <;>
      simp [lighting_pass_light, hr]
  · intro h
    rcases h with h | h
    · simp [lighting_pass_light, h]
    · cases type <;> simp only [light_programs.installed] at h <;> subst h <;>
        simp [lighting_pass_light]

/-- Witness of C22: the pass on the scene with one directional light that
overlaps the viewport submits one draw, with the directional program, when the
programs are installed, and no draw when the directional program is not. -/
theorem C22_one_draw_per_lit_light_witness :
    (∃ draw : light_draw,
      lighting_pass (fun _ _ _ => 1) scenario_programs scenario_camera scenario_light_ecs true
        = [draw] ++ [] ∧
      draw.program = light_type.directional) ∧
    lighting_pass (fun _ _ _ => 1)
        { _directional_light_program := false, _point_light_program := true,
          _spot_light_program := true } scenario_camera scenario_light_ecs true = [] ++ [] :=
  ⟨match C22_one_draw_per_lit_light (fun _ _ _ => 1) scenario_programs scenario_camera
        scenario_light_ecs true with
    | ⟨light_draws, h, hall⟩ =>
      match (hall (5, scenario_transform 20,
          { get_light := { type := light_type.directional } })
          (by simp [scenario_light_ecs, each_transform_light])).1 (by decide) rfl with
      | ⟨draw, hd, hp⟩ =>
        ⟨draw, by
          have hlist : (each_transform_light scenario_light_ecs).flatMap light_draws
              = light_draws (5, scenario_transform 20,
                  { get_light := { type := light_type.directional } }) ++ [] := rfl
          rw [h, hlist, hd], hp⟩,
   match C22_one_draw_per_lit_light (fun _ _ _ => 1)
        { _directional_light_program := false, _point_light_program := true,
          _spot_light_program := true } scenario_camera scenario_light_ecs true with
    | ⟨light_draws, h, hall⟩ => by
      have hn := (hall (5, scenario_transform 20,
          { get_light := { type := light_type.directional } })
          (by simp [scenario_light_ecs, each_transform_light])).2 (Or.inr rfl)
      have hlist : (each_transform_light scenario_light_ecs).flatMap light_draws
          = light_draws (5, scenario_transform 20,
              { get_light := { type := light_type.directional } }) ++ [] := rfl
      rw [h, hlist, hn]⟩

/-- C23: for every face index in 0..5 and either origin convention, the rotation
that `get_face_camera` sets is a right-handed orthonormal triple of signed world
axes (`x` cross `y` is `z`); when the graphics origin is not bottom-left the
forward (`z`) axes of the faces 0..5 are `+X, -X, +Y, -Y, +Z, -Z`; when it is
bottom-left the rotations of the faces 2 and 3 are exchanged and those of the
faces 0, 1, 4 and 5 are the same as in the other convention. -/
theorem C23_face_rotations :
    (∀ (is_origin_bottom_left : Bool) (face : Nat), face < 6 →
      ∃ t : vec3 × vec3 × vec3,
        face_rotation is_origin_bottom_left face = some t ∧ is_right_handed_axes t) ∧
    (List.range 6).map (fun face => (face_rotation false face).map fun t => t.2.2)
      = [some axis_X, some (vec3.neg axis_X), some axis_Y, some (vec3.neg axis_Y),
         some axis_Z, some (vec3.neg axis_Z)] ∧
    face_rotation true 2 = face_rotation false 3 ∧
    face_rotation true 3 = face_rotation false 2 ∧
    face_rotation true 0 = face_rotation false 0 ∧
    face_rotation true 1 = face_rotation false 1 ∧
    face_rotation true 4 = face_rotation false 4 ∧
    face_rotation true 5 = face_rotation false 5 := by
  refine ⟨?_, rfl, rfl, rfl, rfl, rfl, rfl, rfl⟩
  intro b face hface
  interval_cases face <;> cases b <;> exact ⟨_, rfl, by decide!⟩

/-- Witness of C23 at face 2 with the origin not bottom-left: the rotation
`(+X, -Z, +Y)`. -/
theorem C23_face_rotations_witness :
    ∃ t : vec3 × vec3 × vec3, face_rotation false 2 = some t ∧ is_right_handed_axes t :=
  C23_face_rotations.1 false 2 (by norm_num)

end runtime
